import Mathlib

/-!
Resilient payment orchestration: payment ledger, wallet ledger, refund saga.

A shallow embedding of the Go services

* `lambdas/invoice-processor` (`PaymentService`, `PaymentRepository`),
* `lambdas/wallet-service` (`WalletService`, `WalletRepository`, and the debit
  handler of `WalletHandler`),
* `lambdas/refund-service` (`RefundService`, `RefundRepository`),

over an explicit model of the DynamoDB tables they share, and of the two circuit
breakers of `lambdas/payments-adapter` (`resilience.CircuitBreaker`, and the
gobreaker settings and state report of `circuitbreaker.CircuitBreakerClient`)
with the request validation of `PaymentAdapterService` in front of them.

Modelling conventions

* A table is a list of items; `getItem`, `putItem`, `updateItem` are the
  key-addressed `GetItem`, `PutItem` and `UpdateItem` calls, `scanItems` is `Scan`
  with a filter.  Every function that talks to DynamoDB takes the table state in
  and gives the new table state back.
* Every SDK call can fail without touching the table (transport error,
  throttling, timeout before the write).  Whether it does is decided by the
  environment: each call site has a boolean in the environment record of the
  function (`true`: the call reaches the table).
* Calls run one after another.  The one interleaving that is modelled is in
  `WalletRepository.GetWallet`: the environment says what other callers write
  between its `GetItem` and the `PutItem` that creates a missing wallet.
* `uuid.New()` and `time.Now()` are inputs taken from the environment record.
  The zero `time.Time` is `0`.
* Go `float64` values are rationals and their comparisons are exact.  The sum
  and the difference that the wallet writes compute are rounded to float64
  (`float64`).  Where the code renders a number with a fixed number of decimals
  (`%f`, `%.2f`) before handing it to DynamoDB, the rendering is modelled by
  `formatFixed`: correct rounding to that many decimals, ties to even; the
  additions that DynamoDB makes itself are exact.  In
  `circuitbreaker.ReadyToTrip` the rounding of the quotient is a parameter.
* The breaker of `resilience` is modelled for calls made one after another; its
  mutex is left out.  The clock is an input of each call.
* Go `int` is `ℤ`.  The version increment of the wallet writes wraps around like
  a 64-bit `int` (`wrapInt64`); the counters of the breaker are taken below that
  bound.
* Go errors are values of `Err`, one constructor per way the code builds them;
  `Err.Error` is the message, built by a model of `fmt.Sprintf`, and a Go string
  is measured and sliced in bytes (`utf8Bytes`).
* Logging has no effect on any table or result and is left out.
-/

set_option autoImplicit false

/-! ## Numbers -/

/-- Nearest integer to `q`, ties to the even neighbour. -/
def roundHalfEven (q : ℚ) : ℤ :=
  let f : ℤ := ⌊q⌋
  let r : ℚ := q - f
  if r < 1 / 2 then f
  else if 1 / 2 < r then f + 1
  else if f % 2 = 0 then f else f + 1

/-- The number that `fmt.Sprintf` renders for a value with `k` decimals
(`%f` is `k = 6`, `%.2f` is `k = 2`). -/
def formatFixed (k : ℕ) (q : ℚ) : ℚ :=
  (roundHalfEven (q * 10 ^ k) : ℚ) / 10 ^ k

/-- The value `q` has at most `k` decimal places. -/
def HasDecimals (k : ℕ) (q : ℚ) : Prop :=
  ∃ n : ℤ, q * 10 ^ k = n

/-- The `float64` value nearest to `q` (IEEE 754 binary64, round to nearest, ties
to even): 53 significant bits, with the spacing `2 ^ (e - 52)` in the binade
`2 ^ e ≤ |q| < 2 ^ (e + 1)` and the spacing of the subnormals below
`2 ^ (-1022)`.  The float64 operations `+` and `-` of Go return this rounding of
the exact result.  Overflow to infinity (a result of magnitude `2 ^ 1024` or
more) is not modelled. -/
def float64 (q : ℚ) : ℚ :=
  let e : ℤ := max (Int.log 2 |q|) (-1022)
  (roundHalfEven (q / 2 ^ (e - 52)) : ℚ) * 2 ^ (e - 52)

/-- The value of a Go `int` expression whose exact value is `n`: `int` has 64
bits on the platforms of AWS Lambda and its arithmetic wraps around (two's
complement). -/
def wrapInt64 (n : ℤ) : ℤ :=
  (n + 9223372036854775808) % 18446744073709551616 - 9223372036854775808

/-! ## Errors -/

/-- An argument of a format string. -/
inductive FmtArg where
  | str (v : String)
  | num (v : ℚ)
  deriving DecidableEq

/-- Go error values.
* `sdk`: the error returned by an AWS SDK call that did not go through;
* `errorf format args`: `fmt.Errorf(format, args...)` without `%w`;
* `wrapf format cause`: `fmt.Errorf(format, cause)` with one `%w`. -/
inductive Err where
  | sdk : Err
  | errorf (format : String) (args : List FmtArg) : Err
  | wrapf (format : String) (cause : Err) : Err
  deriving DecidableEq

/-! ## Tables -/

/-- The item stored under key `k`, if any (`GetItem`). -/
def getItem {α : Type} (key : α → String) (k : String) : List α → Option α
  | [] => none
  | y :: ys => if key y = k then some y else getItem key k ys

/-- Store `x` under its key, replacing the item that has that key (`PutItem`). -/
def putItem {α : Type} (key : α → String) (x : α) : List α → List α
  | [] => [x]
  | y :: ys => if key y = key x then x :: ys else y :: putItem key x ys

/-- The items that pass the filter, in table order (`Scan` with a filter expression). -/
def scanItems {α : Type} (filter : α → Bool) (tbl : List α) : List α :=
  tbl.filter filter

/-- `UpdateItem` on key `k`: the condition expression is evaluated on the stored
item (on no item when the key is absent); when it holds the update expression
is applied and the result stored, creating the item when the key is absent.
`none` is `ConditionalCheckFailedException`. -/
def updateItem {α : Type} (key : α → String) (k : String)
    (cond : Option α → Bool) (upd : Option α → α) (tbl : List α) : Option (List α) :=
  let cur := getItem key k tbl
  if cond cur then some (putItem key (upd cur) tbl) else none

/-! ## Shared types (`shared/types`) -/

/-- Go `types.PaymentStatus`, a string type. -/
abbrev PaymentStatus := String

def PaymentStatusPending : PaymentStatus := "PENDING"

def PaymentStatusProcessing : PaymentStatus := "PROCESSING"

def PaymentStatusCompleted : PaymentStatus := "COMPLETED"

def PaymentStatusFailed : PaymentStatus := "FAILED"

def PaymentStatusRefunded : PaymentStatus := "REFUNDED"

/-- Go `map[string]string`; the nil map and the empty map are both `[]`. -/
abbrev StringMap := List (String × String)

/-- Map read `m[k]`. -/
def StringMap.get (m : StringMap) (k : String) : Option String :=
  (getItem Prod.fst k m).map Prod.snd

/-- Map write `m[k] = v`. -/
def StringMap.set (m : StringMap) (k v : String) : StringMap :=
  putItem Prod.fst (k, v) m

/-- Go `types.Payment`. -/
structure Payment where
  ID : String
  UserID : String
  Amount : ℚ
  Currency : String
  Status : PaymentStatus
  ExternalID : String
  CorrelationID : String
  Metadata : StringMap
  RefundReason : String
  CreatedAt : ℕ
  UpdatedAt : ℕ
  deriving DecidableEq

/-- Go `types.PaymentEvent`; metadata values are strings or numbers. -/
structure PaymentEvent where
  ID : String
  PaymentID : String
  UserID : String
  EventType : String
  Amount : ℚ
  Status : String
  Metadata : List (String × FmtArg)
  CorrelationID : String
  Timestamp : ℕ
  deriving DecidableEq

/-- Go `types.Wallet`. -/
structure Wallet where
  UserID : String
  Balance : ℚ
  Currency : String
  Version : ℤ
  UpdatedAt : ℕ
  CreatedAt : ℕ
  deriving DecidableEq

/-- Go `types.WalletTransaction`; `TxType` is the field `Type` (`DEBIT` or `CREDIT`). -/
structure WalletTransaction where
  ID : String
  UserID : String
  PaymentID : String
  TxType : String
  Amount : ℚ
  BalanceBefore : ℚ
  BalanceAfter : ℚ
  Timestamp : ℕ
  deriving DecidableEq

def EventWalletDebited : String := "wallet.debited"

def EventWalletCredited : String := "wallet.credited"

/-- An item of the wallets table.  `Version` is optional because the refund
service creates wallet items that carry no `Version` attribute; the other
attributes are read with their zero value when absent and nothing in the code
tests their presence. -/
structure WalletItem where
  UserID : String
  Balance : ℚ
  Currency : String
  Version : Option ℤ
  UpdatedAt : ℕ
  CreatedAt : ℕ
  deriving DecidableEq

/-- The tables: payments (key `ID`), wallets (key `UserID`), events (append only). -/
structure Store where
  payments : List Payment
  wallets : List WalletItem
  events : List PaymentEvent
  deriving DecidableEq

/-- Unmarshalling of a wallet item (`dynamodbattribute.UnmarshalMap`): an absent
`Version` reads as `0`. -/
def WalletItem.toWallet (it : WalletItem) : Wallet :=
  { UserID := it.UserID, Balance := it.Balance, Currency := it.Currency,
    Version := it.Version.getD 0, UpdatedAt := it.UpdatedAt, CreatedAt := it.CreatedAt }

/-- Marshalling of a wallet (`dynamodbattribute.MarshalMap`): every attribute is written. -/
def Wallet.toItem (w : Wallet) : WalletItem :=
  { UserID := w.UserID, Balance := w.Balance, Currency := w.Currency,
    Version := some w.Version, UpdatedAt := w.UpdatedAt, CreatedAt := w.CreatedAt }

/-! ## Payment ledger (`lambdas/invoice-processor`) -/

/-- Environment of one `PaymentService.CreatePayment` call. -/
structure CreateEnv where
  scanOk : Bool
  putOk : Bool
  eventOk : Bool
  newID : String
  newCorrelationID : String
  eventID : String
  now : ℕ

/-- Go `service.CreatePaymentRequest`. -/
structure CreatePaymentRequest where
  UserID : String
  Amount : ℚ
  Currency : String
  Metadata : StringMap
  IdempotencyKey : String
  CorrelationID : String

/-- `PaymentRepository.recordEvent`: put into the events table. -/
def PaymentRepository.recordEvent (s : Store) (event : PaymentEvent) (ok : Bool) :
    Option Err × Store :=
  if ok then (none, { s with events := s.events ++ [event] })
  else (some (Err.wrapf "failed to record event: %w" Err.sdk), s)

/-- The defaults that `PaymentRepository.CreatePayment` fills in before the write
(lines 31-52): ID, status, timestamps and correlation ID, each only when unset. -/
def PaymentRepository.fillDefaults (payment : Payment) (env : CreateEnv) : Payment :=
  { payment with
    ID := if payment.ID = "" then env.newID else payment.ID
    Status := if payment.Status = "" then PaymentStatusPending else payment.Status
    CreatedAt := if payment.CreatedAt = 0 then env.now else payment.CreatedAt
    UpdatedAt := if payment.UpdatedAt = 0 then env.now else payment.UpdatedAt
    CorrelationID :=
      if payment.CorrelationID = "" then env.newCorrelationID else payment.CorrelationID }

/-- `PaymentRepository.CreatePayment`.  Returns the payment as the call leaves it
behind the pointer, the error, and the tables. -/
def PaymentRepository.CreatePayment (s : Store) (payment : Payment) (env : CreateEnv) :
    Payment × Option Err × Store :=
  let payment := PaymentRepository.fillDefaults payment env
  if env.putOk then
    let s1 := { s with payments := putItem Payment.ID payment s.payments }
    let event : PaymentEvent :=
      { ID := env.eventID, PaymentID := payment.ID, UserID := payment.UserID,
        EventType := "PAYMENT_CREATED", Amount := payment.Amount, Status := payment.Status,
        Metadata := payment.Metadata.map (fun kv => (kv.1, FmtArg.str kv.2)),
        CorrelationID := payment.CorrelationID, Timestamp := env.now }
    (payment, none, (PaymentRepository.recordEvent s1 event env.eventOk).2)
  else (payment, some (Err.wrapf "failed to create payment: %w" Err.sdk), s)

/-- The scan filter `Metadata.idempotencyKey = :key`. -/
def carriesKey (idempotencyKey : String) (p : Payment) : Bool :=
  p.Metadata.get "idempotencyKey" == some idempotencyKey

/-- `PaymentRepository.CheckIdempotency`: the first item of the scan, if any. -/
def PaymentRepository.CheckIdempotency (s : Store) (idempotencyKey : String) (ok : Bool) :
    Except Err (Option Payment) :=
  if ok then
    match scanItems (carriesKey idempotencyKey) s.payments with
    | p :: _ => Except.ok (some p)
    | [] => Except.ok none
  else Except.error (Err.wrapf "failed to check idempotency: %w" Err.sdk)

/-- `PaymentService.validateCreatePaymentRequest`; `len` is the length in bytes. -/
def PaymentService.validateCreatePaymentRequest (req : CreatePaymentRequest) : Option Err :=
  if req.UserID = "" then some (Err.errorf "user ID is required" [])
  else if req.Amount ≤ 0 then some (Err.errorf "amount must be greater than 0" [])
  else if req.Currency = "" ∨ req.Currency.utf8ByteSize ≠ 3 then
    some (Err.errorf "invalid currency format" [])
  else none

/-- The payment value that `PaymentService.CreatePayment` builds (lines 59-74). -/
def PaymentService.newPayment (req : CreatePaymentRequest) : Payment :=
  { ID := "", UserID := req.UserID, Amount := req.Amount, Currency := req.Currency,
    Status := PaymentStatusPending, ExternalID := "", CorrelationID := req.CorrelationID,
    Metadata :=
      if req.IdempotencyKey ≠ "" then req.Metadata.set "idempotencyKey" req.IdempotencyKey
      else req.Metadata,
    RefundReason := "", CreatedAt := 0, UpdatedAt := 0 }

/-- The part of `PaymentService.CreatePayment` after the idempotency check
(lines 58-91): build the payment and store it. -/
def PaymentService.createNew (s : Store) (req : CreatePaymentRequest) (env : CreateEnv) :
    Except Err Payment × Store :=
  match PaymentRepository.CreatePayment s (PaymentService.newPayment req) env with
  | (_, some err, s1) => (Except.error (Err.wrapf "failed to create payment: %w" err), s1)
  | (payment, none, s1) => (Except.ok payment, s1)

/-- `PaymentService.CreatePayment`. -/
def PaymentService.CreatePayment (s : Store) (req : CreatePaymentRequest) (env : CreateEnv) :
    Except Err Payment × Store :=
  match PaymentService.validateCreatePaymentRequest req with
  | some err => (Except.error err, s)
  | none =>
    if req.IdempotencyKey ≠ "" then
      match PaymentRepository.CheckIdempotency s req.IdempotencyKey env.scanOk with
      | Except.error _ => PaymentService.createNew s req env
      | Except.ok (some existingPayment) => (Except.ok existingPayment, s)
      | Except.ok none => PaymentService.createNew s req env
    else PaymentService.createNew s req env

/-- Number of payment records that carry the idempotency key. -/
def countKey (idempotencyKey : String) (s : Store) : ℕ :=
  (scanItems (carriesKey idempotencyKey) s.payments).length

/-! ## Wallet ledger (`lambdas/wallet-service`) -/

/-- `PutItem` with a condition expression, evaluated on the item stored under the
key of `x` (on no item when the key is absent).  `none` is
`ConditionalCheckFailedException`. -/
def putItemIf {α : Type} (key : α → String) (cond : Option α → Bool) (x : α)
    (tbl : List α) : Option (List α) :=
  if cond (getItem key (key x) tbl) then some (putItem key x tbl) else none

/-- Environment of one `WalletRepository` call: the outcome of the `GetItem`, of
the `PutItem` that creates a missing wallet, of the `UpdateItem` and of the
event `PutItem`, the generated IDs and the clock; and `between`, what other
callers write to the tables after the `GetItem` of `GetWallet` has found no
wallet and before its `PutItem` creates one (nothing when the call runs alone). -/
structure WalletEnv where
  getOk : Bool
  createOk : Bool
  updateOk : Bool
  eventOk : Bool
  txID : String
  eventID : String
  now : ℕ
  between : Store → Store := id

/-- `WalletRepository.CreateWallet`: put guarded by `attribute_not_exists(UserID)`. -/
def WalletRepository.CreateWallet (s : Store) (wallet : Wallet) (ok : Bool) :
    Option Err × Store :=
  if ok then
    match putItemIf WalletItem.UserID Option.isNone wallet.toItem s.wallets with
    | some tbl => (none, { s with wallets := tbl })
    | none =>
      (some (Err.errorf "wallet already exists for user %s" [FmtArg.str wallet.UserID]), s)
  else (some (Err.wrapf "failed to create wallet: %w" Err.sdk), s)

/-- `WalletRepository.GetWallet`: read the wallet, creating it with balance 1000
and version 0 when the user has none.  The `PutItem` of the creation acts on
the tables as other callers have left them since the `GetItem`. -/
def WalletRepository.GetWallet (s : Store) (userID : String) (env : WalletEnv) :
    Except Err Wallet × Store :=
  if env.getOk then
    match getItem WalletItem.UserID userID s.wallets with
    | none =>
      let wallet : Wallet :=
        { UserID := userID, Balance := 1000, Currency := "USD", Version := 0,
          CreatedAt := env.now, UpdatedAt := env.now }
      match WalletRepository.CreateWallet (env.between s) wallet env.createOk with
      | (some err, s1) => (Except.error err, s1)
      | (none, s1) => (Except.ok wallet, s1)
    | some it => (Except.ok it.toWallet, s)
  else (Except.error (Err.wrapf "failed to get wallet: %w" Err.sdk), s)

/-- `WalletRepository.recordEvent`: the audit event of a wallet transaction. -/
def WalletRepository.recordEvent (s : Store) (transaction : WalletTransaction)
    (env : WalletEnv) : Option Err × Store :=
  let event : PaymentEvent :=
    { ID := transaction.PaymentID ++ "#" ++ env.eventID,
      PaymentID := transaction.PaymentID, UserID := transaction.UserID,
      EventType :=
        if transaction.TxType = "CREDIT" then EventWalletCredited else EventWalletDebited,
      Amount := transaction.Amount, Status := "SUCCESS",
      Metadata :=
        [("transactionId", FmtArg.str transaction.ID), ("type", FmtArg.str transaction.TxType),
          ("balanceBefore", FmtArg.num transaction.BalanceBefore),
          ("balanceAfter", FmtArg.num transaction.BalanceAfter)],
      CorrelationID := "", Timestamp := transaction.Timestamp }
  if env.eventOk then (none, { s with events := s.events ++ [event] })
  else (some Err.sdk, s)

/-- The update expression `SET Balance = :balance, Version = :newVersion,
UpdatedAt = :updatedAt` of both wallet writes, applied to the stored item. -/
def setBalanceVersion (userID : String) (balance : ℚ) (newVersion : ℤ) (updatedAt : ℕ)
    (cur : Option WalletItem) : WalletItem :=
  match cur with
  | some it => { it with Balance := balance, Version := some newVersion, UpdatedAt := updatedAt }
  | none =>
    { UserID := userID, Balance := balance, Currency := "", Version := some newVersion,
      UpdatedAt := updatedAt, CreatedAt := 0 }

/-- The condition expression `Version = :currentVersion AND Balance >= :amount`
of the debit write. -/
def debitCondition (currentVersion : ℤ) (amount : ℚ) (cur : Option WalletItem) : Bool :=
  match cur with
  | some it => it.Version == some currentVersion && decide (amount ≤ it.Balance)
  | none => false

/-- The condition expression `Version = :currentVersion` of the credit write. -/
def creditCondition (currentVersion : ℤ) (cur : Option WalletItem) : Bool :=
  match cur with
  | some it => it.Version == some currentVersion
  | none => false

/-- `WalletRepository.DebitWallet` from line 104 on: the conditional write and
the audit event, for the wallet that was read at line 95.  The new balance is a
float64 difference, the new version an `int` sum; numbers enter the update
rendered with `%f` and `%d`. -/
def WalletRepository.debitWrite (s : Store) (wallet : Wallet) (userID : String) (amount : ℚ)
    (paymentID : String) (env : WalletEnv) : Except Err WalletTransaction × Store :=
  let newBalance := float64 (wallet.Balance - amount)
  let transaction : WalletTransaction :=
    { ID := env.txID, UserID := userID, PaymentID := paymentID, TxType := "DEBIT",
      Amount := amount, BalanceBefore := wallet.Balance, BalanceAfter := newBalance,
      Timestamp := env.now }
  if env.updateOk then
    match updateItem WalletItem.UserID userID
        (debitCondition wallet.Version (formatFixed 6 amount))
        (setBalanceVersion userID (formatFixed 6 newBalance) (wrapInt64 (wallet.Version + 1))
          env.now)
        s.wallets with
    | some tbl =>
      (Except.ok transaction,
        (WalletRepository.recordEvent { s with wallets := tbl } transaction env).2)
    | none =>
      (Except.error (Err.errorf "concurrent update detected or insufficient balance" []), s)
  else (Except.error (Err.wrapf "failed to debit wallet: %w" Err.sdk), s)

/-- `WalletRepository.DebitWallet`. -/
def WalletRepository.DebitWallet (s : Store) (userID : String) (amount : ℚ)
    (paymentID : String) (env : WalletEnv) : Except Err WalletTransaction × Store :=
  match WalletRepository.GetWallet s userID env with
  | (Except.error err, s1) => (Except.error err, s1)
  | (Except.ok wallet, s1) =>
    if wallet.Balance < amount then
      (Except.error (Err.errorf "insufficient balance: available=%f, required=%f"
        [FmtArg.num wallet.Balance, FmtArg.num amount]), s1)
    else WalletRepository.debitWrite s1 wallet userID amount paymentID env

/-- `WalletRepository.CreditWallet` from line 168 on: the conditional write and
the audit event, for the wallet that was read at line 163.  The new balance is
a float64 sum, the new version an `int` sum. -/
def WalletRepository.creditWrite (s : Store) (wallet : Wallet) (userID : String)
    (amount : ℚ) (paymentID : String) (env : WalletEnv) :
    Except Err WalletTransaction × Store :=
  let newBalance := float64 (wallet.Balance + amount)
  let transaction : WalletTransaction :=
    { ID := env.txID, UserID := userID, PaymentID := paymentID, TxType := "CREDIT",
      Amount := amount, BalanceBefore := wallet.Balance, BalanceAfter := newBalance,
      Timestamp := env.now }
  if env.updateOk then
    match updateItem WalletItem.UserID userID
        (creditCondition wallet.Version)
        (setBalanceVersion userID (formatFixed 6 newBalance) (wrapInt64 (wallet.Version + 1))
          env.now)
        s.wallets with
    | some tbl =>
      (Except.ok transaction,
        (WalletRepository.recordEvent { s with wallets := tbl } transaction env).2)
    | none => (Except.error (Err.errorf "concurrent update detected" []), s)
  else (Except.error (Err.wrapf "failed to credit wallet: %w" Err.sdk), s)

/-- `WalletRepository.CreditWallet`. -/
def WalletRepository.CreditWallet (s : Store) (userID : String) (amount : ℚ)
    (paymentID : String) (env : WalletEnv) : Except Err WalletTransaction × Store :=
  match WalletRepository.GetWallet s userID env with
  | (Except.error err, s1) => (Except.error err, s1)
  | (Except.ok wallet, s1) => WalletRepository.creditWrite s1 wallet userID amount paymentID env

/-- Go `service.DebitRequest`. -/
structure DebitRequest where
  UserID : String
  Amount : ℚ
  PaymentID : String
  CorrelationID : String

/-- Environment of one `WalletService.DebitWallet` call: one repository
environment for each repository call it makes (the read at line 51, the debit
at line 73, the read at line 84) and the outcome of the `PutItem` of the
fallback `CreateWallet` at line 59. -/
structure DebitServiceEnv where
  read : WalletEnv
  fallbackOk : Bool
  debit : WalletEnv
  reread : WalletEnv

/-- `WalletService.validateDebitRequest`. -/
def WalletService.validateDebitRequest (req : DebitRequest) : Option Err :=
  if req.UserID = "" then some (Err.errorf "userID is required" [])
  else if req.Amount ≤ 0 then some (Err.errorf "amount must be greater than 0" [])
  else if req.PaymentID = "" then some (Err.errorf "paymentID is required" [])
  else none

/-- Lines 50-65 of `WalletService.DebitWallet`: get the wallet, and when the read
returns an error try to create one with balance 0. -/
def WalletService.getOrCreate (s : Store) (userID : String) (read : WalletEnv)
    (fallbackOk : Bool) : Except Err Wallet × Store :=
  match WalletRepository.GetWallet s userID read with
  | (Except.ok wallet, s1) => (Except.ok wallet, s1)
  | (Except.error _, s1) =>
    let wallet : Wallet :=
      { UserID := userID, Balance := 0, Currency := "", Version := 0,
        UpdatedAt := 0, CreatedAt := 0 }
    match WalletRepository.CreateWallet s1 wallet fallbackOk with
    | (some err, s2) => (Except.error (Err.wrapf "failed to create wallet: %w" err), s2)
    | (none, s2) => (Except.ok wallet, s2)

/-- `WalletService.DebitWallet`. -/
def WalletService.DebitWallet (s : Store) (req : DebitRequest) (env : DebitServiceEnv) :
    Except Err Wallet × Store :=
  match WalletService.validateDebitRequest req with
  | some err => (Except.error err, s)
  | none =>
    match WalletService.getOrCreate s req.UserID env.read env.fallbackOk with
    | (Except.error err, s1) => (Except.error err, s1)
    | (Except.ok wallet, s1) =>
      if wallet.Balance < req.Amount then
        (Except.error (Err.errorf "insufficient balance: available %f, required %f"
          [FmtArg.num wallet.Balance, FmtArg.num req.Amount]), s1)
      else
        match WalletRepository.DebitWallet s1 req.UserID req.Amount req.PaymentID env.debit with
        | (Except.error err, s2) => (Except.error err, s2)
        | (Except.ok _, s2) =>
          match WalletRepository.GetWallet s2 req.UserID env.reread with
          | (Except.error err, s3) =>
            (Except.error (Err.wrapf "failed to get updated wallet: %w" err), s3)
          | (Except.ok updatedWallet, s3) => (Except.ok updatedWallet, s3)

/-! ## Sequences of ledger calls on one wallet -/

/-- One call of the wallet ledger: a `WalletRepository.DebitWallet` or a
`WalletRepository.CreditWallet`, with its amount, payment ID and environment. -/
inductive LedgerCall where
  | debit (amount : ℚ) (paymentID : String) (env : WalletEnv)
  | credit (amount : ℚ) (paymentID : String) (env : WalletEnv)

/-- The amount of a ledger call. -/
def LedgerCall.amount : LedgerCall → ℚ
  | LedgerCall.debit a _ _ => a
  | LedgerCall.credit a _ _ => a

/-- Run one ledger call for the user. -/
def LedgerCall.run (userID : String) (s : Store) :
    LedgerCall → Except Err WalletTransaction × Store
  | LedgerCall.debit a p e => WalletRepository.DebitWallet s userID a p e
  | LedgerCall.credit a p e => WalletRepository.CreditWallet s userID a p e

/-- What a sequence of ledger calls has done so far: how many calls succeeded,
the sum of the amounts of the credits that succeeded and of the debits that
succeeded. -/
structure Tally where
  succeeded : ℕ
  credited : ℚ
  debited : ℚ

/-- Count a call in the tally when it returned without error. -/
def Tally.record (t : Tally) (c : LedgerCall) (ok : Bool) : Tally :=
  if ok then
    match c with
    | LedgerCall.debit a _ _ => { t with succeeded := t.succeeded + 1, debited := t.debited + a }
    | LedgerCall.credit a _ _ =>
      { t with succeeded := t.succeeded + 1, credited := t.credited + a }
  else t

/-- Run the calls one after another, keeping the tally. -/
def runLedger (userID : String) : Store → Tally → List LedgerCall → Store × Tally
  | s, t, [] => (s, t)
  | s, t, c :: cs =>
    runLedger userID (c.run userID s).2 (t.record c (c.run userID s).1.toBool) cs

/-- The sum of the amounts of the credit calls of a sequence. -/
def creditTotal : List LedgerCall → ℚ
  | [] => 0
  | LedgerCall.debit _ _ _ :: cs => creditTotal cs
  | LedgerCall.credit a _ _ :: cs => a + creditTotal cs

/-- The ledger invariant of the wallet of `userID` against a tally: the stored
version is the number of calls that succeeded, the stored balance is the
initial balance `b0` plus the credits minus the debits that succeeded, it is
not negative, and it has at most six decimals.  With it: the initial balance
and the debited sum are not negative, and each call that succeeded moved at
least `10⁻⁶`. -/
def LedgerInv (userID : String) (b0 : ℚ) (s : Store) (t : Tally) : Prop :=
  ∃ it, getItem WalletItem.UserID userID s.wallets = some it ∧
    it.Version = some (t.succeeded : ℤ) ∧
    it.Balance = b0 + t.credited - t.debited ∧
    0 ≤ it.Balance ∧ HasDecimals 6 it.Balance ∧
    0 ≤ b0 ∧ 0 ≤ t.debited ∧ (t.succeeded : ℚ) ≤ (t.credited + t.debited) * 10 ^ 6

/-! ## Refund saga (`lambdas/refund-service`) -/

/-- Environment of one `RefundService.ProcessRefund` call: the outcome of the
payment `GetItem`, of the wallet `UpdateItem`, of the payment `PutItem` and of
the event `PutItem`, the generated refund ID and the clock. -/
structure RefundEnv where
  getOk : Bool
  creditOk : Bool
  updateOk : Bool
  eventOk : Bool
  refundID : String
  now : ℕ

/-- Go `service.RefundRequest`. -/
structure RefundRequest where
  PaymentID : String
  Amount : ℚ
  Reason : String

/-- Go `service.RefundResponse`. -/
structure RefundResponse where
  PaymentID : String
  Amount : ℚ
  Status : String
  Reason : String
  RefundID : String
  deriving DecidableEq

/-- `RefundRepository.GetPayment`. -/
def RefundRepository.GetPayment (s : Store) (paymentID : String) (ok : Bool) :
    Except Err Payment :=
  if ok then
    match getItem Payment.ID paymentID s.payments with
    | some payment => Except.ok payment
    | none => Except.error (Err.errorf "payment not found" [])
  else Except.error (Err.wrapf "failed to get payment: %w" Err.sdk)

/-- `RefundRepository.UpdatePayment`: an unconditional `PutItem` of the payment. -/
def RefundRepository.UpdatePayment (s : Store) (payment : Payment) (ok : Bool) :
    Option Err × Store :=
  if ok then (none, { s with payments := putItem Payment.ID payment s.payments })
  else (some (Err.wrapf "failed to update payment: %w" Err.sdk), s)

/-- The update expression `SET Balance = if_not_exists(Balance, :zero) + :amount`
applied to the stored item; on a missing item it creates one that has only the
key and the balance. -/
def addBalance (userID : String) (amount : ℚ) (cur : Option WalletItem) : WalletItem :=
  match cur with
  | some it => { it with Balance := it.Balance + amount }
  | none =>
    { UserID := userID, Balance := 0 + amount, Currency := "", Version := none,
      UpdatedAt := 0, CreatedAt := 0 }

/-- `RefundRepository.CreditWallet`: an `UpdateItem` without condition expression;
the amount enters the update rendered with `%.2f`. -/
def RefundRepository.CreditWallet (s : Store) (userID : String) (amount : ℚ) (ok : Bool) :
    Option Err × Store :=
  if ok then
    match updateItem WalletItem.UserID userID (fun _ => true)
        (addBalance userID (formatFixed 2 amount)) s.wallets with
    | some tbl => (none, { s with wallets := tbl })
    | none => (some (Err.wrapf "failed to credit wallet: %w" Err.sdk), s)
  else (some (Err.wrapf "failed to credit wallet: %w" Err.sdk), s)

/-- `RefundRepository.LogPaymentEvent`. -/
def RefundRepository.LogPaymentEvent (s : Store) (event : PaymentEvent) (ok : Bool) :
    Option Err × Store :=
  if ok then (none, { s with events := s.events ++ [event] })
  else (some (Err.wrapf "failed to log payment event: %w" Err.sdk), s)

/-- `RefundRepository.GetWalletBalance`: the stored balance, `0` for a user
without wallet. -/
def RefundRepository.GetWalletBalance (s : Store) (userID : String) (ok : Bool) :
    Except Err ℚ :=
  if ok then
    match getItem WalletItem.UserID userID s.wallets with
    | some it => Except.ok it.toWallet.Balance
    | none => Except.ok 0
  else Except.error (Err.wrapf "failed to get wallet: %w" Err.sdk)

/-- `RefundService.validateRefundRequest`. -/
def RefundService.validateRefundRequest (req : RefundRequest) : Option Err :=
  if req.PaymentID = "" then some (Err.errorf "payment_id is required" [])
  else if req.Amount ≤ 0 then some (Err.errorf "amount must be greater than 0" [])
  else if req.Reason = "" then some (Err.errorf "reason is required" [])
  else none

/-- The refund event that `RefundService.ProcessRefund` logs (lines 98-111). -/
def RefundService.refundEvent (payment : Payment) (req : RefundRequest) (env : RefundEnv) :
    PaymentEvent :=
  { ID := env.refundID, PaymentID := payment.ID, UserID := payment.UserID,
    EventType := "REFUNDED", Amount := req.Amount, Status := "completed",
    Metadata := [("reason", FmtArg.str req.Reason)],
    CorrelationID := payment.CorrelationID, Timestamp := env.now }

/-- `RefundService.ProcessRefund` from line 77 on, for the payment that passed
the checks: credit, status write, event, response. -/
def RefundService.creditAndMark (s : Store) (payment : Payment) (req : RefundRequest)
    (env : RefundEnv) : Except Err RefundResponse × Store :=
  match RefundRepository.CreditWallet s payment.UserID req.Amount env.creditOk with
  | (some err, s1) => (Except.error (Err.wrapf "failed to process refund: %w" err), s1)
  | (none, s1) =>
    let payment : Payment :=
      { payment with Status := PaymentStatusRefunded, UpdatedAt := env.now }
    let s2 := (RefundRepository.UpdatePayment s1 payment env.updateOk).2
    let s3 := (RefundRepository.LogPaymentEvent s2
      (RefundService.refundEvent payment req env) env.eventOk).2
    (Except.ok { PaymentID := payment.ID, Amount := req.Amount, Status := "refunded",
                 Reason := req.Reason, RefundID := env.refundID }, s3)

/-- `RefundService.ProcessRefund`. -/
def RefundService.ProcessRefund (s : Store) (req : RefundRequest) (env : RefundEnv) :
    Except Err RefundResponse × Store :=
  match RefundService.validateRefundRequest req with
  | some err => (Except.error err, s)
  | none =>
    match RefundRepository.GetPayment s req.PaymentID env.getOk with
    | Except.error err => (Except.error (Err.wrapf "payment not found: %w" err), s)
    | Except.ok payment =>
      if payment.Status = PaymentStatusRefunded then
        (Except.error (Err.errorf "payment already refunded" []), s)
      else if payment.Status ≠ PaymentStatusCompleted then
        (Except.error (Err.errorf "only completed payments can be refunded" []), s)
      else if req.Amount > payment.Amount then
        (Except.error (Err.errorf "refund amount exceeds payment amount" []), s)
      else RefundService.creditAndMark s payment req env

/-! ## Payment ledger: status updates (`lambdas/invoice-processor`) -/

/-- Environment of one `PaymentService.UpdatePaymentStatus` call: the outcome of
the `UpdateItem`, of the `GetItem` that reads the payment back, and the clock. -/
structure UpdateStatusEnv where
  updateOk : Bool
  getOk : Bool
  now : ℕ

/-- The update expression `SET #status = :status, UpdatedAt = :updatedAt` of
`PaymentRepository.UpdatePaymentStatus`, with `, ExternalID = :externalID` when
the external ID is not empty, applied to the stored item; on a missing item it
creates one that has only the key and the attributes that are set. -/
def setStatus (paymentID : String) (status : PaymentStatus) (externalID : String)
    (updatedAt : ℕ) (cur : Option Payment) : Payment :=
  match cur with
  | some p =>
    { p with Status := status, UpdatedAt := updatedAt,
             ExternalID := if externalID ≠ "" then externalID else p.ExternalID }
  | none =>
    { ID := paymentID, UserID := "", Amount := 0, Currency := "", Status := status,
      ExternalID := externalID, CorrelationID := "", Metadata := [], RefundReason := "",
      CreatedAt := 0, UpdatedAt := updatedAt }

/-- `PaymentRepository.UpdatePaymentStatus`: an `UpdateItem` without condition
expression. -/
def PaymentRepository.UpdatePaymentStatus (s : Store) (paymentID : String)
    (status : PaymentStatus) (externalID : String) (ok : Bool) (now : ℕ) :
    Option Err × Store :=
  if ok then
    match updateItem Payment.ID paymentID (fun _ => true)
        (setStatus paymentID status externalID now) s.payments with
    | some tbl => (none, { s with payments := tbl })
    | none => (some (Err.wrapf "failed to update payment status: %w" Err.sdk), s)
  else (some (Err.wrapf "failed to update payment status: %w" Err.sdk), s)

/-- `PaymentRepository.GetPayment`. -/
def PaymentRepository.GetPayment (s : Store) (paymentID : String) (ok : Bool) :
    Except Err Payment :=
  if ok then
    match getItem Payment.ID paymentID s.payments with
    | some payment => Except.ok payment
    | none => Except.error (Err.errorf "payment not found: %s" [FmtArg.str paymentID])
  else Except.error (Err.wrapf "failed to get payment: %w" Err.sdk)

/-- `PaymentService.UpdatePaymentStatus`. -/
def PaymentService.UpdatePaymentStatus (s : Store) (paymentID : String)
    (status : PaymentStatus) (externalID : String) (env : UpdateStatusEnv) :
    Except Err Payment × Store :=
  match PaymentRepository.UpdatePaymentStatus s paymentID status externalID env.updateOk
      env.now with
  | (some err, s1) =>
    (Except.error (Err.wrapf "failed to update payment status: %w" err), s1)
  | (none, s1) =>
    match PaymentRepository.GetPayment s1 paymentID env.getOk with
    | Except.error err =>
      (Except.error (Err.wrapf "failed to get updated payment: %w" err), s1)
    | Except.ok payment => (Except.ok payment, s1)

/-! ## Refund saga: the Step Function entry point -/

/-- Go `types.LambdaResponse`; `Data` is the map the code puts there (empty
when the field is not set). -/
structure LambdaResponse where
  Success : Bool
  Data : List (String × FmtArg)
  Error : String
  deriving DecidableEq

/-- `RefundService.ProcessStepFunctionRefund`, for the payment ID of the input. -/
def RefundService.ProcessStepFunctionRefund (s : Store) (paymentID : String)
    (env : RefundEnv) : LambdaResponse × Store :=
  match RefundRepository.GetPayment s paymentID env.getOk with
  | Except.error _ => ({ Success := false, Data := [], Error := "Payment not found" }, s)
  | Except.ok payment =>
    match RefundRepository.CreditWallet s payment.UserID payment.Amount env.creditOk with
    | (some _, s1) =>
      ({ Success := false, Data := [], Error := "Failed to credit wallet" }, s1)
    | (none, s1) =>
      let payment : Payment :=
        { payment with Status := PaymentStatusRefunded, UpdatedAt := env.now }
      let s2 := (RefundRepository.UpdatePayment s1 payment env.updateOk).2
      let event : PaymentEvent :=
        { ID := env.refundID, PaymentID := payment.ID, UserID := payment.UserID,
          EventType := "REFUNDED", Amount := payment.Amount, Status := "completed",
          Metadata := [("reason", FmtArg.str "Step Function refund")],
          CorrelationID := payment.CorrelationID, Timestamp := env.now }
      let s3 := (RefundRepository.LogPaymentEvent s2 event env.eventOk).2
      ({ Success := true,
         Data := [("payment_id", FmtArg.str payment.ID), ("amount", FmtArg.num payment.Amount),
                  ("status", FmtArg.str "refunded"), ("refund_id", FmtArg.str env.refundID)],
         Error := "" }, s3)

/-! ## Circuit breaker (`lambdas/payments-adapter/internal/resilience`) -/

/-- Go `resilience.State`, with its three constants. -/
inductive resilience.State where
  | StateClosed
  | StateOpen
  | StateHalfOpen
  deriving DecidableEq

/-- Go `resilience.ErrCircuitOpen`. -/
def resilience.ErrCircuitOpen : Err := Err.errorf "circuit breaker is open" []

/-- Go `resilience.CircuitBreaker` without its mutex.  Times are nanoseconds
since the zero `time.Time`, a duration is a number of nanoseconds. -/
structure resilience.CircuitBreaker where
  name : String
  maxFailures : ℤ
  resetTimeout : ℤ
  state : resilience.State
  failureCount : ℤ
  lastFailureTime : ℤ
  successCount : ℤ
  deriving DecidableEq

/-- `resilience.NewCircuitBreaker`. -/
def resilience.NewCircuitBreaker (name : String) (maxFailures : ℤ) (resetTimeout : ℤ) :
    resilience.CircuitBreaker :=
  { name := name, maxFailures := maxFailures, resetTimeout := resetTimeout,
    state := resilience.State.StateClosed, failureCount := 0, lastFailureTime := 0,
    successCount := 0 }

/-- `CircuitBreaker.canExecute` at clock reading `now`: the error it returns and
the breaker it leaves. -/
def resilience.CircuitBreaker.canExecute (cb : resilience.CircuitBreaker) (now : ℤ) :
    Option Err × resilience.CircuitBreaker :=
  match cb.state with
  | resilience.State.StateClosed => (none, cb)
  | resilience.State.StateOpen =>
    if now - cb.lastFailureTime > cb.resetTimeout then
      (none, { cb with state := resilience.State.StateHalfOpen, successCount := 0 })
    else (some resilience.ErrCircuitOpen, cb)
  | resilience.State.StateHalfOpen => (none, cb)

/-- The failure branch of `CircuitBreaker.recordResult` (lines 82-89). -/
def resilience.CircuitBreaker.recordFailure (cb : resilience.CircuitBreaker) (now : ℤ) :
    resilience.CircuitBreaker :=
  { cb with
    failureCount := cb.failureCount + 1
    lastFailureTime := now
    state :=
      if cb.state = resilience.State.StateHalfOpen then resilience.State.StateOpen
      else if cb.failureCount + 1 ≥ cb.maxFailures then resilience.State.StateOpen
      else cb.state }

/-- The success branch of `CircuitBreaker.recordResult` (lines 91-99). -/
def resilience.CircuitBreaker.recordSuccess (cb : resilience.CircuitBreaker) :
    resilience.CircuitBreaker :=
  if cb.state = resilience.State.StateHalfOpen then
    if cb.successCount + 1 ≥ 2 then
      { cb with successCount := cb.successCount + 1, state := resilience.State.StateClosed,
                failureCount := 0 }
    else { cb with successCount := cb.successCount + 1 }
  else if cb.state = resilience.State.StateClosed then { cb with failureCount := 0 }
  else cb

/-- `CircuitBreaker.recordResult` at clock reading `now`. -/
def resilience.CircuitBreaker.recordResult (cb : resilience.CircuitBreaker)
    (err : Option Err) (now : ℤ) : resilience.CircuitBreaker :=
  match err with
  | some _ => cb.recordFailure now
  | none => cb.recordSuccess

/-- Environment of one `CircuitBreaker.Execute` call: the clock as `canExecute`
reads it, what the wrapped function returns when it is invoked, and the clock
as `recordResult` reads it. -/
structure ExecuteEnv where
  checkedAt : ℤ
  result : Option Err
  recordedAt : ℤ

/-- `CircuitBreaker.Execute`: the error returned, the number of times the wrapped
function was invoked, and the breaker the call leaves. -/
def resilience.CircuitBreaker.Execute (cb : resilience.CircuitBreaker) (env : ExecuteEnv) :
    Option Err × ℕ × resilience.CircuitBreaker :=
  match cb.canExecute env.checkedAt with
  | (some err, cb1) => (some err, 0, cb1)
  | (none, cb1) => (env.result, 1, cb1.recordResult env.result env.recordedAt)

/-- `CircuitBreaker.GetState`. -/
def resilience.CircuitBreaker.GetState (cb : resilience.CircuitBreaker) : resilience.State :=
  cb.state

/-- `CircuitBreaker.Reset`. -/
def resilience.CircuitBreaker.Reset (cb : resilience.CircuitBreaker) :
    resilience.CircuitBreaker :=
  { cb with state := resilience.State.StateClosed, failureCount := 0, successCount := 0 }

/-- The breaker after a sequence of `Execute` calls, one after another. -/
def resilience.CircuitBreaker.executeAll (cb : resilience.CircuitBreaker) :
    List ExecuteEnv → resilience.CircuitBreaker
  | [] => cb
  | env :: envs => resilience.CircuitBreaker.executeAll (cb.Execute env).2.2 envs

/-! ## Gateway client behind gobreaker (`lambdas/payments-adapter/internal/circuitbreaker`) -/

/-- The type `gobreaker.Counts` of the library `github.com/sony/gobreaker`: five
`uint32` counters. -/
structure Counts where
  Requests : ℕ
  TotalSuccesses : ℕ
  TotalFailures : ℕ
  ConsecutiveSuccesses : ℕ
  ConsecutiveFailures : ℕ
  deriving DecidableEq

/-- What is assumed of the rounding `fl` of a real number to `float64`: it is
monotone, it keeps 0, and on the range of the quotients of two `uint32` values
its relative error is at most `2^-53`. -/
def Float64Rounding (fl : ℚ → ℚ) : Prop :=
  (∀ x y, x ≤ y → fl x ≤ fl y) ∧ fl 0 = 0 ∧
  (∀ x, 1 / 2 ^ 32 ≤ x → x ≤ 2 ^ 32 → |fl x - x| ≤ x / 2 ^ 53)

/-- The `ReadyToTrip` function that `NewCircuitBreakerClient` configures (lines
26-29).  The conversions of the counters to `float64` are exact; the quotient
and the constant `0.6` are rounded by `fl`.  A division by zero, which in Go
gives NaN or +Inf, gives 0 here: in both cases the result is decided by
`Requests >= 3`. -/
def circuitbreaker.ReadyToTrip (fl : ℚ → ℚ) (counts : Counts) : Bool :=
  let failureRatio : ℚ := fl ((counts.TotalFailures : ℚ) / (counts.Requests : ℚ))
  decide (counts.Requests ≥ 3) && decide (failureRatio ≥ fl (6 / 10))

/-- The states of a gobreaker breaker. -/
inductive gobreaker.State where
  | StateClosed
  | StateHalfOpen
  | StateOpen
  deriving DecidableEq

/-- The name of a gobreaker state (`gobreaker.State.String`). -/
def gobreaker.State.name : gobreaker.State → String
  | gobreaker.State.StateClosed => "closed"
  | gobreaker.State.StateHalfOpen => "half-open"
  | gobreaker.State.StateOpen => "open"

/-- The state name that `CircuitBreakerClient.GetState` derives from the counts
(lines 92-103). -/
def circuitbreaker.stateName (counts : Counts) : String :=
  if counts.ConsecutiveFailures > 0 ∧ counts.ConsecutiveSuccesses = 0 then
    if counts.Requests = 0 then "open" else "half-open"
  else "closed"

/-- `CircuitBreakerClient.GetState`, for the counts that `breaker.Counts()` returns. -/
def CircuitBreakerClient.GetState (counts : Counts) : String :=
  "state: " ++ circuitbreaker.stateName counts ++ ", requests: " ++ toString counts.Requests
    ++ ", failures: " ++ toString counts.TotalFailures
    ++ ", successes: " ++ toString counts.TotalSuccesses

/-! ## Wallet ledger: the credit entry point of the service -/

/-- Go `service.CreditRequest`. -/
structure CreditRequest where
  UserID : String
  Amount : ℚ
  PaymentID : String
  CorrelationID : String
  RefundReason : String

/-- Environment of one `WalletService.CreditWallet` call: one repository
environment for each repository call it makes (the read at line 107, the credit
at line 124, the read at line 135) and the outcome of the `PutItem` of the
fallback `CreateWallet` at line 115. -/
structure CreditServiceEnv where
  read : WalletEnv
  fallbackOk : Bool
  credit : WalletEnv
  reread : WalletEnv

/-- `WalletService.validateCreditRequest`. -/
def WalletService.validateCreditRequest (req : CreditRequest) : Option Err :=
  if req.UserID = "" then some (Err.errorf "userID is required" [])
  else if req.Amount ≤ 0 then some (Err.errorf "amount must be greater than 0" [])
  else if req.PaymentID = "" then some (Err.errorf "paymentID is required" [])
  else none

/-- `WalletService.CreditWallet`. -/
def WalletService.CreditWallet (s : Store) (req : CreditRequest) (env : CreditServiceEnv) :
    Except Err Wallet × Store :=
  match WalletService.validateCreditRequest req with
  | some err => (Except.error err, s)
  | none =>
    match WalletService.getOrCreate s req.UserID env.read env.fallbackOk with
    | (Except.error err, s1) => (Except.error err, s1)
    | (Except.ok _, s1) =>
      match WalletRepository.CreditWallet s1 req.UserID req.Amount req.PaymentID env.credit with
      | (Except.error err, s2) => (Except.error err, s2)
      | (Except.ok _, s2) =>
        match WalletRepository.GetWallet s2 req.UserID env.reread with
        | (Except.error err, s3) =>
          (Except.error (Err.wrapf "failed to get updated wallet: %w" err), s3)
        | (Except.ok updatedWallet, s3) => (Except.ok updatedWallet, s3)

/-- The three errors of the wallet request validation. -/
def walletValidationErrors : List Err :=
  [Err.errorf "userID is required" [], Err.errorf "amount must be greater than 0" [],
    Err.errorf "paymentID is required" []]

/-- The three errors of the payment request validation. -/
def paymentValidationErrors : List Err :=
  [Err.errorf "user ID is required" [], Err.errorf "amount must be greater than 0" [],
    Err.errorf "invalid currency format" []]

/-- The three errors of the refund request validation. -/
def refundValidationErrors : List Err :=
  [Err.errorf "payment_id is required" [], Err.errorf "amount must be greater than 0" [],
    Err.errorf "reason is required" []]

/-! ## Payment ledger: reading a payment -/

/-- `PaymentService.GetPayment`; `ok` is the outcome of the `GetItem` call. -/
def PaymentService.GetPayment (s : Store) (paymentID : String) (ok : Bool) :
    Except Err Payment :=
  if paymentID = "" then Except.error (Err.errorf "payment ID is required" [])
  else
    match PaymentRepository.GetPayment s paymentID ok with
    | Except.error err => Except.error err
    | Except.ok payment => Except.ok payment

/-! ## Gateway adapter (`lambdas/payments-adapter/internal/service`) -/

/-- Go `gateway.GatewayResponse`. -/
structure GatewayResponse where
  ExternalID : String
  Status : String
  Message : String
  Timestamp : ℤ
  deriving DecidableEq

/-- Go `service.ProcessPaymentRequest`. -/
structure ProcessPaymentRequest where
  PaymentID : String
  UserID : String
  Amount : ℚ
  Currency : String
  Status : String
  CorrelationID : String
  Metadata : StringMap

/-- The error `gobreaker.ErrOpenState` of the library. -/
def gobreaker.ErrOpenState : Err := Err.errorf "circuit breaker is open" []

/-- The error `gobreaker.ErrTooManyRequests` of the library. -/
def gobreaker.ErrTooManyRequests : Err := Err.errorf "too many requests" []

/-- What `gobreaker.CircuitBreaker.Execute` does with the function it is given:
it refuses the call without invoking the function (the breaker is open, or it
is half-open and has its share of requests), or it invokes the function, whose
result is then the result of the gateway call. -/
inductive BreakerOutcome where
  | openState
  | tooManyRequests
  | invoked (result : Except Err GatewayResponse)

/-- What a call of the adapter has done to its collaborators: how many times it
entered `breaker.Execute`, and the payments it handed to the gateway client. -/
structure AdapterTrace where
  breakerCalls : ℕ
  gatewayCalls : List Payment
  deriving DecidableEq

/-- `CircuitBreakerClient.ProcessPayment`. -/
def CircuitBreakerClient.ProcessPayment (payment : Payment) (outcome : BreakerOutcome) :
    Except Err GatewayResponse × AdapterTrace :=
  match outcome with
  | BreakerOutcome.openState =>
    (Except.error (Err.wrapf "circuit breaker open: %w" gobreaker.ErrOpenState),
      { breakerCalls := 1, gatewayCalls := [] })
  | BreakerOutcome.tooManyRequests =>
    (Except.error (Err.wrapf "circuit breaker open: %w" gobreaker.ErrTooManyRequests),
      { breakerCalls := 1, gatewayCalls := [] })
  | BreakerOutcome.invoked (Except.error err) =>
    (Except.error err, { breakerCalls := 1, gatewayCalls := [payment] })
  | BreakerOutcome.invoked (Except.ok resp) =>
    (Except.ok resp, { breakerCalls := 1, gatewayCalls := [payment] })

/-- `PaymentAdapterService.validateProcessPaymentRequest`; `len` is the length in bytes. -/
def PaymentAdapterService.validateProcessPaymentRequest (req : ProcessPaymentRequest) :
    Option Err :=
  if req.PaymentID = "" then some (Err.errorf "paymentID is required" [])
  else if req.UserID = "" then some (Err.errorf "userID is required" [])
  else if req.Amount ≤ 0 then some (Err.errorf "amount must be greater than 0" [])
  else if req.Currency = "" ∨ req.Currency.utf8ByteSize ≠ 3 then
    some (Err.errorf "invalid currency format" [])
  else none

/-- The payment that `PaymentAdapterService.ProcessPayment` hands to the gateway
(lines 54-62). -/
def PaymentAdapterService.toPayment (req : ProcessPaymentRequest) : Payment :=
  { ID := req.PaymentID, UserID := req.UserID, Amount := req.Amount, Currency := req.Currency,
    Status := req.Status, ExternalID := "", CorrelationID := req.CorrelationID,
    Metadata := req.Metadata, RefundReason := "", CreatedAt := 0, UpdatedAt := 0 }

/-- `PaymentAdapterService.ProcessPayment`; `outcome` is what the breaker does
when the call reaches it. -/
def PaymentAdapterService.ProcessPayment (req : ProcessPaymentRequest)
    (outcome : BreakerOutcome) : Except Err GatewayResponse × AdapterTrace :=
  match PaymentAdapterService.validateProcessPaymentRequest req with
  | some err => (Except.error err, { breakerCalls := 0, gatewayCalls := [] })
  | none =>
    match CircuitBreakerClient.ProcessPayment (PaymentAdapterService.toPayment req) outcome with
    | (Except.error err, t) =>
      (Except.error (Err.wrapf "gateway processing failed: %w" err), t)
    | (Except.ok resp, t) => (Except.ok resp, t)

/-- The four errors of the adapter request validation. -/
def adapterValidationErrors : List Err :=
  [Err.errorf "paymentID is required" [], Err.errorf "userID is required" [],
    Err.errorf "amount must be greater than 0" [], Err.errorf "invalid currency format" []]

/-! ## Circuit breaker: sequences of calls -/

/-- One call of the public interface of `resilience.CircuitBreaker`. -/
inductive BreakerCall where
  | execute (env : ExecuteEnv)
  | getState
  | reset

/-- The breaker that a call leaves. -/
def resilience.CircuitBreaker.call (cb : resilience.CircuitBreaker) :
    BreakerCall → resilience.CircuitBreaker
  | BreakerCall.execute env => (cb.Execute env).2.2
  | BreakerCall.getState => cb
  | BreakerCall.reset => cb.Reset

/-- The breaker after a sequence of calls, one after another. -/
def resilience.CircuitBreaker.callAll (cb : resilience.CircuitBreaker) :
    List BreakerCall → resilience.CircuitBreaker
  | [] => cb
  | c :: cs => resilience.CircuitBreaker.callAll (cb.call c) cs

/-- The counters are in range for the state: fewer failures than `maxFailures`
while Closed, fewer than 2 successes while Half-Open. -/
def resilience.CircuitBreaker.CountsInRange (cb : resilience.CircuitBreaker) : Prop :=
  (cb.state = resilience.State.StateClosed → cb.failureCount < cb.maxFailures) ∧
  (cb.state = resilience.State.StateHalfOpen → cb.successCount < 2)

/-! ## Refund saga: sequences of refund calls -/

/-- Run `RefundService.ProcessRefund` calls one after another: the tables after
the last call, and the responses of the calls that returned without error, in
call order. -/
def RefundService.processAll (s : Store) :
    List (RefundRequest × RefundEnv) → Store × List RefundResponse
  | [] => (s, [])
  | c :: cs =>
    match (RefundService.ProcessRefund s c.1 c.2).1 with
    | Except.ok resp =>
      ((RefundService.processAll (RefundService.ProcessRefund s c.1 c.2).2 cs).1,
        resp :: (RefundService.processAll (RefundService.ProcessRefund s c.1 c.2).2 cs).2)
    | Except.error _ => RefundService.processAll (RefundService.ProcessRefund s c.1 c.2).2 cs

/-- What the wallet is credited for a list of refund responses: each amount as
`RefundRepository.CreditWallet` renders it, with two decimals. -/
def creditedTotal (rs : List RefundResponse) : ℚ :=
  (rs.map (fun r => formatFixed 2 r.Amount)).sum

/-! ## Wallet ledger: the balance entry point of the service -/

/-- `WalletService.GetBalance`; `read` is the environment of the `GetWallet` call
and `fallbackOk` the outcome of the `PutItem` of the fallback `CreateWallet`
(lines 157-171, the same block as lines 50-65 of `DebitWallet`). -/
def WalletService.GetBalance (s : Store) (userID : String) (read : WalletEnv)
    (fallbackOk : Bool) : Except Err Wallet × Store :=
  if userID = "" then (Except.error (Err.errorf "userID is required" []), s)
  else WalletService.getOrCreate s userID read fallbackOk

/-! ## Error messages and the debit handler (`lambdas/wallet-service/internal/handler`) -/

/-- How the values that the code does not control are rendered: the message of
an SDK error, and a number under the verb `%f`. -/
structure Rendering where
  sdkMessage : String
  float : ℚ → String

/-- The scan of `fmt.Sprintf` over a format, for formats whose verbs are single
letters (`%s`, `%f`, `%w`; the only ones in the error formats of the code), the
arguments being rendered already.  `pending` says that the character before
was `%`.  A verb takes the next argument; without one Go writes
`%!v(MISSING)` for the verb `v`. -/
def fmt.scan : Bool → List Char → List String → List Char
  | _, [], _ => []
  | true, _ :: cs, a :: rest => a.data ++ fmt.scan false cs rest
  | true, v :: cs, [] => '%' :: '!' :: v :: "(MISSING)".data ++ fmt.scan false cs []
  | false, c :: cs, args =>
    if c = '%' then fmt.scan true cs args else c :: fmt.scan false cs args

/-- `fmt.Sprintf(format, args...)` with the arguments rendered already. -/
def fmt.Sprintf (format : String) (args : List String) : String :=
  String.mk (fmt.scan false format.data args)

/-- An argument as its verb renders it. -/
def FmtArg.render (r : Rendering) : FmtArg → String
  | FmtArg.str v => v
  | FmtArg.num v => r.float v

/-- The method `Error()` of an error value. -/
def Err.Error (r : Rendering) : Err → String
  | Err.sdk => r.sdkMessage
  | Err.errorf format args => fmt.Sprintf format (args.map (FmtArg.render r))
  | Err.wrapf format cause => fmt.Sprintf format [Err.Error r cause]

/-- The bytes of a Go string: the UTF-8 encoding of its characters. -/
def utf8Bytes (s : String) : List ℕ :=
  s.data.flatMap (fun c => (String.utf8EncodeChar c).map UInt8.toNat)

/-- The Go slice expression `s[:n]` on a string; `none` is the run-time panic
"slice bounds out of range". -/
def sliceTo (s : String) (n : ℕ) : Option (List ℕ) :=
  if n ≤ (utf8Bytes s).length then some ((utf8Bytes s).take n) else none

/-- The map that `utils.ErrorResponse` and `utils.SuccessResponse` marshal into
the body of the response. -/
inductive ResponseBody where
  | failure (message : String)
  | success (data : Wallet)
  deriving DecidableEq

/-- Go `events.APIGatewayProxyResponse`, with the body before marshalling. -/
structure APIGatewayProxyResponse where
  StatusCode : ℕ
  Body : ResponseBody
  deriving DecidableEq

/-- `WalletHandler.handleDebit`; `body` is the request that `json.Unmarshal`
reads from the request body (`none` when it returns an error).  The result is
`none` when the handler panics. -/
def WalletHandler.handleDebit (r : Rendering) (s : Store) (body : Option DebitRequest)
    (env : DebitServiceEnv) : Option APIGatewayProxyResponse × Store :=
  match body with
  | none =>
    (some { StatusCode := 400, Body := ResponseBody.failure "invalid request format" }, s)
  | some req =>
    match WalletService.DebitWallet s req env with
    | (Except.error err, s1) =>
      match sliceTo (err.Error r) 12 with
      | none => (none, s1)
      | some head =>
        if head = utf8Bytes "insufficient" then
          (some { StatusCode := 400, Body := ResponseBody.failure (err.Error r) }, s1)
        else
          (some { StatusCode := 500, Body := ResponseBody.failure "failed to debit wallet" },
            s1)
    | (Except.ok wallet, s1) =>
      (some { StatusCode := 200, Body := ResponseBody.success wallet }, s1)

/-- The format of an error value (empty for an SDK error). -/
def Err.format : Err → String
  | Err.sdk => ""
  | Err.errorf format _ => format
  | Err.wrapf format _ => format

/-- The formats of the errors that `WalletService.DebitWallet` returns: from the
validation, the wallet creation, the balance check, the repository debit and
the re-read. -/
def debitErrorFormats : List String :=
  ["userID is required", "amount must be greater than 0", "paymentID is required",
    "failed to create wallet: %w", "insufficient balance: available %f, required %f",
    "failed to get wallet: %w", "wallet already exists for user %s",
    "insufficient balance: available=%f, required=%f",
    "concurrent update detected or insufficient balance", "failed to debit wallet: %w",
    "failed to get updated wallet: %w"]

/-- The first 12 characters of a format are plain ASCII text: no verb starts
among them and they take 12 bytes. -/
def plainHead (format : String) : Bool :=
  decide ('%' ∉ format.data.take 12) &&
    decide ((utf8Bytes (String.mk (format.data.take 12))).length = 12)

/-! ## Concrete stores, requests and environments -/

/-- A store with no items. -/
def emptyStore : Store := { payments := [], wallets := [], events := [] }

/-- A valid request of user `u1` for 100 USD with idempotency key `k1`. -/
def requestK1 : CreatePaymentRequest :=
  { UserID := "u1", Amount := 100, Currency := "USD", Metadata := [],
    IdempotencyKey := "k1", CorrelationID := "c1" }

/-- An environment in which every SDK call goes through; the new payment ID is `id`. -/
def createEnvOk (id : String) : CreateEnv :=
  { scanOk := true, putOk := true, eventOk := true, newID := id,
    newCorrelationID := "c0", eventID := "e0", now := 1 }

/-- An environment in which only the idempotency scan fails. -/
def createEnvScanFails (id : String) : CreateEnv :=
  { scanOk := false, putOk := true, eventOk := true, newID := id,
    newCorrelationID := "c0", eventID := "e0", now := 2 }

/-- A store whose only item is the wallet of user `u1` with the given balance and version. -/
def walletStore (balance : ℚ) (version : ℤ) : Store :=
  { payments := [],
    wallets := [{ UserID := "u1", Balance := balance, Currency := "USD",
                  Version := some version, UpdatedAt := 1, CreatedAt := 1 }],
    events := [] }

/-- The wallet item of `walletStore`. -/
def walletU1 (balance : ℚ) (version : ℤ) : WalletItem :=
  { UserID := "u1", Balance := balance, Currency := "USD", Version := some version,
    UpdatedAt := 1, CreatedAt := 1 }

/-- A wallet repository environment in which every SDK call goes through. -/
def walletEnvOk : WalletEnv :=
  { getOk := true, createOk := true, updateOk := true, eventOk := true,
    txID := "t1", eventID := "e1", now := 2 }

/-- A wallet service environment in which every SDK call goes through. -/
def debitServiceEnvOk : DebitServiceEnv :=
  { read := walletEnvOk, fallbackOk := true, debit := walletEnvOk, reread := walletEnvOk }

/-- A valid debit request of user `u1`. -/
def debitRequest (amount : ℚ) : DebitRequest :=
  { UserID := "u1", Amount := amount, PaymentID := "p1", CorrelationID := "c1" }

/-- The store after `WalletRepository.GetWallet` has created the wallet of `u1`. -/
def freshWalletStore : Store :=
  (WalletRepository.GetWallet emptyStore "u1" walletEnvOk).2

/-- The wallet item that `WalletRepository.GetWallet` creates for `u1`. -/
def freshWallet : WalletItem :=
  { UserID := "u1", Balance := 1000, Currency := "USD", Version := some 0,
    UpdatedAt := 2, CreatedAt := 2 }

/-- The empty tally. -/
def noCalls : Tally := { succeeded := 0, credited := 0, debited := 0 }

/-- A debit of 30, a credit of 5, a debit of 2000 (more than the wallet holds)
and a credit of 7 whose write does not go through. -/
def sampleCalls : List LedgerCall :=
  [LedgerCall.debit 30 "p1" walletEnvOk, LedgerCall.credit 5 "p2" walletEnvOk,
    LedgerCall.debit 2000 "p3" walletEnvOk,
    LedgerCall.credit 7 "p4" { walletEnvOk with updateOk := false }]

/-- The payment `pay1` of user `u1` with the given status and amount. -/
def storedPayment (status : PaymentStatus) (amount : ℚ) : Payment :=
  { ID := "pay1", UserID := "u1", Amount := amount, Currency := "USD", Status := status,
    ExternalID := "ext_1", CorrelationID := "c1", Metadata := [], RefundReason := "",
    CreatedAt := 1, UpdatedAt := 1 }

/-- A store that holds the payment `pay1` and the wallet of `u1` with balance 100
at version 3. -/
def paymentStore (status : PaymentStatus) (amount : ℚ) : Store :=
  { payments := [storedPayment status amount], wallets := [walletU1 100 3], events := [] }

/-- A refund request for `pay1` that passes validation when the amount is positive. -/
def refundRequest (amount : ℚ) : RefundRequest :=
  { PaymentID := "pay1", Amount := amount, Reason := "customer request" }

/-- A refund environment in which every SDK call goes through. -/
def refundEnvOk : RefundEnv :=
  { getOk := true, creditOk := true, updateOk := true, eventOk := true,
    refundID := "r1", now := 5 }

/-- A refund environment in which only the wallet credit fails. -/
def refundEnvCreditFails : RefundEnv :=
  { getOk := true, creditOk := false, updateOk := true, eventOk := true,
    refundID := "r1", now := 5 }

/-- A refund environment in which only the payment status write fails. -/
def refundEnvUpdateFails : RefundEnv :=
  { getOk := true, creditOk := true, updateOk := false, eventOk := true,
    refundID := "r1", now := 5 }

/-- An environment of `UpdatePaymentStatus` in which every SDK call goes through. -/
def updateStatusEnvOk : UpdateStatusEnv := { updateOk := true, getOk := true, now := 7 }

/-- A breaker with the design default of 3 failures and a reset timeout of 30 s. -/
def breaker3 : resilience.CircuitBreaker :=
  resilience.NewCircuitBreaker "payment-gateway" 3 30000000000

/-- A call whose wrapped function fails; the clock reads `t` throughout. -/
def failingCall (t : ℤ) : ExecuteEnv :=
  { checkedAt := t, result := some (Err.errorf "gateway unavailable" []), recordedAt := t }

/-- A call whose wrapped function succeeds; the clock reads `t` throughout. -/
def succeedingCall (t : ℤ) : ExecuteEnv :=
  { checkedAt := t, result := none, recordedAt := t }

/-- The breaker `breaker3` after it has tripped: Open, last failure at time 100. -/
def openBreaker : resilience.CircuitBreaker :=
  { breaker3 with state := resilience.State.StateOpen, failureCount := 3,
                  lastFailureTime := 100 }

/-- The breaker `breaker3` on probation: Half-Open with success count 0. -/
def halfOpenBreaker : resilience.CircuitBreaker :=
  { breaker3 with state := resilience.State.StateHalfOpen, failureCount := 3,
                  lastFailureTime := 100, successCount := 0 }

/-- A request of user `u1` for 100 in the given currency, without idempotency key. -/
def requestIn (currency : String) : CreatePaymentRequest :=
  { UserID := "u1", Amount := 100, Currency := currency, Metadata := [],
    IdempotencyKey := "", CorrelationID := "c1" }

/-- The record that `PaymentRepository.UpdatePaymentStatus` leaves under the
unknown ID `pay9` when asked to set the status Completed with external ID
`ext_9` at time 7: it has no user, no amount and no currency. -/
def ghostPayment : Payment :=
  { ID := "pay9", UserID := "", Amount := 0, Currency := "", Status := PaymentStatusCompleted,
    ExternalID := "ext_9", CorrelationID := "", Metadata := [], RefundReason := "",
    CreatedAt := 0, UpdatedAt := 7 }

/-- Three failing calls that trip `breaker3`, a refused call, two successful
probes after the reset timeout, a state read, a failing call and a reset. -/
def sampleBreakerCalls : List BreakerCall :=
  [BreakerCall.execute (failingCall 1), BreakerCall.execute (failingCall 2),
    BreakerCall.execute (failingCall 3), BreakerCall.execute (succeedingCall 4),
    BreakerCall.execute (succeedingCall 40000000000),
    BreakerCall.execute (succeedingCall 40000000001), BreakerCall.getState,
    BreakerCall.execute (failingCall 40000000002), BreakerCall.reset]

/-- Three refund calls on `pay1`, every SDK call going through: a partial refund
of 40, a refund of the remaining 60, and a refund of the full 100. -/
def sampleRefunds : List (RefundRequest × RefundEnv) :=
  [(refundRequest 40, refundEnvOk), (refundRequest 60, refundEnvOk),
    (refundRequest 100, refundEnvOk)]

/-- A repository environment in which every SDK call goes through and, between
the `GetItem` that finds no wallet for `u1` and the `PutItem` that would create
it, another caller's `GetWallet` creates the wallet of `u1`. -/
def walletEnvRaced : WalletEnv :=
  { walletEnvOk with between := fun s => (WalletRepository.GetWallet s "u1" walletEnvOk).2 }

/-- The error that the service returns when the creation of a wallet loses the race. -/
def walletRaceError : Err :=
  Err.wrapf "failed to create wallet: %w"
    (Err.errorf "wallet already exists for user %s" [FmtArg.str "u1"])

/-- A valid credit request of user `u1`. -/
def creditRequest (amount : ℚ) : CreditRequest :=
  { UserID := "u1", Amount := amount, PaymentID := "p1", CorrelationID := "c1",
    RefundReason := "" }

/-- A repository environment in which only the `GetItem` call fails. -/
def walletEnvReadFails : WalletEnv := { walletEnvOk with getOk := false }

/-- The wallet item that the fallback of the wallet service creates for `u1`. -/
def fallbackWallet : WalletItem :=
  { UserID := "u1", Balance := 0, Currency := "", Version := some 0,
    UpdatedAt := 0, CreatedAt := 0 }

/-- The wallet item that `RefundRepository.CreditWallet` creates for `u1` when
it credits 50: it has no `Version` attribute. -/
def upsertedWallet : WalletItem :=
  { UserID := "u1", Balance := 50, Currency := "", Version := none,
    UpdatedAt := 0, CreatedAt := 0 }

/-- A rendering: the message of an SDK error, and `%f` as sign, integer part and
six decimals of the value rounded to six decimals. -/
def sampleRendering : Rendering :=
  { sdkMessage := "RequestError: send request failed",
    float := fun q =>
      (if roundHalfEven (q * 10 ^ 6) < 0 then "-" else "") ++
        toString ((roundHalfEven (q * 10 ^ 6)).natAbs / 10 ^ 6) ++ "." ++
        String.mk (List.replicate
          (6 - (toString ((roundHalfEven (q * 10 ^ 6)).natAbs % 10 ^ 6)).length) '0') ++
        toString ((roundHalfEven (q * 10 ^ 6)).natAbs % 10 ^ 6) }

/-- The error of the balance check of `WalletService.DebitWallet` for a debit of
30 on a wallet that holds 10. -/
def insufficientError : Err :=
  Err.errorf "insufficient balance: available %f, required %f"
    [FmtArg.num 10, FmtArg.num 30]

/-- Two credits of whole amounts: the first brings the wallet that `GetWallet`
creates (balance 1000) to 2⁵³, the second adds 1. -/
def largeCredits : List LedgerCall :=
  [LedgerCall.credit 9007199254739992 "p1" walletEnvOk, LedgerCall.credit 1 "p2" walletEnvOk]

/-! ## Table lemmas -/

theorem getItem_putItem_self {α : Type} (key : α → String) (x : α) (tbl : List α) :
    getItem key (key x) (putItem key x tbl) = some x := by
  induction tbl with
  | nil => simp [putItem, getItem]
  | cons y ys ih =>
    by_cases h : key y = key x
    · simp [putItem, getItem, h]
    · simp [putItem, getItem, h, ih]

theorem getItem_putItem_other {α : Type} (key : α → String) (x : α) (k : String)
    (tbl : List α) (h : key x ≠ k) :
    getItem key k (putItem key x tbl) = getItem key k tbl := by
  induction tbl with
  | nil => simp [putItem, getItem, h]
  | cons y ys ih =>
    by_cases hy : key y = key x
    · have hyk : key y ≠ k := by rw [hy]; exact h
      simp [putItem, getItem, hy, h, hyk]
    · by_cases hk : key y = k
      · rw [putItem, if_neg hy, getItem, if_pos hk, getItem, if_pos hk]
      · simp [putItem, getItem, hy, hk, ih]

theorem getItem_key {α : Type} (key : α → String) (k : String) (tbl : List α) (x : α)
    (h : getItem key k tbl = some x) : key x = k := by
  induction tbl with
  | nil => simp [getItem] at h
  | cons y ys ih =>
    by_cases hy : key y = k
    · simp [getItem, hy] at h
      rw [← h]; exact hy
    · simp [getItem, hy] at h
      exact ih h

theorem scanItems_putItem_fresh {α : Type} (key : α → String) (f : α → Bool) (x : α)
    (tbl : List α) (hx : f x = true) (hnone : scanItems f tbl = []) :
    scanItems f (putItem key x tbl) = [x] := by
  induction tbl with
  | nil => simp [putItem, scanItems, hx]
  | cons y ys ih =>
    have hy : f y = false := by
      cases hfy : f y with
      | false => rfl
      | true => simp [scanItems, List.filter_cons, hfy] at hnone
    have hys : scanItems f ys = [] := by
      simpa [scanItems, List.filter_cons, hy] using hnone
    by_cases h : key y = key x
    · have := hys
      simp only [scanItems] at this
      simp [putItem, h, scanItems, List.filter_cons, hx, this]
    · have := ih hys
      simp only [scanItems] at this
      simp [putItem, h, scanItems, List.filter_cons, hy, this]

theorem StringMap.get_set (m : StringMap) (k v : String) : (m.set k v).get k = some v := by
  have h := getItem_putItem_self Prod.fst (k, v) m
  simp only [StringMap.get, StringMap.set]
  simp at h
  simp [h]

/-! ## Payment ledger: idempotent creation -/

theorem PaymentRepository.CreatePayment_metadata (s : Store) (payment : Payment)
    (env : CreateEnv) :
    (PaymentRepository.CreatePayment s payment env).1.Metadata = payment.Metadata := by
  unfold PaymentRepository.CreatePayment PaymentRepository.fillDefaults
  simp only
  split_ifs <;> rfl

theorem PaymentRepository.CreatePayment_ok (s : Store) (payment : Payment) (env : CreateEnv)
    (hput : env.putOk = true) :
    (PaymentRepository.CreatePayment s payment env).2.1 = none ∧
    (PaymentRepository.CreatePayment s payment env).2.2.payments =
      putItem Payment.ID (PaymentRepository.CreatePayment s payment env).1 s.payments := by
  unfold PaymentRepository.CreatePayment PaymentRepository.recordEvent
  simp only [hput, if_true]
  split_ifs <;> simp

theorem PaymentService.createNew_ok (s : Store) (req : CreatePaymentRequest) (env : CreateEnv)
    (hk : req.IdempotencyKey ≠ "") (hput : env.putOk = true) :
    ∃ p, (PaymentService.createNew s req env).1 = Except.ok p ∧
      carriesKey req.IdempotencyKey p = true ∧
      (PaymentService.createNew s req env).2.payments = putItem Payment.ID p s.payments := by
  unfold PaymentService.createNew
  have hmeta := PaymentRepository.CreatePayment_metadata s (PaymentService.newPayment req) env
  have hok := PaymentRepository.CreatePayment_ok s (PaymentService.newPayment req) env hput
  rcases hres : PaymentRepository.CreatePayment s (PaymentService.newPayment req) env
    with ⟨p, e, s1⟩
  rw [hres] at hmeta hok
  simp only at hmeta hok
  obtain ⟨he, hs1⟩ := hok
  subst he
  refine ⟨p, rfl, ?_, hs1⟩
  simp [carriesKey, hmeta, PaymentService.newPayment, hk, StringMap.get_set]

theorem PaymentService.CreatePayment_of_scan_none (s : Store) (req : CreatePaymentRequest)
    (env : CreateEnv) (hv : PaymentService.validateCreatePaymentRequest req = none)
    (hscan : scanItems (carriesKey req.IdempotencyKey) s.payments = []) :
    PaymentService.CreatePayment s req env = PaymentService.createNew s req env := by
  unfold PaymentService.CreatePayment PaymentRepository.CheckIdempotency
  rw [hv, hscan]
  by_cases hk : req.IdempotencyKey = ""
  · simp [hk]
  · cases env.scanOk <;> simp [hk]

theorem PaymentService.CreatePayment_of_scan_cons (s : Store) (req : CreatePaymentRequest)
    (env : CreateEnv) (p : Payment) (rest : List Payment)
    (hv : PaymentService.validateCreatePaymentRequest req = none)
    (hk : req.IdempotencyKey ≠ "") (hok : env.scanOk = true)
    (hscan : scanItems (carriesKey req.IdempotencyKey) s.payments = p :: rest) :
    PaymentService.CreatePayment s req env = (Except.ok p, s) := by
  unfold PaymentService.CreatePayment PaymentRepository.CheckIdempotency
  rw [hv, hscan]
  simp [hk, hok]

/-- C1 (amended): when the store holds at most one payment carrying the key, the
idempotency scans of both calls succeed and the payment write of the first call
succeeds, two successive `PaymentService.CreatePayment` calls with the same
non-empty idempotency key return the same payment, which carries the key, and
leave exactly one payment carrying the key in the store. -/
theorem PaymentService.CreatePayment_idempotent (s : Store) (r1 r2 : CreatePaymentRequest)
    (e1 e2 : CreateEnv)
    (hk : r1.IdempotencyKey ≠ "") (hsame : r2.IdempotencyKey = r1.IdempotencyKey)
    (hv1 : PaymentService.validateCreatePaymentRequest r1 = none)
    (hv2 : PaymentService.validateCreatePaymentRequest r2 = none)
    (hscan1 : e1.scanOk = true) (hput1 : e1.putOk = true) (hscan2 : e2.scanOk = true)
    (hle : countKey r1.IdempotencyKey s ≤ 1) :
    ∃ p, (PaymentService.CreatePayment s r1 e1).1 = Except.ok p ∧
      (PaymentService.CreatePayment (PaymentService.CreatePayment s r1 e1).2 r2 e2).1
        = Except.ok p ∧
      carriesKey r1.IdempotencyKey p = true ∧
      countKey r1.IdempotencyKey
        (PaymentService.CreatePayment (PaymentService.CreatePayment s r1 e1).2 r2 e2).2 = 1 := by
  have hk2 : r2.IdempotencyKey ≠ "" := by rw [hsame]; exact hk
  cases hsc : scanItems (carriesKey r1.IdempotencyKey) s.payments with
  | nil =>
    rw [PaymentService.CreatePayment_of_scan_none s r1 e1 hv1 hsc]
    obtain ⟨p, hres, hcar, hpay⟩ := PaymentService.createNew_ok s r1 e1 hk hput1
    have hsc2 : scanItems (carriesKey r2.IdempotencyKey)
        (PaymentService.createNew s r1 e1).2.payments = [p] := by
      rw [hsame, hpay]
      exact scanItems_putItem_fresh Payment.ID _ p s.payments hcar hsc
    rw [PaymentService.CreatePayment_of_scan_cons _ r2 e2 p [] hv2 hk2 hscan2 hsc2]
    refine ⟨p, hres, rfl, hcar, ?_⟩
    rw [hsame] at hsc2
    simp [countKey, hsc2]
  | cons p rest =>
    have hrest : rest = [] := by
      have : (p :: rest).length ≤ 1 := by rw [← hsc]; exact hle
      simpa using this
    subst hrest
    rw [PaymentService.CreatePayment_of_scan_cons s r1 e1 p [] hv1 hk hscan1 hsc]
    have hsc2 : scanItems (carriesKey r2.IdempotencyKey) s.payments = [p] := by
      rw [hsame]; exact hsc
    rw [PaymentService.CreatePayment_of_scan_cons s r2 e2 p [] hv2 hk2 hscan2 hsc2]
    have hcar : carriesKey r1.IdempotencyKey p = true := by
      have hm : p ∈ scanItems (carriesKey r1.IdempotencyKey) s.payments := by simp [hsc]
      simp only [scanItems, List.mem_filter] at hm
      exact hm.2
    exact ⟨p, rfl, rfl, hcar, by simp [countKey, hsc]⟩

/-- Witness of C1 (amended): two calls with key `k1` on the empty store. -/
theorem PaymentService.CreatePayment_idempotent_witness :
    requestK1.IdempotencyKey ≠ "" ∧ countKey requestK1.IdempotencyKey emptyStore ≤ 1 ∧
    ∃ p, (PaymentService.CreatePayment emptyStore requestK1 (createEnvOk "p1")).1
        = Except.ok p ∧
      (PaymentService.CreatePayment
        (PaymentService.CreatePayment emptyStore requestK1 (createEnvOk "p1")).2
        requestK1 (createEnvOk "p2")).1 = Except.ok p ∧
      carriesKey requestK1.IdempotencyKey p = true ∧
      countKey requestK1.IdempotencyKey
        (PaymentService.CreatePayment
          (PaymentService.CreatePayment emptyStore requestK1 (createEnvOk "p1")).2
          requestK1 (createEnvOk "p2")).2 = 1 :=
  ⟨by decide, by decide,
    PaymentService.CreatePayment_idempotent emptyStore requestK1 requestK1
      (createEnvOk "p1") (createEnvOk "p2") (by decide) rfl (by decide) (by decide)
      rfl rfl rfl (by decide)⟩

/-- Counterexample to C1 as stated: on the empty store, a first call with key
`k1` creates payment `p1`; when the idempotency scan of the second call fails,
the second call does not return an error but creates a second payment `p2`
carrying `k1` and returns it.  And a store that already holds two payments
carrying `k1` still holds two after two calls. -/
theorem PaymentService.CreatePayment_second_record :
    (countKey "k1" (PaymentService.CreatePayment
        (PaymentService.CreatePayment emptyStore requestK1 (createEnvOk "p1")).2
        requestK1 (createEnvScanFails "p2")).2 = 2 ∧
      ((PaymentService.CreatePayment emptyStore requestK1 (createEnvOk "p1")).1.toOption.map
        Payment.ID) = some "p1" ∧
      ((PaymentService.CreatePayment
        (PaymentService.CreatePayment emptyStore requestK1 (createEnvOk "p1")).2
        requestK1 (createEnvScanFails "p2")).1.toOption.map Payment.ID) = some "p2") ∧
    countKey "k1" (PaymentService.CreatePayment
        (PaymentService.CreatePayment
          (PaymentService.CreatePayment
            (PaymentService.CreatePayment emptyStore requestK1 (createEnvOk "p1")).2
            requestK1 (createEnvScanFails "p2")).2
          requestK1 (createEnvOk "p3")).2
        requestK1 (createEnvOk "p4")).2 = 2 := by
  decide

/-! ## Wallet ledger: reads and failed debits -/

theorem WalletRepository.GetWallet_existing (s : Store) (userID : String) (env : WalletEnv)
    (it : WalletItem) (hit : getItem WalletItem.UserID userID s.wallets = some it) :
    WalletRepository.GetWallet s userID env =
      if env.getOk then (Except.ok it.toWallet, s)
      else (Except.error (Err.wrapf "failed to get wallet: %w" Err.sdk), s) := by
  unfold WalletRepository.GetWallet
  rw [hit]

theorem WalletRepository.CreateWallet_existing (s : Store) (wallet : Wallet) (ok : Bool)
    (it : WalletItem) (hit : getItem WalletItem.UserID wallet.UserID s.wallets = some it) :
    ∃ err, WalletRepository.CreateWallet s wallet ok = (some err, s) := by
  unfold WalletRepository.CreateWallet putItemIf
  cases ok
  · exact ⟨_, rfl⟩
  · have : getItem WalletItem.UserID wallet.toItem.UserID s.wallets = some it := hit
    rw [this]
    exact ⟨_, rfl⟩

/-- C3: for an existing wallet and a valid debit request whose amount exceeds the
stored balance, `WalletService.DebitWallet` and `WalletRepository.DebitWallet`
both return an error and leave every table as it was, whatever the SDK calls do;
whenever the wallet read goes through, the error is the insufficient-balance
error of the respective layer. -/
theorem DebitWallet_insufficient_funds (s : Store) (it : WalletItem) (req : DebitRequest)
    (env : DebitServiceEnv) (renv : WalletEnv)
    (hit : getItem WalletItem.UserID req.UserID s.wallets = some it)
    (hv : WalletService.validateDebitRequest req = none)
    (hgt : it.Balance < req.Amount) :
    ((∃ err, (WalletService.DebitWallet s req env).1 = Except.error err) ∧
      (WalletService.DebitWallet s req env).2 = s ∧
      (env.read.getOk = true →
        (WalletService.DebitWallet s req env).1 =
          Except.error (Err.errorf "insufficient balance: available %f, required %f"
            [FmtArg.num it.Balance, FmtArg.num req.Amount]))) ∧
    ((∃ err, (WalletRepository.DebitWallet s req.UserID req.Amount req.PaymentID renv).1
        = Except.error err) ∧
      (WalletRepository.DebitWallet s req.UserID req.Amount req.PaymentID renv).2 = s ∧
      (renv.getOk = true →
        (WalletRepository.DebitWallet s req.UserID req.Amount req.PaymentID renv).1 =
          Except.error (Err.errorf "insufficient balance: available=%f, required=%f"
            [FmtArg.num it.Balance, FmtArg.num req.Amount]))) := by
  have hbal : it.toWallet.Balance < req.Amount := hgt
  constructor
  · unfold WalletService.DebitWallet WalletService.getOrCreate
    rw [hv, WalletRepository.GetWallet_existing s req.UserID env.read it hit]
    cases hg : env.read.getOk
    · obtain ⟨err, herr⟩ := WalletRepository.CreateWallet_existing s
        { UserID := req.UserID, Balance := 0, Currency := "", Version := 0,
          UpdatedAt := 0, CreatedAt := 0 } env.fallbackOk it hit
      simp [herr]
    · simp [hbal]
      rfl
  · unfold WalletRepository.DebitWallet
    rw [WalletRepository.GetWallet_existing s req.UserID renv it hit]
    cases hg : renv.getOk
    · simp
    · simp [hbal]
      rfl

/-- Witness of C3: a debit of 80 on a wallet that holds 50 at version 3. -/
theorem DebitWallet_insufficient_funds_witness :
    ((∃ err, (WalletService.DebitWallet (walletStore 50 3) (debitRequest 80)
        debitServiceEnvOk).1 = Except.error err) ∧
      (WalletService.DebitWallet (walletStore 50 3) (debitRequest 80) debitServiceEnvOk).2
        = walletStore 50 3 ∧
      (debitServiceEnvOk.read.getOk = true →
        (WalletService.DebitWallet (walletStore 50 3) (debitRequest 80) debitServiceEnvOk).1 =
          Except.error (Err.errorf "insufficient balance: available %f, required %f"
            [FmtArg.num (walletU1 50 3).Balance, FmtArg.num (debitRequest 80).Amount]))) ∧
    ((∃ err, (WalletRepository.DebitWallet (walletStore 50 3) (debitRequest 80).UserID
        (debitRequest 80).Amount (debitRequest 80).PaymentID walletEnvOk).1
        = Except.error err) ∧
      (WalletRepository.DebitWallet (walletStore 50 3) (debitRequest 80).UserID
        (debitRequest 80).Amount (debitRequest 80).PaymentID walletEnvOk).2 = walletStore 50 3 ∧
      (walletEnvOk.getOk = true →
        (WalletRepository.DebitWallet (walletStore 50 3) (debitRequest 80).UserID
          (debitRequest 80).Amount (debitRequest 80).PaymentID walletEnvOk).1 =
          Except.error (Err.errorf "insufficient balance: available=%f, required=%f"
            [FmtArg.num (walletU1 50 3).Balance, FmtArg.num (debitRequest 80).Amount]))) :=
  DebitWallet_insufficient_funds (walletStore 50 3) (walletU1 50 3) (debitRequest 80)
    debitServiceEnvOk walletEnvOk (by decide) (by decide) (by decide)

/-! ## Number rendering -/

theorem roundHalfEven_intCast (n : ℤ) : roundHalfEven (n : ℚ) = n := by
  simp [roundHalfEven]

theorem roundHalfEven_le_int (x : ℚ) (n : ℤ) (h : x ≤ n) : roundHalfEven x ≤ n := by
  have hf : ⌊x⌋ ≤ n := by
    have := Int.floor_mono h
    simpa using this
  have hfx : (⌊x⌋ : ℚ) ≤ x := Int.floor_le x
  unfold roundHalfEven
  simp only
  split_ifs with h1 h2 h3
  · exact hf
  · have hlt : (⌊x⌋ : ℚ) < n := by linarith
    have : ⌊x⌋ < n := by exact_mod_cast hlt
    omega
  · exact hf
  · have hlt : (⌊x⌋ : ℚ) < n := by linarith
    have : ⌊x⌋ < n := by exact_mod_cast hlt
    omega

theorem int_le_roundHalfEven (x : ℚ) (n : ℤ) (h : (n : ℚ) ≤ x) : n ≤ roundHalfEven x := by
  have hf : n ≤ ⌊x⌋ := Int.le_floor.mpr h
  unfold roundHalfEven
  simp only
  split_ifs <;> omega

theorem ten_pow_pos (k : ℕ) : (0 : ℚ) < 10 ^ k := by positivity

theorem formatFixed_of_hasDecimals (k : ℕ) (q : ℚ) (h : HasDecimals k q) :
    formatFixed k q = q := by
  obtain ⟨n, hn⟩ := h
  unfold formatFixed
  rw [hn, roundHalfEven_intCast, ← hn]
  field_simp

theorem hasDecimals_formatFixed (k : ℕ) (q : ℚ) : HasDecimals k (formatFixed k q) := by
  refine ⟨roundHalfEven (q * 10 ^ k), ?_⟩
  unfold formatFixed
  field_simp

theorem HasDecimals.add {k : ℕ} {a b : ℚ} (ha : HasDecimals k a) (hb : HasDecimals k b) :
    HasDecimals k (a + b) := by
  obtain ⟨m, hm⟩ := ha
  obtain ⟨n, hn⟩ := hb
  exact ⟨m + n, by push_cast; rw [← hm, ← hn]; ring⟩

theorem HasDecimals.sub {k : ℕ} {a b : ℚ} (ha : HasDecimals k a) (hb : HasDecimals k b) :
    HasDecimals k (a - b) := by
  obtain ⟨m, hm⟩ := ha
  obtain ⟨n, hn⟩ := hb
  exact ⟨m - n, by push_cast; rw [← hm, ← hn]; ring⟩

theorem formatFixed_le_of_le (k : ℕ) (a b : ℚ) (hb : HasDecimals k b) (h : a ≤ b) :
    formatFixed k a ≤ b := by
  obtain ⟨n, hn⟩ := hb
  have hpos := ten_pow_pos k
  have h1 : a * 10 ^ k ≤ n := by rw [← hn]; exact mul_le_mul_of_nonneg_right h hpos.le
  have h2 : roundHalfEven (a * 10 ^ k) ≤ n := roundHalfEven_le_int _ _ h1
  have h3 : (roundHalfEven (a * 10 ^ k) : ℚ) ≤ n := by exact_mod_cast h2
  unfold formatFixed
  rw [div_le_iff₀ hpos, hn]
  exact h3

theorem formatFixed_nonneg (k : ℕ) (q : ℚ) (h : 0 ≤ q) : 0 ≤ formatFixed k q := by
  have hpos := ten_pow_pos k
  have h1 : ((0 : ℤ) : ℚ) ≤ q * 10 ^ k := by
    simpa using mul_nonneg h hpos.le
  have h2 := int_le_roundHalfEven _ _ h1
  have h3 : (0 : ℚ) ≤ (roundHalfEven (q * 10 ^ k) : ℚ) := by exact_mod_cast h2
  unfold formatFixed
  exact div_nonneg h3 hpos.le

theorem hasDecimals_intCast (k : ℕ) (n : ℤ) : HasDecimals k (n : ℚ) :=
  ⟨n * 10 ^ k, by push_cast; ring⟩

/-! ## Machine arithmetic -/

theorem wrapInt64_of_range (n : ℤ) (h1 : -9223372036854775808 ≤ n)
    (h2 : n < 9223372036854775808) : wrapInt64 n = n := by
  unfold wrapInt64
  omega

theorem wrapInt64_succ_ne (v : ℤ) : wrapInt64 (v + 1) ≠ v := by
  unfold wrapInt64
  omega

theorem roundHalfEven_near (x : ℚ) : |(roundHalfEven x : ℚ) - x| ≤ 1 / 2 := by
  have h1 : (⌊x⌋ : ℚ) ≤ x := Int.floor_le x
  have h2 : x < (⌊x⌋ : ℚ) + 1 := Int.lt_floor_add_one x
  unfold roundHalfEven
  simp only
  rw [abs_le]
  split_ifs with ha hb hc
  · constructor <;> linarith
  · push_cast
    constructor <;> linarith
  · constructor <;> linarith
  · push_cast
    constructor <;> linarith

theorem roundHalfEven_eq_of_near (x : ℚ) (n : ℤ) (h : |x - n| < 1 / 2) :
    roundHalfEven x = n := by
  rw [abs_lt] at h
  obtain ⟨hl, hr⟩ := h
  by_cases hx : (n : ℚ) ≤ x
  · have hfl : ⌊x⌋ = n := by
      rw [Int.floor_eq_iff]
      constructor <;> linarith
    unfold roundHalfEven
    simp only [hfl]
    rw [if_pos (by linarith)]
  · have hfl : ⌊x⌋ = n - 1 := by
      rw [Int.floor_eq_iff]
      push_cast
      constructor <;> linarith
    unfold roundHalfEven
    simp only [hfl]
    push_cast
    rw [if_neg (by linarith), if_pos (by linarith)]
    ring

theorem formatFixed_eq_of_near (k : ℕ) (d y : ℚ) (hd : HasDecimals k d)
    (h : |y - d| < 1 / (2 * 10 ^ k)) : formatFixed k y = d := by
  obtain ⟨n, hn⟩ := hd
  have hpos : (0 : ℚ) < 10 ^ k := by positivity
  have hnear : |y * 10 ^ k - n| < 1 / 2 := by
    rw [← hn, ← sub_mul, abs_mul, abs_of_pos hpos]
    have := mul_lt_mul_of_pos_right h hpos
    calc |y - d| * 10 ^ k < 1 / (2 * 10 ^ k) * 10 ^ k := this
      _ = 1 / 2 := by field_simp; ring
  unfold formatFixed
  rw [roundHalfEven_eq_of_near _ n hnear, ← hn]
  field_simp

theorem float64_near (q : ℚ) (hq : |q| < 2 ^ 31) : |float64 q - q| ≤ 1 / 2 ^ 23 := by
  have hlog : Int.log 2 |q| < 31 := by
    by_cases h0 : q = 0
    · rw [h0, abs_zero, Int.log_zero_right]
      norm_num
    · have hpos : 0 < |q| := abs_pos.mpr h0
      rw [← Int.lt_zpow_iff_log_lt (by norm_num) hpos]
      have h31 : ((2 : ℕ) : ℚ) ^ (31 : ℤ) = 2 ^ 31 := by norm_num
      rw [h31]
      exact hq
  have he : max (Int.log 2 |q|) (-1022) - 52 ≤ -22 := by
    have : max (Int.log 2 |q|) (-1022) ≤ 30 := max_le (by omega) (by norm_num)
    omega
  have hu : (0 : ℚ) < 2 ^ (max (Int.log 2 |q|) (-1022) - 52) := by positivity
  have hule : (2 : ℚ) ^ (max (Int.log 2 |q|) (-1022) - 52) ≤ 2 ^ (-22 : ℤ) :=
    zpow_le_zpow_right₀ (by norm_num) he
  have hr := roundHalfEven_near (q / 2 ^ (max (Int.log 2 |q|) (-1022) - 52))
  have hsplit : float64 q - q =
      ((roundHalfEven (q / 2 ^ (max (Int.log 2 |q|) (-1022) - 52)) : ℚ)
        - q / 2 ^ (max (Int.log 2 |q|) (-1022) - 52))
        * 2 ^ (max (Int.log 2 |q|) (-1022) - 52) := by
    unfold float64
    simp only
    field_simp
  rw [hsplit, abs_mul, abs_of_pos hu]
  calc _ ≤ 1 / 2 * (2 : ℚ) ^ (-22 : ℤ) := mul_le_mul hr hule hu.le (by norm_num)
    _ = 1 / 2 ^ 23 := by norm_num

theorem formatFixed_float64 (q : ℚ) (hdec : HasDecimals 6 q) (hq : |q| ≤ 2 * 10 ^ 9) :
    formatFixed 6 (float64 q) = q := by
  have hlt : |q| < 2 ^ 31 := lt_of_le_of_lt hq (by norm_num)
  apply formatFixed_eq_of_near 6 q (float64 q) hdec
  exact lt_of_le_of_lt (float64_near q hlt) (by norm_num)

theorem float64_of_binade (q : ℚ) (e : ℤ) (h1 : (2 : ℚ) ^ e ≤ |q|)
    (h2 : |q| < (2 : ℚ) ^ (e + 1)) (he : -1022 ≤ e) :
    float64 q = (roundHalfEven (q / 2 ^ (e - 52)) : ℚ) * 2 ^ (e - 52) := by
  have hpos : 0 < |q| := lt_of_lt_of_le (by positivity) h1
  have hcast : ((2 : ℕ) : ℚ) = 2 := by norm_num
  have hlog : Int.log 2 |q| = e := by
    apply le_antisymm
    · have : Int.log 2 |q| < e + 1 := by
        rw [← Int.lt_zpow_iff_log_lt (by norm_num) hpos, hcast]
        exact h2
      omega
    · rw [← Int.zpow_le_iff_le_log (by norm_num) hpos, hcast]
      exact h1
  unfold float64
  simp only [hlog, max_eq_left he]

theorem float64_above_two_pow_53 : float64 9007199254740993 = 9007199254740992 := by
  have h := float64_of_binade 9007199254740993 53 (by norm_num) (by norm_num) (by norm_num)
  have hfl : ⌊(9007199254740993 / 2 : ℚ)⌋ = 4503599627370496 := by
    rw [Int.floor_eq_iff]; norm_num
  rw [h]
  norm_num [roundHalfEven, hfl]

/-! ## Wallet ledger: the conditional writes -/

theorem WalletRepository.recordEvent_tables (s : Store) (transaction : WalletTransaction)
    (env : WalletEnv) :
    (WalletRepository.recordEvent s transaction env).2.wallets = s.wallets ∧
    (WalletRepository.recordEvent s transaction env).2.payments = s.payments := by
  unfold WalletRepository.recordEvent
  cases env.eventOk <;> simp

theorem WalletRepository.debitWrite_ok (s : Store) (wallet : Wallet) (userID : String)
    (amount : ℚ) (paymentID : String) (env : WalletEnv) (it : WalletItem)
    (hit : getItem WalletItem.UserID userID s.wallets = some it)
    (hu : env.updateOk = true) (hver : it.Version = some wallet.Version)
    (hbal : formatFixed 6 amount ≤ it.Balance) :
    (∃ tx, (WalletRepository.debitWrite s wallet userID amount paymentID env).1
      = Except.ok tx) ∧
    (WalletRepository.debitWrite s wallet userID amount paymentID env).2.payments
      = s.payments ∧
    getItem WalletItem.UserID userID
      (WalletRepository.debitWrite s wallet userID amount paymentID env).2.wallets =
      some { it with Balance := formatFixed 6 (float64 (wallet.Balance - amount)),
                     Version := some (wrapInt64 (wallet.Version + 1)),
                     UpdatedAt := env.now } := by
  have hkey : it.UserID = userID := getItem_key WalletItem.UserID userID s.wallets it hit
  unfold WalletRepository.debitWrite updateItem
  simp only [hu, if_true, hit, debitCondition, hver, beq_self_eq_true, Bool.true_and,
    decide_eq_true_eq, hbal, setBalanceVersion]
  refine ⟨⟨_, rfl⟩, (WalletRepository.recordEvent_tables _ _ _).2, ?_⟩
  rw [(WalletRepository.recordEvent_tables _ _ _).1]
  have := getItem_putItem_self WalletItem.UserID
    ({ it with Balance := formatFixed 6 (float64 (wallet.Balance - amount)),
               Version := some (wrapInt64 (wallet.Version + 1)),
               UpdatedAt := env.now } : WalletItem)
    s.wallets
  simpa [hkey] using this

theorem WalletRepository.debitWrite_conflict (s : Store) (wallet : Wallet) (userID : String)
    (amount : ℚ) (paymentID : String) (env : WalletEnv) (it : WalletItem)
    (hit : getItem WalletItem.UserID userID s.wallets = some it)
    (hu : env.updateOk = true) (hver : it.Version ≠ some wallet.Version) :
    WalletRepository.debitWrite s wallet userID amount paymentID env =
      (Except.error (Err.errorf "concurrent update detected or insufficient balance" []), s) := by
  unfold WalletRepository.debitWrite updateItem
  simp [hu, hit, debitCondition, hver]

theorem WalletRepository.creditWrite_ok (s : Store) (wallet : Wallet) (userID : String)
    (amount : ℚ) (paymentID : String) (env : WalletEnv) (it : WalletItem)
    (hit : getItem WalletItem.UserID userID s.wallets = some it)
    (hu : env.updateOk = true) (hver : it.Version = some wallet.Version) :
    (∃ tx, (WalletRepository.creditWrite s wallet userID amount paymentID env).1
      = Except.ok tx) ∧
    (WalletRepository.creditWrite s wallet userID amount paymentID env).2.payments
      = s.payments ∧
    getItem WalletItem.UserID userID
      (WalletRepository.creditWrite s wallet userID amount paymentID env).2.wallets =
      some { it with Balance := formatFixed 6 (float64 (wallet.Balance + amount)),
                     Version := some (wrapInt64 (wallet.Version + 1)),
                     UpdatedAt := env.now } := by
  have hkey : it.UserID = userID := getItem_key WalletItem.UserID userID s.wallets it hit
  unfold WalletRepository.creditWrite updateItem
  simp only [hu, if_true, hit, creditCondition, hver, beq_self_eq_true, setBalanceVersion]
  refine ⟨⟨_, rfl⟩, (WalletRepository.recordEvent_tables _ _ _).2, ?_⟩
  rw [(WalletRepository.recordEvent_tables _ _ _).1]
  have := getItem_putItem_self WalletItem.UserID
    ({ it with Balance := formatFixed 6 (float64 (wallet.Balance + amount)),
               Version := some (wrapInt64 (wallet.Version + 1)),
               UpdatedAt := env.now } : WalletItem)
    s.wallets
  simpa [hkey] using this

theorem WalletRepository.creditWrite_conflict (s : Store) (wallet : Wallet) (userID : String)
    (amount : ℚ) (paymentID : String) (env : WalletEnv) (it : WalletItem)
    (hit : getItem WalletItem.UserID userID s.wallets = some it)
    (hu : env.updateOk = true) (hver : it.Version ≠ some wallet.Version) :
    WalletRepository.creditWrite s wallet userID amount paymentID env =
      (Except.error (Err.errorf "concurrent update detected" []), s) := by
  unfold WalletRepository.creditWrite updateItem
  simp [hu, hit, creditCondition, hver]

theorem WalletRepository.DebitWallet_eq_debitWrite (s : Store) (userID : String)
    (amount : ℚ) (paymentID : String) (env : WalletEnv) (it : WalletItem)
    (hit : getItem WalletItem.UserID userID s.wallets = some it)
    (hg : env.getOk = true) (hle : amount ≤ it.Balance) :
    WalletRepository.DebitWallet s userID amount paymentID env =
      WalletRepository.debitWrite s it.toWallet userID amount paymentID env := by
  unfold WalletRepository.DebitWallet
  rw [WalletRepository.GetWallet_existing s userID env it hit]
  have : ¬ it.toWallet.Balance < amount := not_lt.mpr hle
  simp [hg, this]

theorem WalletRepository.CreditWallet_eq_creditWrite (s : Store) (userID : String)
    (amount : ℚ) (paymentID : String) (env : WalletEnv) (it : WalletItem)
    (hit : getItem WalletItem.UserID userID s.wallets = some it)
    (hg : env.getOk = true) :
    WalletRepository.CreditWallet s userID amount paymentID env =
      WalletRepository.creditWrite s it.toWallet userID amount paymentID env := by
  unfold WalletRepository.CreditWallet
  rw [WalletRepository.GetWallet_existing s userID env it hit]
  simp [hg]

theorem WalletItem.toWallet_version (it : WalletItem) (v : ℤ) (h : it.Version = some v) :
    it.toWallet.Version = v := by
  simp [WalletItem.toWallet, h]

/-- C4: two debits of the same wallet that both read it at version `v`, each for
an amount within the balance read, and whose conditional writes reach the table
one after the other: the first write succeeds and stores the float64 difference
rendered with six decimals and the version `v + 1` (as a 64-bit `int`), the
second fails with the concurrency-conflict error and leaves every table as the
first write left it.  The stored balance has at most six decimals, as every
balance this code writes has. -/
theorem WalletRepository.DebitWallet_stale_version (s : Store) (userID : String)
    (it : WalletItem) (v : ℤ) (a1 a2 : ℚ) (p1 p2 : String) (e1 e2 : WalletEnv)
    (hit : getItem WalletItem.UserID userID s.wallets = some it)
    (hver : it.Version = some v) (hdec : HasDecimals 6 it.Balance)
    (h1 : a1 ≤ it.Balance) (h2 : a2 ≤ it.Balance)
    (hg1 : e1.getOk = true) (hg2 : e2.getOk = true)
    (hu1 : e1.updateOk = true) (hu2 : e2.updateOk = true) :
    (WalletRepository.GetWallet s userID e1 = (Except.ok it.toWallet, s) ∧
      WalletRepository.GetWallet s userID e2 = (Except.ok it.toWallet, s) ∧
      it.toWallet.Version = v ∧ it.toWallet.Balance = it.Balance) ∧
    (WalletRepository.DebitWallet s userID a1 p1 e1 =
        WalletRepository.debitWrite s it.toWallet userID a1 p1 e1 ∧
      WalletRepository.DebitWallet s userID a2 p2 e2 =
        WalletRepository.debitWrite s it.toWallet userID a2 p2 e2) ∧
    (∃ tx, (WalletRepository.debitWrite s it.toWallet userID a1 p1 e1).1 = Except.ok tx) ∧
    getItem WalletItem.UserID userID
        (WalletRepository.debitWrite s it.toWallet userID a1 p1 e1).2.wallets =
      some { it with Balance := formatFixed 6 (float64 (it.Balance - a1)),
                     Version := some (wrapInt64 (v + 1)), UpdatedAt := e1.now } ∧
    WalletRepository.debitWrite (WalletRepository.debitWrite s it.toWallet userID a1 p1 e1).2
        it.toWallet userID a2 p2 e2 =
      (Except.error (Err.errorf "concurrent update detected or insufficient balance" []),
        (WalletRepository.debitWrite s it.toWallet userID a1 p1 e1).2) := by
  have hwv : it.toWallet.Version = v := WalletItem.toWallet_version it v hver
  have hver1 : it.Version = some it.toWallet.Version := by rw [hwv]; exact hver
  have hbal : formatFixed 6 a1 ≤ it.Balance := formatFixed_le_of_le 6 a1 it.Balance hdec h1
  obtain ⟨hok, _, hstored⟩ :=
    WalletRepository.debitWrite_ok s it.toWallet userID a1 p1 e1 it hit hu1 hver1 hbal
  rw [hwv] at hstored
  refine ⟨⟨?_, ?_, hwv, rfl⟩, ⟨?_, ?_⟩, hok, hstored, ?_⟩
  · rw [WalletRepository.GetWallet_existing s userID e1 it hit]; simp [hg1]
  · rw [WalletRepository.GetWallet_existing s userID e2 it hit]; simp [hg2]
  · exact WalletRepository.DebitWallet_eq_debitWrite s userID a1 p1 e1 it hit hg1 h1
  · exact WalletRepository.DebitWallet_eq_debitWrite s userID a2 p2 e2 it hit hg2 h2
  · apply WalletRepository.debitWrite_conflict _ it.toWallet userID a2 p2 e2 _ hstored hu2
    rw [hwv]
    intro heq
    exact wrapInt64_succ_ne v (Option.some.inj heq)

/-- Witness of C4: two debits of 30 and 40 that both read the wallet of `u1`
holding 100 at version 3. -/
theorem WalletRepository.DebitWallet_stale_version_witness :
    (WalletRepository.GetWallet (walletStore 100 3) "u1" walletEnvOk
        = (Except.ok (walletU1 100 3).toWallet, walletStore 100 3) ∧
      WalletRepository.GetWallet (walletStore 100 3) "u1" walletEnvOk
        = (Except.ok (walletU1 100 3).toWallet, walletStore 100 3) ∧
      (walletU1 100 3).toWallet.Version = 3 ∧
      (walletU1 100 3).toWallet.Balance = (walletU1 100 3).Balance) ∧
    (WalletRepository.DebitWallet (walletStore 100 3) "u1" 30 "p1" walletEnvOk =
        WalletRepository.debitWrite (walletStore 100 3) (walletU1 100 3).toWallet "u1" 30 "p1"
          walletEnvOk ∧
      WalletRepository.DebitWallet (walletStore 100 3) "u1" 40 "p2" walletEnvOk =
        WalletRepository.debitWrite (walletStore 100 3) (walletU1 100 3).toWallet "u1" 40 "p2"
          walletEnvOk) ∧
    (∃ tx, (WalletRepository.debitWrite (walletStore 100 3) (walletU1 100 3).toWallet "u1" 30
        "p1" walletEnvOk).1 = Except.ok tx) ∧
    getItem WalletItem.UserID "u1"
        (WalletRepository.debitWrite (walletStore 100 3) (walletU1 100 3).toWallet "u1" 30
          "p1" walletEnvOk).2.wallets =
      some { walletU1 100 3 with
              Balance := formatFixed 6 (float64 ((walletU1 100 3).Balance - 30)),
              Version := some (wrapInt64 (3 + 1)), UpdatedAt := walletEnvOk.now } ∧
    WalletRepository.debitWrite
        (WalletRepository.debitWrite (walletStore 100 3) (walletU1 100 3).toWallet "u1" 30
          "p1" walletEnvOk).2
        (walletU1 100 3).toWallet "u1" 40 "p2" walletEnvOk =
      (Except.error (Err.errorf "concurrent update detected or insufficient balance" []),
        (WalletRepository.debitWrite (walletStore 100 3) (walletU1 100 3).toWallet "u1" 30
          "p1" walletEnvOk).2) :=
  WalletRepository.DebitWallet_stale_version (walletStore 100 3) "u1" (walletU1 100 3) 3
    30 40 "p1" "p2" walletEnvOk walletEnvOk (by decide) rfl (hasDecimals_intCast 6 100)
    (by decide) (by decide) rfl rfl rfl rfl

/-! ## Wallet ledger: what an uncontended debit or credit stores -/

theorem WalletRepository.DebitWallet_rounded (s : Store) (userID : String) (it : WalletItem)
    (v : ℤ) (a : ℚ) (p : String) (e : WalletEnv)
    (hit : getItem WalletItem.UserID userID s.wallets = some it)
    (hver : it.Version = some v) (hdec : HasDecimals 6 it.Balance) (hle : a ≤ it.Balance)
    (hg : e.getOk = true) (hu : e.updateOk = true) :
    (∃ tx, (WalletRepository.DebitWallet s userID a p e).1 = Except.ok tx) ∧
    (WalletRepository.DebitWallet s userID a p e).2.payments = s.payments ∧
    getItem WalletItem.UserID userID (WalletRepository.DebitWallet s userID a p e).2.wallets =
      some { it with Balance := formatFixed 6 (float64 (it.Balance - a)),
                     Version := some (wrapInt64 (v + 1)), UpdatedAt := e.now } := by
  have hwv : it.toWallet.Version = v := WalletItem.toWallet_version it v hver
  have hver1 : it.Version = some it.toWallet.Version := by rw [hwv]; exact hver
  have hbal : formatFixed 6 a ≤ it.Balance := formatFixed_le_of_le 6 a it.Balance hdec hle
  rw [WalletRepository.DebitWallet_eq_debitWrite s userID a p e it hit hg hle]
  have h := WalletRepository.debitWrite_ok s it.toWallet userID a p e it hit hu hver1 hbal
  rw [hwv] at h
  exact h

theorem WalletRepository.CreditWallet_rounded (s : Store) (userID : String) (it : WalletItem)
    (v : ℤ) (a : ℚ) (p : String) (e : WalletEnv)
    (hit : getItem WalletItem.UserID userID s.wallets = some it)
    (hver : it.Version = some v) (hg : e.getOk = true) (hu : e.updateOk = true) :
    (∃ tx, (WalletRepository.CreditWallet s userID a p e).1 = Except.ok tx) ∧
    (WalletRepository.CreditWallet s userID a p e).2.payments = s.payments ∧
    getItem WalletItem.UserID userID (WalletRepository.CreditWallet s userID a p e).2.wallets =
      some { it with Balance := formatFixed 6 (float64 (it.Balance + a)),
                     Version := some (wrapInt64 (v + 1)), UpdatedAt := e.now } := by
  have hwv : it.toWallet.Version = v := WalletItem.toWallet_version it v hver
  have hver1 : it.Version = some it.toWallet.Version := by rw [hwv]; exact hver
  rw [WalletRepository.CreditWallet_eq_creditWrite s userID a p e it hit hg]
  have h := WalletRepository.creditWrite_ok s it.toWallet userID a p e it hit hu hver1
  rw [hwv] at h
  exact h

/-- C5 (amended): for an existing wallet with balance `b` of magnitude at most
`10^9` and version `v` below the largest `int`, and a positive amount `a` of at
most `10^9`, `b` and `a` with at most six decimal places, with the read and the
write of the call going through: `WalletRepository.DebitWallet` of `a ≤ b`
succeeds and stores balance `b - a` and version `v + 1`;
`WalletRepository.CreditWallet` of `a` succeeds and stores balance `b + a` and
version `v + 1`, whatever the balance is; in both cases only `Balance`,
`Version` and `UpdatedAt` of the stored item change. -/
theorem WalletRepository.uncontended_write (s : Store) (userID : String) (it : WalletItem)
    (v : ℤ) (a : ℚ) (p : String) (e : WalletEnv)
    (hit : getItem WalletItem.UserID userID s.wallets = some it)
    (hver : it.Version = some v)
    (hvlo : -9223372036854775808 ≤ v) (hvhi : v < 9223372036854775807)
    (hdecb : HasDecimals 6 it.Balance) (hdeca : HasDecimals 6 a)
    (hb : |it.Balance| ≤ 10 ^ 9) (hpos : 0 < a) (ha : a ≤ 10 ^ 9)
    (hg : e.getOk = true) (hu : e.updateOk = true) :
    (a ≤ it.Balance →
      (∃ tx, (WalletRepository.DebitWallet s userID a p e).1 = Except.ok tx) ∧
      getItem WalletItem.UserID userID (WalletRepository.DebitWallet s userID a p e).2.wallets =
        some { it with Balance := it.Balance - a, Version := some (v + 1),
                       UpdatedAt := e.now }) ∧
    ((∃ tx, (WalletRepository.CreditWallet s userID a p e).1 = Except.ok tx) ∧
      getItem WalletItem.UserID userID (WalletRepository.CreditWallet s userID a p e).2.wallets =
        some { it with Balance := it.Balance + a, Version := some (v + 1),
                       UpdatedAt := e.now }) := by
  have hwrap : wrapInt64 (v + 1) = v + 1 := wrapInt64_of_range (v + 1) (by omega) (by omega)
  obtain ⟨hb1, hb2⟩ := abs_le.mp hb
  constructor
  · intro hle
    obtain ⟨hok, _, hst⟩ :=
      WalletRepository.DebitWallet_rounded s userID it v a p e hit hver hdecb hle hg hu
    have habs : |it.Balance - a| ≤ 2 * 10 ^ 9 := by
      rw [abs_le]
      constructor <;> linarith
    rw [formatFixed_float64 _ (HasDecimals.sub hdecb hdeca) habs, hwrap] at hst
    exact ⟨hok, hst⟩
  · obtain ⟨hok, _, hst⟩ :=
      WalletRepository.CreditWallet_rounded s userID it v a p e hit hver hg hu
    have habs : |it.Balance + a| ≤ 2 * 10 ^ 9 := by
      rw [abs_le]
      constructor <;> linarith
    rw [formatFixed_float64 _ (HasDecimals.add hdecb hdeca) habs, hwrap] at hst
    exact ⟨hok, hst⟩

/-- Witness of C5 (amended): a debit and a credit of 30 on the wallet of `u1`
holding 100 at version 3. -/
theorem WalletRepository.uncontended_write_witness :
    ((30 : ℚ) ≤ (walletU1 100 3).Balance →
      (∃ tx, (WalletRepository.DebitWallet (walletStore 100 3) "u1" 30 "p1" walletEnvOk).1
        = Except.ok tx) ∧
      getItem WalletItem.UserID "u1"
          (WalletRepository.DebitWallet (walletStore 100 3) "u1" 30 "p1" walletEnvOk).2.wallets =
        some { walletU1 100 3 with Balance := (walletU1 100 3).Balance - 30,
                                   Version := some (3 + 1), UpdatedAt := walletEnvOk.now }) ∧
    ((∃ tx, (WalletRepository.CreditWallet (walletStore 100 3) "u1" 30 "p1" walletEnvOk).1
        = Except.ok tx) ∧
      getItem WalletItem.UserID "u1"
          (WalletRepository.CreditWallet (walletStore 100 3) "u1" 30 "p1" walletEnvOk).2.wallets =
        some { walletU1 100 3 with Balance := (walletU1 100 3).Balance + 30,
                                   Version := some (3 + 1), UpdatedAt := walletEnvOk.now }) :=
  WalletRepository.uncontended_write (walletStore 100 3) "u1" (walletU1 100 3) 3 30 "p1"
    walletEnvOk (by decide) rfl (by decide) (by decide) (hasDecimals_intCast 6 100)
    (hasDecimals_intCast 6 30) (by rw [abs_of_pos] <;> norm_num [walletU1]) (by norm_num)
    (by norm_num) rfl rfl

theorem formatFixed_float64_near (d x : ℚ) (hd : HasDecimals 6 d) (hx : |x| < 2 ^ 31)
    (hnear : |x - d| ≤ 1 / 2 ^ 23) : formatFixed 6 (float64 x) = d := by
  apply formatFixed_eq_of_near 6 d (float64 x) hd
  have h1 := float64_near x hx
  have h2 : |float64 x - d| ≤ |float64 x - x| + |x - d| := by
    have := abs_add (float64 x - x) (x - d)
    simpa using this
  have h3 : (1 : ℚ) / 2 ^ 23 + 1 / 2 ^ 23 < 1 / (2 * 10 ^ 6) := by norm_num
  linarith

theorem float64_above_ten_billion :
    float64 (10000000000 + 1 / 1000000) = 5242880000000001 / 524288 := by
  have h := float64_of_binade (10000000000 + 1 / 1000000) 33 (by norm_num [abs_of_pos])
    (by norm_num [abs_of_pos]) (by norm_num)
  have hfl : ⌊(10000000000 + 1 / 1000000 : ℚ) / 2 ^ (33 - 52 : ℤ)⌋ = 5242880000000000 := by
    rw [Int.floor_eq_iff]; norm_num
  rw [h]
  norm_num [roundHalfEven, hfl]

theorem formatFixed_above_ten_billion :
    formatFixed 6 (5242880000000001 / 524288) = 5000000000000001 / 500000 := by
  have hfl : ⌊(5242880000000001 / 524288 * 10 ^ 6 : ℚ)⌋ = 10000000000000001 := by
    rw [Int.floor_eq_iff]; norm_num
  norm_num [formatFixed, roundHalfEven, hfl]

/-- Counterexample to C5 as stated.  On the wallet of `u1` holding 1000 at
version 0, a debit and a credit of 2⁻²⁴ (about 0.00000006) succeed and store
balance 1000, not 1000 ∓ 2⁻²⁴.  On the wallet holding 10000000000, a credit of
0.000001 succeeds and stores 10000000000.000002, not 10000000000.000001.  On
the wallet at version 9223372036854775807, a credit of 30 succeeds and stores
version -9223372036854775808, not the version plus one. -/
theorem WalletRepository.stored_balance_is_rounded :
    ((1 / 16777216 : ℚ) ≤ 1000 ∧
      (∃ tx, (WalletRepository.DebitWallet (walletStore 1000 0) "u1" (1 / 16777216) "p1"
        walletEnvOk).1 = Except.ok tx) ∧
      (getItem WalletItem.UserID "u1" (WalletRepository.DebitWallet (walletStore 1000 0) "u1"
        (1 / 16777216) "p1" walletEnvOk).2.wallets).map WalletItem.Balance = some 1000 ∧
      (1000 : ℚ) ≠ 1000 - 1 / 16777216) ∧
    ((∃ tx, (WalletRepository.CreditWallet (walletStore 1000 0) "u1" (1 / 16777216) "p1"
        walletEnvOk).1 = Except.ok tx) ∧
      (getItem WalletItem.UserID "u1" (WalletRepository.CreditWallet (walletStore 1000 0) "u1"
        (1 / 16777216) "p1" walletEnvOk).2.wallets).map WalletItem.Balance = some 1000 ∧
      (1000 : ℚ) ≠ 1000 + 1 / 16777216) ∧
    ((∃ tx, (WalletRepository.CreditWallet (walletStore 10000000000 0) "u1" (1 / 1000000) "p1"
        walletEnvOk).1 = Except.ok tx) ∧
      (getItem WalletItem.UserID "u1" (WalletRepository.CreditWallet
        (walletStore 10000000000 0) "u1" (1 / 1000000) "p1" walletEnvOk).2.wallets).map
          WalletItem.Balance = some (10000000000 + 2 / 1000000) ∧
      (10000000000 + 2 / 1000000 : ℚ) ≠ 10000000000 + 1 / 1000000) ∧
    ((∃ tx, (WalletRepository.CreditWallet (walletStore 100 9223372036854775807) "u1" 30 "p1"
        walletEnvOk).1 = Except.ok tx) ∧
      (getItem WalletItem.UserID "u1" (WalletRepository.CreditWallet
        (walletStore 100 9223372036854775807) "u1" 30 "p1" walletEnvOk).2.wallets).map
          WalletItem.Version = some (some (-9223372036854775808)) ∧
      (-9223372036854775808 : ℤ) ≠ 9223372036854775807 + 1) := by
  have hit : getItem WalletItem.UserID "u1" (walletStore 1000 0).wallets
      = some (walletU1 1000 0) := by decide
  have hitb : getItem WalletItem.UserID "u1" (walletStore 10000000000 0).wallets
      = some (walletU1 10000000000 0) := by decide
  have hitv : getItem WalletItem.UserID "u1" (walletStore 100 9223372036854775807).wallets
      = some (walletU1 100 9223372036854775807) := by decide
  have hle : (1 / 16777216 : ℚ) ≤ (walletU1 1000 0).Balance := by
    show (1 / 16777216 : ℚ) ≤ 1000
    norm_num
  obtain ⟨hd, _, hds⟩ := WalletRepository.DebitWallet_rounded (walletStore 1000 0) "u1"
    (walletU1 1000 0) 0 (1 / 16777216) "p1" walletEnvOk hit rfl (hasDecimals_intCast 6 1000)
    hle rfl rfl
  obtain ⟨hc, _, hcs⟩ := WalletRepository.CreditWallet_rounded (walletStore 1000 0) "u1"
    (walletU1 1000 0) 0 (1 / 16777216) "p1" walletEnvOk hit rfl rfl rfl
  obtain ⟨hb, _, hbs⟩ := WalletRepository.CreditWallet_rounded (walletStore 10000000000 0)
    "u1" (walletU1 10000000000 0) 0 (1 / 1000000) "p1" walletEnvOk hitb rfl rfl rfl
  obtain ⟨hv, _, hvs⟩ := WalletRepository.CreditWallet_rounded
    (walletStore 100 9223372036854775807) "u1" (walletU1 100 9223372036854775807)
    9223372036854775807 30 "p1" walletEnvOk hitv rfl rfl rfl
  have h1000 : (walletU1 1000 0).Balance = 1000 := rfl
  have hbig : (walletU1 10000000000 0).Balance = 10000000000 := rfl
  have hlow : formatFixed 6 (float64 (1000 - 1 / 16777216)) = 1000 :=
    formatFixed_float64_near 1000 _ (hasDecimals_intCast 6 1000)
      (by rw [abs_of_pos (by norm_num)]; norm_num)
      (by rw [abs_le]; constructor <;> norm_num)
  have hhigh : formatFixed 6 (float64 (1000 + 1 / 16777216)) = 1000 :=
    formatFixed_float64_near 1000 _ (hasDecimals_intCast 6 1000)
      (by rw [abs_of_pos (by norm_num)]; norm_num)
      (by rw [abs_le]; constructor <;> norm_num)
  rw [h1000, hlow] at hds
  rw [h1000, hhigh] at hcs
  rw [hbig, float64_above_ten_billion, formatFixed_above_ten_billion] at hbs
  refine ⟨⟨by norm_num, hd, ?_, by norm_num⟩, ⟨hc, ?_, by norm_num⟩,
    ⟨hb, ?_, by norm_num⟩, hv, ?_, by norm_num⟩
  · rw [hds]; rfl
  · rw [hcs]; rfl
  · rw [hbs]
    simp only [Option.map_some', Option.some.injEq]
    norm_num
  · rw [hvs]
    simp only [Option.map_some', Option.some.injEq]
    decide

/-! ## Wallet ledger: sequences of calls -/

theorem WalletRepository.DebitWallet_failed (s : Store) (userID : String) (it : WalletItem)
    (a : ℚ) (p : String) (e : WalletEnv)
    (hit : getItem WalletItem.UserID userID s.wallets = some it)
    (hfail : ¬ (e.getOk = true ∧ e.updateOk = true ∧ a ≤ it.Balance)) :
    (WalletRepository.DebitWallet s userID a p e).1.toBool = false ∧
    (WalletRepository.DebitWallet s userID a p e).2 = s := by
  unfold WalletRepository.DebitWallet
  rw [WalletRepository.GetWallet_existing s userID e it hit]
  cases hg : e.getOk
  · simp [Except.toBool]
  · by_cases hlt : it.toWallet.Balance < a
    · simp [hlt, Except.toBool]
    · have hle : a ≤ it.Balance := not_lt.mp hlt
      have hu : e.updateOk = false := by
        cases hupd : e.updateOk
        · rfl
        · exact absurd ⟨hg, hupd, hle⟩ hfail
      simp [hlt, WalletRepository.debitWrite, hu, Except.toBool]

theorem WalletRepository.CreditWallet_failed (s : Store) (userID : String) (it : WalletItem)
    (a : ℚ) (p : String) (e : WalletEnv)
    (hit : getItem WalletItem.UserID userID s.wallets = some it)
    (hfail : ¬ (e.getOk = true ∧ e.updateOk = true)) :
    (WalletRepository.CreditWallet s userID a p e).1.toBool = false ∧
    (WalletRepository.CreditWallet s userID a p e).2 = s := by
  unfold WalletRepository.CreditWallet
  rw [WalletRepository.GetWallet_existing s userID e it hit]
  cases hg : e.getOk
  · simp [Except.toBool]
  · have hu : e.updateOk = false := by
      cases hupd : e.updateOk
      · rfl
      · exact absurd ⟨hg, hupd⟩ hfail
    simp [WalletRepository.creditWrite, hu, Except.toBool]

theorem Except.toBool_of_ok {ε α : Type} (r : Except ε α) (h : ∃ a, r = Except.ok a) :
    r.toBool = true := by
  obtain ⟨a, ha⟩ := h
  rw [ha]
  rfl

theorem amount_ge_resolution (a : ℚ) (hpos : 0 < a) (hdec : HasDecimals 6 a) :
    1 ≤ a * 10 ^ 6 := by
  obtain ⟨n, hn⟩ := hdec
  have h0 : (0 : ℚ) < n := by rw [← hn]; positivity
  have h1 : 0 < n := by exact_mod_cast h0
  have h2 : (1 : ℤ) ≤ n := by omega
  rw [hn]
  exact_mod_cast h2

theorem creditTotal_nonneg (calls : List LedgerCall) (h : ∀ c ∈ calls, 0 < c.amount) :
    0 ≤ creditTotal calls := by
  induction calls with
  | nil => exact le_refl _
  | cons c cs ih =>
    have hrest := ih (fun d hd => h d (List.mem_cons_of_mem c hd))
    have hc := h c (List.mem_cons_self c cs)
    cases c with
    | debit a p e => exact hrest
    | credit a p e =>
      simp only [LedgerCall.amount] at hc
      simp only [creditTotal]
      linarith

theorem LedgerCall.run_preserves (userID : String) (b0 : ℚ) (s : Store) (t : Tally)
    (c : LedgerCall) (hinv : LedgerInv userID b0 s t)
    (hpos : 0 < c.amount) (hdec : HasDecimals 6 c.amount)
    (hcap : b0 + t.credited + creditTotal [c] ≤ 10 ^ 9) :
    LedgerInv userID b0 (c.run userID s).2 (t.record c (c.run userID s).1.toBool) ∧
    (t.record c (c.run userID s).1.toBool).credited ≤ t.credited + creditTotal [c] := by
  obtain ⟨it, hit, hver, hbal, hnn, hdb, hb0, hdeb, hcount⟩ := hinv
  have hres := amount_ge_resolution c.amount hpos hdec
  have hct : 0 ≤ creditTotal [c] := creditTotal_nonneg [c] (fun d hd => by
    rw [List.mem_singleton] at hd; rw [hd]; exact hpos)
  have hcredited : t.credited ≤ 10 ^ 9 := by linarith
  have hrange : (t.succeeded : ℤ) < 9223372036854775807 := by
    have h1 : (t.succeeded : ℚ) < 9223372036854775807 := by
      have hd : t.debited ≤ 10 ^ 9 := by linarith
      have : (t.credited + t.debited) * 10 ^ 6 ≤ (10 ^ 9 + 10 ^ 9) * 10 ^ 6 :=
        mul_le_mul_of_nonneg_right (by linarith) (by norm_num)
      have h2 : ((10 : ℚ) ^ 9 + 10 ^ 9) * 10 ^ 6 < 9223372036854775807 := by norm_num
      linarith
    exact_mod_cast h1
  have hwrap : wrapInt64 ((t.succeeded : ℤ) + 1) = (t.succeeded : ℤ) + 1 :=
    wrapInt64_of_range _ (by omega) (by omega)
  cases c with
  | debit a p e =>
    simp only [LedgerCall.amount] at hpos hdec hres
    simp only [creditTotal, add_zero] at hcap
    simp only [LedgerCall.run, creditTotal, add_zero]
    by_cases hcond : e.getOk = true ∧ e.updateOk = true ∧ a ≤ it.Balance
    · obtain ⟨hg, hu, hle⟩ := hcond
      obtain ⟨hok, _, hst⟩ := WalletRepository.DebitWallet_rounded s userID it
        (t.succeeded : ℤ) a p e hit hver hdb hle hg hu
      have habs : |it.Balance - a| ≤ 2 * 10 ^ 9 := by
        rw [abs_of_nonneg (by linarith)]
        linarith
      rw [formatFixed_float64 _ (HasDecimals.sub hdb hdec) habs, hwrap] at hst
      rw [Except.toBool_of_ok _ hok]
      refine ⟨⟨_, hst, ?_, ?_, ?_, ?_, hb0, ?_, ?_⟩, ?_⟩
      · simp [Tally.record]
      · simp only [Tally.record, if_true]
        rw [hbal]; ring
      · show 0 ≤ it.Balance - a
        linarith
      · exact HasDecimals.sub hdb hdec
      · simp only [Tally.record, if_true]
        linarith
      · simp only [Tally.record, if_true]
        push_cast
        linarith
      · simp [Tally.record]
    · obtain ⟨hb, hs⟩ := WalletRepository.DebitWallet_failed s userID it a p e hit hcond
      rw [hb, hs]
      exact ⟨⟨it, hit, hver, hbal, hnn, hdb, hb0, hdeb, hcount⟩, by simp [Tally.record]⟩
  | credit a p e =>
    simp only [LedgerCall.amount] at hpos hdec hres
    simp only [creditTotal, add_zero] at hcap
    simp only [LedgerCall.run, creditTotal, add_zero]
    by_cases hcond : e.getOk = true ∧ e.updateOk = true
    · obtain ⟨hg, hu⟩ := hcond
      obtain ⟨hok, _, hst⟩ := WalletRepository.CreditWallet_rounded s userID it
        (t.succeeded : ℤ) a p e hit hver hg hu
      have habs : |it.Balance + a| ≤ 2 * 10 ^ 9 := by
        rw [abs_of_nonneg (by linarith)]
        linarith
      rw [formatFixed_float64 _ (HasDecimals.add hdb hdec) habs, hwrap] at hst
      rw [Except.toBool_of_ok _ hok]
      refine ⟨⟨_, hst, ?_, ?_, ?_, ?_, hb0, ?_, ?_⟩, ?_⟩
      · simp [Tally.record]
      · simp only [Tally.record, if_true]
        rw [hbal]; ring
      · show 0 ≤ it.Balance + a
        linarith
      · exact HasDecimals.add hdb hdec
      · simp only [Tally.record, if_true]
        exact hdeb
      · simp only [Tally.record, if_true]
        push_cast
        linarith
      · simp [Tally.record]
    · obtain ⟨hb, hs⟩ := WalletRepository.CreditWallet_failed s userID it a p e hit hcond
      rw [hb, hs]
      refine ⟨⟨it, hit, hver, hbal, hnn, hdb, hb0, hdeb, hcount⟩, ?_⟩
      simp only [Tally.record, Bool.false_eq_true, if_false]
      linarith

theorem creditTotal_cons (c : LedgerCall) (cs : List LedgerCall) :
    creditTotal (c :: cs) = creditTotal [c] + creditTotal cs := by
  cases c <;> simp [creditTotal]

theorem runLedger_preserves (userID : String) (b0 : ℚ) (calls : List LedgerCall) :
    ∀ (s : Store) (t : Tally), LedgerInv userID b0 s t →
      (∀ c ∈ calls, 0 < c.amount ∧ HasDecimals 6 c.amount) →
      b0 + t.credited + creditTotal calls ≤ 10 ^ 9 →
      LedgerInv userID b0 (runLedger userID s t calls).1 (runLedger userID s t calls).2 := by
  induction calls with
  | nil => intro s t hinv _ _; exact hinv
  | cons c cs ih =>
    intro s t hinv hall hcap
    have hc := hall c (List.mem_cons_self c cs)
    have hrest : ∀ d ∈ cs, 0 < d.amount ∧ HasDecimals 6 d.amount :=
      fun d hd => hall d (List.mem_cons_of_mem c hd)
    have hnn := creditTotal_nonneg cs (fun d hd => (hrest d hd).1)
    rw [creditTotal_cons] at hcap
    obtain ⟨hstep, hcred⟩ := LedgerCall.run_preserves userID b0 s t c hinv hc.1 hc.2
      (by linarith)
    exact ih _ _ hstep hrest (by linarith)

/-- C2 (amended): for a wallet as it is at its creation (version 0, a balance
that is not negative) and every sequence of `WalletRepository.DebitWallet` and
`WalletRepository.CreditWallet` calls on it with positive amounts, balance and
amounts of at most six decimal places, the initial balance plus the amounts of
all the credit calls at most `10^9`, run one after another under any outcome
of the SDK calls: at the end of the sequence, hence after each step, the stored
version is the number of calls that succeeded, the stored balance is the
initial balance plus the credited minus the debited amounts of the calls that
succeeded, and the stored balance is not negative. -/
theorem runLedger_version_and_balance (userID : String) (s : Store) (it : WalletItem)
    (calls : List LedgerCall)
    (hit : getItem WalletItem.UserID userID s.wallets = some it)
    (hver : it.Version = some 0) (hnn : 0 ≤ it.Balance) (hdec : HasDecimals 6 it.Balance)
    (hcalls : ∀ c ∈ calls, 0 < c.amount ∧ HasDecimals 6 c.amount)
    (hcap : it.Balance + creditTotal calls ≤ 10 ^ 9) :
    ∃ it1, getItem WalletItem.UserID userID
        (runLedger userID s { succeeded := 0, credited := 0, debited := 0 } calls).1.wallets
        = some it1 ∧
      it1.Version = some
        ((runLedger userID s { succeeded := 0, credited := 0, debited := 0 } calls).2.succeeded
          : ℤ) ∧
      it1.Balance = it.Balance
        + (runLedger userID s { succeeded := 0, credited := 0, debited := 0 } calls).2.credited
        - (runLedger userID s { succeeded := 0, credited := 0, debited := 0 } calls).2.debited ∧
      0 ≤ it1.Balance := by
  have h0 : LedgerInv userID it.Balance s { succeeded := 0, credited := 0, debited := 0 } :=
    ⟨it, hit, by simpa using hver, by simp, hnn, hdec, hnn, le_refl _, by simp⟩
  obtain ⟨it1, h1, h2, h3, h4, _⟩ := runLedger_preserves userID it.Balance calls s _ h0 hcalls
    (by simpa using hcap)
  exact ⟨it1, h1, h2, h3, h4⟩

theorem sampleCalls_valid : ∀ c ∈ sampleCalls, 0 < c.amount ∧ HasDecimals 6 c.amount := by
  intro c hc
  simp only [sampleCalls, List.mem_cons, List.mem_singleton, List.not_mem_nil, or_false] at hc
  rcases hc with h | h | h | h
  · subst h; exact ⟨by simp [LedgerCall.amount], hasDecimals_intCast 6 30⟩
  · subst h; exact ⟨by simp [LedgerCall.amount], hasDecimals_intCast 6 5⟩
  · subst h; exact ⟨by simp [LedgerCall.amount], hasDecimals_intCast 6 2000⟩
  · subst h; exact ⟨by simp [LedgerCall.amount], hasDecimals_intCast 6 7⟩

/-- Witness of C2 (amended): four calls on the wallet that `GetWallet` has just
created for `u1`. -/
theorem runLedger_version_and_balance_witness :
    getItem WalletItem.UserID "u1" freshWalletStore.wallets = some freshWallet ∧
    freshWallet.Balance + creditTotal sampleCalls ≤ 10 ^ 9 ∧
    ∃ it1, getItem WalletItem.UserID "u1"
        (runLedger "u1" freshWalletStore { succeeded := 0, credited := 0, debited := 0 }
          sampleCalls).1.wallets = some it1 ∧
      it1.Version = some
        ((runLedger "u1" freshWalletStore { succeeded := 0, credited := 0, debited := 0 }
          sampleCalls).2.succeeded : ℤ) ∧
      it1.Balance = freshWallet.Balance
        + (runLedger "u1" freshWalletStore { succeeded := 0, credited := 0, debited := 0 }
          sampleCalls).2.credited
        - (runLedger "u1" freshWalletStore { succeeded := 0, credited := 0, debited := 0 }
          sampleCalls).2.debited ∧
      0 ≤ it1.Balance :=
  have hcap : freshWallet.Balance + creditTotal sampleCalls ≤ 10 ^ 9 := by
    norm_num [freshWallet, sampleCalls, creditTotal]
  ⟨by decide, hcap,
    runLedger_version_and_balance "u1" freshWalletStore freshWallet sampleCalls (by decide) rfl
      (by decide) (hasDecimals_intCast 6 1000) sampleCalls_valid hcap⟩

theorem float64_two_pow_53 : float64 9007199254740992 = 9007199254740992 := by
  have h := float64_of_binade 9007199254740992 53 (by norm_num) (by norm_num) (by norm_num)
  have hq : (9007199254740992 : ℚ) / 2 ^ (53 - 52 : ℤ) = ((4503599627370496 : ℤ) : ℚ) := by
    norm_num
  rw [h, hq, roundHalfEven_intCast]
  norm_num

/-- Counterexample to C2 as stated, on the wallet that `GetWallet` has just
created for `u1` (balance 1000, version 0).  One credit of 2⁻²⁴ succeeds, and
the stored balance is 1000, not the initial balance plus the credited amount.
The two credits `largeCredits` of 9007199254739992 and of 1 succeed, and the
stored balance is 9007199254740992, one less than the initial balance plus the
credited amounts. -/
theorem runLedger_balance_is_rounded :
    ((runLedger "u1" freshWalletStore noCalls
        [LedgerCall.credit (1 / 16777216) "p1" walletEnvOk]).2.succeeded = 1 ∧
      (runLedger "u1" freshWalletStore noCalls
        [LedgerCall.credit (1 / 16777216) "p1" walletEnvOk]).2.credited = 1 / 16777216 ∧
      (runLedger "u1" freshWalletStore noCalls
        [LedgerCall.credit (1 / 16777216) "p1" walletEnvOk]).2.debited = 0 ∧
      (getItem WalletItem.UserID "u1" (runLedger "u1" freshWalletStore noCalls
        [LedgerCall.credit (1 / 16777216) "p1" walletEnvOk]).1.wallets).map WalletItem.Balance
        = some 1000 ∧
      (1000 : ℚ) ≠ 1000 + 1 / 16777216 - 0) ∧
    ((runLedger "u1" freshWalletStore noCalls largeCredits).2.succeeded = 2 ∧
      (runLedger "u1" freshWalletStore noCalls largeCredits).2.credited
        = 9007199254739993 ∧
      (runLedger "u1" freshWalletStore noCalls largeCredits).2.debited = 0 ∧
      (getItem WalletItem.UserID "u1"
        (runLedger "u1" freshWalletStore noCalls largeCredits).1.wallets).map
          WalletItem.Balance = some 9007199254740992 ∧
      (9007199254740992 : ℚ) ≠ 1000 + 9007199254739993 - 0) := by
  have hit : getItem WalletItem.UserID "u1" freshWalletStore.wallets = some freshWallet := by
    decide
  have hb : freshWallet.Balance = 1000 := rfl
  constructor
  · obtain ⟨hc, _, hcs⟩ := WalletRepository.CreditWallet_rounded freshWalletStore "u1"
      freshWallet 0 (1 / 16777216) "p1" walletEnvOk hit rfl rfl rfl
    have hhigh : formatFixed 6 (float64 (1000 + 1 / 16777216)) = 1000 :=
      formatFixed_float64_near 1000 _ (hasDecimals_intCast 6 1000)
        (by rw [abs_of_pos (by norm_num)]; norm_num)
        (by rw [abs_le]; constructor <;> norm_num)
    rw [hb, hhigh] at hcs
    have hok := Except.toBool_of_ok _ hc
    simp only [runLedger, LedgerCall.run, hok, Tally.record, if_true, noCalls]
    refine ⟨by norm_num, by norm_num, trivial, ?_, by norm_num⟩
    rw [hcs]; rfl
  · obtain ⟨hc1, _, hs1⟩ := WalletRepository.CreditWallet_rounded freshWalletStore "u1"
      freshWallet 0 9007199254739992 "p1" walletEnvOk hit rfl rfl rfl
    have hsum : (1000 : ℚ) + 9007199254739992 = 9007199254740992 := by norm_num
    have hff : formatFixed 6 (9007199254740992 : ℚ) = 9007199254740992 :=
      formatFixed_of_hasDecimals 6 _ (hasDecimals_intCast 6 9007199254740992)
    rw [hb, hsum, float64_two_pow_53, hff] at hs1
    obtain ⟨hc2, _, hs2⟩ := WalletRepository.CreditWallet_rounded _ "u1" _
      (wrapInt64 (0 + 1)) 1 "p2" walletEnvOk hs1 rfl rfl rfl
    have hsum2 : (9007199254740992 : ℚ) + 1 = 9007199254740993 := by norm_num
    simp only [] at hs2
    rw [hsum2, float64_above_two_pow_53, hff] at hs2
    have hok1 := Except.toBool_of_ok _ hc1
    have hok2 := Except.toBool_of_ok _ hc2
    simp only [largeCredits, runLedger, LedgerCall.run, hok1, hok2, Tally.record, if_true,
      noCalls]
    refine ⟨by norm_num, by norm_num, trivial, ?_, by norm_num⟩
    rw [hs2]; rfl

/-! ## Refund saga: the wallet credit -/

theorem RefundRepository.CreditWallet_ok (s : Store) (userID : String) (amount : ℚ) :
    RefundRepository.CreditWallet s userID amount true =
      (none, { s with wallets := (putItem WalletItem.UserID
        (addBalance userID (formatFixed 2 amount) (getItem WalletItem.UserID userID s.wallets))
        s.wallets) }) := by
  simp [RefundRepository.CreditWallet, updateItem]

theorem RefundRepository.CreditWallet_sdk_error (s : Store) (userID : String) (amount : ℚ) :
    RefundRepository.CreditWallet s userID amount false =
      (some (Err.wrapf "failed to credit wallet: %w" Err.sdk), s) := by
  simp [RefundRepository.CreditWallet]

theorem addBalance_key (userID : String) (amount : ℚ) (cur : Option WalletItem)
    (h : ∀ it, cur = some it → it.UserID = userID) :
    (addBalance userID amount cur).UserID = userID := by
  cases cur with
  | none => rfl
  | some it => exact h it rfl

theorem RefundRepository.CreditWallet_stored (s : Store) (userID : String) (amount : ℚ) :
    getItem WalletItem.UserID userID
        (RefundRepository.CreditWallet s userID amount true).2.wallets =
      some (addBalance userID (formatFixed 2 amount)
        (getItem WalletItem.UserID userID s.wallets)) := by
  rw [RefundRepository.CreditWallet_ok]
  have hkey := addBalance_key userID (formatFixed 2 amount)
    (getItem WalletItem.UserID userID s.wallets)
    (fun it h => getItem_key WalletItem.UserID userID s.wallets it h)
  have := getItem_putItem_self WalletItem.UserID
    (addBalance userID (formatFixed 2 amount) (getItem WalletItem.UserID userID s.wallets))
    s.wallets
  rw [hkey] at this
  exact this

/-- C6, the code at the failing input: on the wallet of `u1` holding 100 at
version 3, `RefundRepository.CreditWallet` of 50 succeeds and stores balance
150 with the version still 3.  A `WalletRepository.DebitWallet` of 30 that had
read the wallet before that credit (balance 100, version 3) then passes its
version guard and stores balance 70 at version 4: the credited 50 is gone. -/
theorem RefundRepository.CreditWallet_keeps_version :
    (RefundRepository.CreditWallet (walletStore 100 3) "u1" 50 true).1 = none ∧
    getItem WalletItem.UserID "u1"
        (RefundRepository.CreditWallet (walletStore 100 3) "u1" 50 true).2.wallets =
      some { walletU1 100 3 with Balance := 150 } ∧
    WalletRepository.GetWallet (walletStore 100 3) "u1" walletEnvOk =
      (Except.ok (walletU1 100 3).toWallet, walletStore 100 3) ∧
    (∃ tx, (WalletRepository.debitWrite
        (RefundRepository.CreditWallet (walletStore 100 3) "u1" 50 true).2
        (walletU1 100 3).toWallet "u1" 30 "p1" walletEnvOk).1 = Except.ok tx) ∧
    getItem WalletItem.UserID "u1"
        (WalletRepository.debitWrite
          (RefundRepository.CreditWallet (walletStore 100 3) "u1" 50 true).2
          (walletU1 100 3).toWallet "u1" 30 "p1" walletEnvOk).2.wallets =
      some { walletU1 100 3 with Balance := 70, Version := some 4, UpdatedAt := 2 } := by
  have h50 : formatFixed 2 50 = 50 :=
    formatFixed_of_hasDecimals 2 50 (hasDecimals_intCast 2 50)
  have h30 : formatFixed 6 30 = 30 :=
    formatFixed_of_hasDecimals 6 30 (hasDecimals_intCast 6 30)
  have h70 : formatFixed 6 (float64 70) = 70 :=
    formatFixed_float64 70 (hasDecimals_intCast 6 70) (by rw [abs_of_pos] <;> norm_num)
  have hit : getItem WalletItem.UserID "u1" (walletStore 100 3).wallets
      = some (walletU1 100 3) := by decide
  have hst := RefundRepository.CreditWallet_stored (walletStore 100 3) "u1" 50
  rw [hit, h50] at hst
  have hst1 : getItem WalletItem.UserID "u1"
      (RefundRepository.CreditWallet (walletStore 100 3) "u1" 50 true).2.wallets =
      some { walletU1 100 3 with Balance := 150 } := by
    rw [hst]
    simp only [addBalance, walletU1]
    norm_num
  have hw := WalletRepository.debitWrite_ok
    (RefundRepository.CreditWallet (walletStore 100 3) "u1" 50 true).2
    (walletU1 100 3).toWallet "u1" 30 "p1" walletEnvOk _ hst1 rfl rfl
    (by rw [h30]; norm_num)
  obtain ⟨hok, _, hfin⟩ := hw
  have hget : WalletRepository.GetWallet (walletStore 100 3) "u1" walletEnvOk =
      (Except.ok (walletU1 100 3).toWallet, walletStore 100 3) := by
    rw [WalletRepository.GetWallet_existing _ _ _ _ hit]
    rfl
  refine ⟨by rw [RefundRepository.CreditWallet_ok], hst1, hget, hok, ?_⟩
  rw [hfin]
  have hsub : (walletU1 100 3).toWallet.Balance - 30 = 70 := by
    show (100 : ℚ) - 30 = 70
    norm_num
  rw [hsub, h70]
  have hv : wrapInt64 ((walletU1 100 3).toWallet.Version + 1) = 4 := by decide
  rw [hv]
  rfl

/-! ## Refund saga: the checks before the credit -/

theorem RefundService.ProcessRefund_read_failed (s : Store) (req : RefundRequest)
    (env : RefundEnv) (hv : RefundService.validateRefundRequest req = none)
    (hg : env.getOk = false) :
    RefundService.ProcessRefund s req env =
      (Except.error (Err.wrapf "payment not found: %w"
        (Err.wrapf "failed to get payment: %w" Err.sdk)), s) := by
  simp [RefundService.ProcessRefund, hv, RefundRepository.GetPayment, hg]

theorem RefundService.ProcessRefund_of_payment (s : Store) (req : RefundRequest)
    (env : RefundEnv) (payment : Payment)
    (hv : RefundService.validateRefundRequest req = none)
    (hp : getItem Payment.ID req.PaymentID s.payments = some payment)
    (hg : env.getOk = true) :
    RefundService.ProcessRefund s req env =
      if payment.Status = PaymentStatusRefunded then
        (Except.error (Err.errorf "payment already refunded" []), s)
      else if payment.Status ≠ PaymentStatusCompleted then
        (Except.error (Err.errorf "only completed payments can be refunded" []), s)
      else if req.Amount > payment.Amount then
        (Except.error (Err.errorf "refund amount exceeds payment amount" []), s)
      else RefundService.creditAndMark s payment req env := by
  simp [RefundService.ProcessRefund, hv, RefundRepository.GetPayment, hg, hp]

/-- C8: for a stored payment whose status is not Completed and a request that
passes validation, `RefundService.ProcessRefund` returns an error and leaves
every table as it was (no wallet credit, no payment write, no event), whatever
the SDK calls do; when the payment read goes through the error is "payment
already refunded" for status Refunded and "only completed payments can be
refunded" for every other status. -/
theorem RefundService.ProcessRefund_not_completed (s : Store) (req : RefundRequest)
    (env : RefundEnv) (payment : Payment)
    (hv : RefundService.validateRefundRequest req = none)
    (hp : getItem Payment.ID req.PaymentID s.payments = some payment)
    (hst : payment.Status ≠ PaymentStatusCompleted) :
    (∃ err, (RefundService.ProcessRefund s req env).1 = Except.error err) ∧
    (RefundService.ProcessRefund s req env).2 = s ∧
    (env.getOk = true → payment.Status = PaymentStatusRefunded →
      (RefundService.ProcessRefund s req env).1 =
        Except.error (Err.errorf "payment already refunded" [])) ∧
    (env.getOk = true → payment.Status ≠ PaymentStatusRefunded →
      (RefundService.ProcessRefund s req env).1 =
        Except.error (Err.errorf "only completed payments can be refunded" [])) := by
  cases hg : env.getOk
  · rw [RefundService.ProcessRefund_read_failed s req env hv hg]
    exact ⟨⟨_, rfl⟩, rfl, by simp, by simp⟩
  · rw [RefundService.ProcessRefund_of_payment s req env payment hv hp hg]
    by_cases hr : payment.Status = PaymentStatusRefunded
    · simp [hr]
    · simp [hr, hst]

/-- C9: for a stored Completed payment of amount `A` and a request of amount `r`
that passes validation: when `r > A`, `RefundService.ProcessRefund` returns an
error and leaves every table as it was, and when the payment read goes through
the error is "refund amount exceeds payment amount"; when `r ≤ A` the call never
returns that error. -/
theorem RefundService.ProcessRefund_amount_check (s : Store) (req : RefundRequest)
    (env : RefundEnv) (payment : Payment)
    (hv : RefundService.validateRefundRequest req = none)
    (hp : getItem Payment.ID req.PaymentID s.payments = some payment)
    (hst : payment.Status = PaymentStatusCompleted) :
    (req.Amount > payment.Amount →
      (∃ err, (RefundService.ProcessRefund s req env).1 = Except.error err) ∧
      (RefundService.ProcessRefund s req env).2 = s ∧
      (env.getOk = true → (RefundService.ProcessRefund s req env).1 =
        Except.error (Err.errorf "refund amount exceeds payment amount" []))) ∧
    (req.Amount ≤ payment.Amount →
      (RefundService.ProcessRefund s req env).1 ≠
        Except.error (Err.errorf "refund amount exceeds payment amount" [])) := by
  have hcr : ¬ PaymentStatusCompleted = PaymentStatusRefunded := by decide
  have hnr : ¬ payment.Status = PaymentStatusRefunded := by rw [hst]; exact hcr
  constructor
  · intro hgt
    cases hg : env.getOk
    · rw [RefundService.ProcessRefund_read_failed s req env hv hg]
      exact ⟨⟨_, rfl⟩, rfl, by simp⟩
    · rw [RefundService.ProcessRefund_of_payment s req env payment hv hp hg]
      simp [hcr, hst, hgt]
  · intro hle
    have hngt : ¬ req.Amount > payment.Amount := not_lt.mpr hle
    cases hg : env.getOk
    · rw [RefundService.ProcessRefund_read_failed s req env hv hg]
      simp
    · rw [RefundService.ProcessRefund_of_payment s req env payment hv hp hg]
      rw [if_neg hnr, if_neg (not_not.mpr hst), if_neg hngt]
      unfold RefundService.creditAndMark
      cases hc : env.creditOk
      · rw [RefundRepository.CreditWallet_sdk_error]
        simp
      · rw [RefundRepository.CreditWallet_ok]
        simp

/-- Witness of C8: a refund request of 50 on the Pending payment `pay1` of 100. -/
theorem RefundService.ProcessRefund_not_completed_witness :
    (∃ err, (RefundService.ProcessRefund (paymentStore PaymentStatusPending 100)
      (refundRequest 50) refundEnvOk).1 = Except.error err) ∧
    (RefundService.ProcessRefund (paymentStore PaymentStatusPending 100)
      (refundRequest 50) refundEnvOk).2 = paymentStore PaymentStatusPending 100 ∧
    (refundEnvOk.getOk = true →
      (storedPayment PaymentStatusPending 100).Status = PaymentStatusRefunded →
      (RefundService.ProcessRefund (paymentStore PaymentStatusPending 100)
        (refundRequest 50) refundEnvOk).1 =
        Except.error (Err.errorf "payment already refunded" [])) ∧
    (refundEnvOk.getOk = true →
      (storedPayment PaymentStatusPending 100).Status ≠ PaymentStatusRefunded →
      (RefundService.ProcessRefund (paymentStore PaymentStatusPending 100)
        (refundRequest 50) refundEnvOk).1 =
        Except.error (Err.errorf "only completed payments can be refunded" [])) :=
  RefundService.ProcessRefund_not_completed (paymentStore PaymentStatusPending 100)
    (refundRequest 50) refundEnvOk (storedPayment PaymentStatusPending 100)
    (by decide) (by decide) (by decide)

/-- Witness of C9: a refund request of 150 on the Completed payment `pay1` of 100. -/
theorem RefundService.ProcessRefund_amount_check_witness :
    ((refundRequest 150).Amount > (storedPayment PaymentStatusCompleted 100).Amount →
      (∃ err, (RefundService.ProcessRefund (paymentStore PaymentStatusCompleted 100)
        (refundRequest 150) refundEnvOk).1 = Except.error err) ∧
      (RefundService.ProcessRefund (paymentStore PaymentStatusCompleted 100)
        (refundRequest 150) refundEnvOk).2 = paymentStore PaymentStatusCompleted 100 ∧
      (refundEnvOk.getOk = true →
        (RefundService.ProcessRefund (paymentStore PaymentStatusCompleted 100)
          (refundRequest 150) refundEnvOk).1 =
          Except.error (Err.errorf "refund amount exceeds payment amount" []))) ∧
    ((refundRequest 150).Amount ≤ (storedPayment PaymentStatusCompleted 100).Amount →
      (RefundService.ProcessRefund (paymentStore PaymentStatusCompleted 100)
        (refundRequest 150) refundEnvOk).1 ≠
        Except.error (Err.errorf "refund amount exceeds payment amount" [])) :=
  RefundService.ProcessRefund_amount_check (paymentStore PaymentStatusCompleted 100)
    (refundRequest 150) refundEnvOk (storedPayment PaymentStatusCompleted 100)
    (by decide) (by decide) rfl

/-! ## Refund saga: credit, status write, event -/

theorem RefundService.creditAndMark_credit_failed (s : Store) (payment : Payment)
    (req : RefundRequest) (env : RefundEnv) (hc : env.creditOk = false) :
    RefundService.creditAndMark s payment req env =
      (Except.error (Err.wrapf "failed to process refund: %w"
        (Err.wrapf "failed to credit wallet: %w" Err.sdk)), s) := by
  unfold RefundService.creditAndMark
  rw [hc, RefundRepository.CreditWallet_sdk_error]

/-- C10: when the wallet credit fails, `RefundService.ProcessRefund` returns an
error and leaves every table as it was, for every store, request and outcome of
the other SDK calls: no payment is written and no event is appended, so a call
that changes a payment is a call whose credit succeeded.  For a stored Completed
payment and a request that passes the checks, the payment read going through,
the error is "failed to process refund" wrapping the credit error and the stored
payment is still the Completed one. -/
theorem RefundService.ProcessRefund_credit_failed (s : Store) (req : RefundRequest)
    (env : RefundEnv) (hc : env.creditOk = false) :
    (∃ err, (RefundService.ProcessRefund s req env).1 = Except.error err) ∧
    (RefundService.ProcessRefund s req env).2 = s ∧
    (∀ payment : Payment, RefundService.validateRefundRequest req = none →
      getItem Payment.ID req.PaymentID s.payments = some payment →
      payment.Status = PaymentStatusCompleted → req.Amount ≤ payment.Amount →
      env.getOk = true →
      (RefundService.ProcessRefund s req env).1 =
        Except.error (Err.wrapf "failed to process refund: %w"
          (Err.wrapf "failed to credit wallet: %w" Err.sdk)) ∧
      getItem Payment.ID req.PaymentID (RefundService.ProcessRefund s req env).2.payments
        = some payment ∧
      (RefundService.ProcessRefund s req env).2.events = s.events) := by
  have hgen : (∃ err, (RefundService.ProcessRefund s req env).1 = Except.error err) ∧
      (RefundService.ProcessRefund s req env).2 = s := by
    unfold RefundService.ProcessRefund
    cases hv : RefundService.validateRefundRequest req with
    | some err => exact ⟨⟨_, rfl⟩, rfl⟩
    | none =>
      cases hget : RefundRepository.GetPayment s req.PaymentID env.getOk with
      | error err => exact ⟨⟨_, rfl⟩, rfl⟩
      | ok payment =>
        simp only
        split_ifs
        · exact ⟨⟨_, rfl⟩, rfl⟩
        · exact ⟨⟨_, rfl⟩, rfl⟩
        · exact ⟨⟨_, rfl⟩, rfl⟩
        · rw [RefundService.creditAndMark_credit_failed s payment req env hc]
          exact ⟨⟨_, rfl⟩, rfl⟩
  refine ⟨hgen.1, hgen.2, ?_⟩
  intro payment hv hp hst hle hg
  have hcr : ¬ PaymentStatusCompleted = PaymentStatusRefunded := by decide
  have hnr : ¬ payment.Status = PaymentStatusRefunded := by rw [hst]; exact hcr
  have hngt : ¬ req.Amount > payment.Amount := not_lt.mpr hle
  refine ⟨?_, by rw [hgen.2]; exact hp, by rw [hgen.2]⟩
  rw [RefundService.ProcessRefund_of_payment s req env payment hv hp hg,
    if_neg hnr, if_neg (not_not.mpr hst), if_neg hngt,
    RefundService.creditAndMark_credit_failed s payment req env hc]

/-- Witness of C10: a refund of 40 on the Completed payment `pay1` of 100 when
the wallet credit fails. -/
theorem RefundService.ProcessRefund_credit_failed_witness :
    (∃ err, (RefundService.ProcessRefund (paymentStore PaymentStatusCompleted 100)
      (refundRequest 40) refundEnvCreditFails).1 = Except.error err) ∧
    (RefundService.ProcessRefund (paymentStore PaymentStatusCompleted 100)
      (refundRequest 40) refundEnvCreditFails).2 = paymentStore PaymentStatusCompleted 100 ∧
    (∀ payment : Payment, RefundService.validateRefundRequest (refundRequest 40) = none →
      getItem Payment.ID (refundRequest 40).PaymentID
        (paymentStore PaymentStatusCompleted 100).payments = some payment →
      payment.Status = PaymentStatusCompleted → (refundRequest 40).Amount ≤ payment.Amount →
      refundEnvCreditFails.getOk = true →
      (RefundService.ProcessRefund (paymentStore PaymentStatusCompleted 100)
        (refundRequest 40) refundEnvCreditFails).1 =
        Except.error (Err.wrapf "failed to process refund: %w"
          (Err.wrapf "failed to credit wallet: %w" Err.sdk)) ∧
      getItem Payment.ID (refundRequest 40).PaymentID
        (RefundService.ProcessRefund (paymentStore PaymentStatusCompleted 100)
          (refundRequest 40) refundEnvCreditFails).2.payments = some payment ∧
      (RefundService.ProcessRefund (paymentStore PaymentStatusCompleted 100)
        (refundRequest 40) refundEnvCreditFails).2.events
        = (paymentStore PaymentStatusCompleted 100).events) :=
  RefundService.ProcessRefund_credit_failed (paymentStore PaymentStatusCompleted 100)
    (refundRequest 40) refundEnvCreditFails rfl

theorem RefundService.creditAndMark_ok (s : Store) (payment : Payment)
    (req : RefundRequest) (env : RefundEnv) (hc : env.creditOk = true)
    (hu : env.updateOk = true) :
    (RefundService.creditAndMark s payment req env).1 =
      Except.ok { PaymentID := payment.ID, Amount := req.Amount, Status := "refunded",
                  Reason := req.Reason, RefundID := env.refundID } ∧
    (RefundService.creditAndMark s payment req env).2.wallets =
      (RefundRepository.CreditWallet s payment.UserID req.Amount true).2.wallets ∧
    (RefundService.creditAndMark s payment req env).2.payments =
      putItem Payment.ID { payment with Status := PaymentStatusRefunded, UpdatedAt := env.now }
        s.payments := by
  unfold RefundService.creditAndMark
  rw [hc, RefundRepository.CreditWallet_ok]
  cases he : env.eventOk <;>
    simp [RefundRepository.UpdatePayment, hu, RefundRepository.LogPaymentEvent, he]

theorem RefundRepository.GetWalletBalance_after_credit (s : Store) (userID : String)
    (amount b : ℚ) (hb : RefundRepository.GetWalletBalance s userID true = Except.ok b) :
    RefundRepository.GetWalletBalance
        (RefundRepository.CreditWallet s userID amount true).2 userID true
      = Except.ok (b + formatFixed 2 amount) := by
  have hst := RefundRepository.CreditWallet_stored s userID amount
  unfold RefundRepository.GetWalletBalance at hb ⊢
  simp only [if_true] at hb ⊢
  rw [hst]
  cases hcur : getItem WalletItem.UserID userID s.wallets with
  | none =>
    rw [hcur] at hb
    simp only [Except.ok.injEq] at hb
    simp [addBalance, WalletItem.toWallet, ← hb]
  | some it =>
    rw [hcur] at hb
    simp only [Except.ok.injEq, WalletItem.toWallet] at hb
    simp [addBalance, WalletItem.toWallet, ← hb]

theorem RefundRepository.GetWalletBalance_congr (s s1 : Store) (userID : String) (ok : Bool)
    (h : s1.wallets = s.wallets) :
    RefundRepository.GetWalletBalance s1 userID ok =
      RefundRepository.GetWalletBalance s userID ok := by
  unfold RefundRepository.GetWalletBalance
  rw [h]

theorem RefundService.ProcessRefund_completed_ok (s : Store) (req : RefundRequest)
    (env : RefundEnv) (payment : Payment) (b : ℚ)
    (hv : RefundService.validateRefundRequest req = none)
    (hp : getItem Payment.ID req.PaymentID s.payments = some payment)
    (hst : payment.Status = PaymentStatusCompleted) (hle : req.Amount ≤ payment.Amount)
    (hg : env.getOk = true) (hc : env.creditOk = true) (hu : env.updateOk = true)
    (hb : RefundRepository.GetWalletBalance s payment.UserID true = Except.ok b) :
    (RefundService.ProcessRefund s req env).1 =
      Except.ok { PaymentID := payment.ID, Amount := req.Amount, Status := "refunded",
                  Reason := req.Reason, RefundID := env.refundID } ∧
    RefundRepository.GetWalletBalance (RefundService.ProcessRefund s req env).2
      payment.UserID true = Except.ok (b + formatFixed 2 req.Amount) ∧
    getItem Payment.ID req.PaymentID (RefundService.ProcessRefund s req env).2.payments =
      some { payment with Status := PaymentStatusRefunded, UpdatedAt := env.now } := by
  have hcr : ¬ PaymentStatusCompleted = PaymentStatusRefunded := by decide
  have hnr : ¬ payment.Status = PaymentStatusRefunded := by rw [hst]; exact hcr
  have hngt : ¬ req.Amount > payment.Amount := not_lt.mpr hle
  have hid : payment.ID = req.PaymentID :=
    getItem_key Payment.ID req.PaymentID s.payments payment hp
  rw [RefundService.ProcessRefund_of_payment s req env payment hv hp hg,
    if_neg hnr, if_neg (not_not.mpr hst), if_neg hngt]
  obtain ⟨hres, hw, hpay⟩ := RefundService.creditAndMark_ok s payment req env hc hu
  refine ⟨hres, ?_, ?_⟩
  · rw [RefundRepository.GetWalletBalance_congr _ _ _ _ hw]
    exact RefundRepository.GetWalletBalance_after_credit s payment.UserID req.Amount b hb
  · rw [hpay]
    have := getItem_putItem_self Payment.ID
      ({ payment with Status := PaymentStatusRefunded, UpdatedAt := env.now } : Payment)
      s.payments
    rw [← hid]
    exact this

/-- C7 (amended): for a stored Completed payment whose amount `A` has at most two
decimal places and a request for the full amount that passes validation, with
the payment read, the wallet credit and the payment write going through:
`RefundService.ProcessRefund` returns the response with status "refunded", the
stored balance of the owner's wallet (0 when there was none) grows by exactly
`A`, the stored payment becomes Refunded, and a second valid request on the same
payment returns an error and leaves every table as it was (no second credit),
the error being "payment already refunded" when the payment read goes through. -/
theorem RefundService.ProcessRefund_full_refund (s : Store) (req req2 : RefundRequest)
    (env env2 : RefundEnv) (payment : Payment) (b : ℚ)
    (hv : RefundService.validateRefundRequest req = none)
    (hp : getItem Payment.ID req.PaymentID s.payments = some payment)
    (hst : payment.Status = PaymentStatusCompleted) (hfull : req.Amount = payment.Amount)
    (hdec : HasDecimals 2 payment.Amount)
    (hg : env.getOk = true) (hc : env.creditOk = true) (hu : env.updateOk = true)
    (hb : RefundRepository.GetWalletBalance s payment.UserID true = Except.ok b)
    (hv2 : RefundService.validateRefundRequest req2 = none)
    (hid2 : req2.PaymentID = req.PaymentID) :
    (RefundService.ProcessRefund s req env).1 =
      Except.ok { PaymentID := payment.ID, Amount := payment.Amount, Status := "refunded",
                  Reason := req.Reason, RefundID := env.refundID } ∧
    RefundRepository.GetWalletBalance (RefundService.ProcessRefund s req env).2
      payment.UserID true = Except.ok (b + payment.Amount) ∧
    getItem Payment.ID req.PaymentID (RefundService.ProcessRefund s req env).2.payments =
      some { payment with Status := PaymentStatusRefunded, UpdatedAt := env.now } ∧
    (∃ err, (RefundService.ProcessRefund (RefundService.ProcessRefund s req env).2 req2
      env2).1 = Except.error err) ∧
    (RefundService.ProcessRefund (RefundService.ProcessRefund s req env).2 req2 env2).2 =
      (RefundService.ProcessRefund s req env).2 ∧
    (env2.getOk = true →
      (RefundService.ProcessRefund (RefundService.ProcessRefund s req env).2 req2 env2).1 =
        Except.error (Err.errorf "payment already refunded" [])) := by
  obtain ⟨hres, hbal, hpay⟩ := RefundService.ProcessRefund_completed_ok s req env payment b
    hv hp hst (le_of_eq hfull) hg hc hu hb
  rw [hfull] at hres hbal
  rw [formatFixed_of_hasDecimals 2 _ hdec] at hbal
  refine ⟨hres, hbal, hpay, ?_⟩
  have hp2 : getItem Payment.ID req2.PaymentID (RefundService.ProcessRefund s req env).2.payments
      = some { payment with Status := PaymentStatusRefunded, UpdatedAt := env.now } := by
    rw [hid2]; exact hpay
  cases hg2 : env2.getOk
  · rw [RefundService.ProcessRefund_read_failed _ req2 env2 hv2 hg2]
    exact ⟨⟨_, rfl⟩, rfl, by simp⟩
  · rw [RefundService.ProcessRefund_of_payment _ req2 env2 _ hv2 hp2 hg2]
    simp

/-- Witness of C7 (amended): the full refund of the Completed payment `pay1` of
100, followed by a second request. -/
theorem RefundService.ProcessRefund_full_refund_witness :
    (RefundService.ProcessRefund (paymentStore PaymentStatusCompleted 100)
      (refundRequest 100) refundEnvOk).1 =
      Except.ok { PaymentID := (storedPayment PaymentStatusCompleted 100).ID,
                  Amount := (storedPayment PaymentStatusCompleted 100).Amount,
                  Status := "refunded", Reason := (refundRequest 100).Reason,
                  RefundID := refundEnvOk.refundID } ∧
    RefundRepository.GetWalletBalance
      (RefundService.ProcessRefund (paymentStore PaymentStatusCompleted 100)
        (refundRequest 100) refundEnvOk).2
      (storedPayment PaymentStatusCompleted 100).UserID true
      = Except.ok (100 + (storedPayment PaymentStatusCompleted 100).Amount) ∧
    getItem Payment.ID (refundRequest 100).PaymentID
      (RefundService.ProcessRefund (paymentStore PaymentStatusCompleted 100)
        (refundRequest 100) refundEnvOk).2.payments =
      some { storedPayment PaymentStatusCompleted 100 with
             Status := PaymentStatusRefunded, UpdatedAt := refundEnvOk.now } ∧
    (∃ err, (RefundService.ProcessRefund
      (RefundService.ProcessRefund (paymentStore PaymentStatusCompleted 100)
        (refundRequest 100) refundEnvOk).2 (refundRequest 100) refundEnvOk).1
      = Except.error err) ∧
    (RefundService.ProcessRefund
      (RefundService.ProcessRefund (paymentStore PaymentStatusCompleted 100)
        (refundRequest 100) refundEnvOk).2 (refundRequest 100) refundEnvOk).2 =
      (RefundService.ProcessRefund (paymentStore PaymentStatusCompleted 100)
        (refundRequest 100) refundEnvOk).2 ∧
    (refundEnvOk.getOk = true →
      (RefundService.ProcessRefund
        (RefundService.ProcessRefund (paymentStore PaymentStatusCompleted 100)
          (refundRequest 100) refundEnvOk).2 (refundRequest 100) refundEnvOk).1 =
        Except.error (Err.errorf "payment already refunded" [])) :=
  RefundService.ProcessRefund_full_refund (paymentStore PaymentStatusCompleted 100)
    (refundRequest 100) (refundRequest 100) refundEnvOk refundEnvOk
    (storedPayment PaymentStatusCompleted 100) 100
    (by decide) (by decide) rfl rfl (hasDecimals_intCast 2 100) rfl rfl rfl rfl
    (by decide) rfl

theorem formatFixed_ten_and_a_thousandth : formatFixed 2 (10001 / 1000) = 10 := by
  have hfl : ⌊(10001 / 10 : ℚ)⌋ = 1000 := by
    rw [Int.floor_eq_iff]; norm_num
  norm_num [formatFixed, roundHalfEven, hfl]

/-- Counterexample to C7 as stated: the Completed payment `pay1` of 10.001 is
refunded in full with every SDK call going through; the response has status
"refunded" and amount 10.001, the payment becomes Refunded, and the stored
balance of the wallet goes from 100 to 110, not to 110.001. -/
theorem RefundService.ProcessRefund_credit_rounded :
    RefundService.validateRefundRequest (refundRequest (10001 / 1000)) = none ∧
    (RefundService.ProcessRefund (paymentStore PaymentStatusCompleted (10001 / 1000))
      (refundRequest (10001 / 1000)) refundEnvOk).1 =
      Except.ok { PaymentID := "pay1", Amount := 10001 / 1000, Status := "refunded",
                  Reason := "customer request", RefundID := "r1" } ∧
    RefundRepository.GetWalletBalance (paymentStore PaymentStatusCompleted (10001 / 1000))
      "u1" true = Except.ok 100 ∧
    RefundRepository.GetWalletBalance
      (RefundService.ProcessRefund (paymentStore PaymentStatusCompleted (10001 / 1000))
        (refundRequest (10001 / 1000)) refundEnvOk).2 "u1" true = Except.ok 110 ∧
    (110 : ℚ) ≠ 100 + 10001 / 1000 := by
  have hv : RefundService.validateRefundRequest (refundRequest (10001 / 1000)) = none := by
    simp [RefundService.validateRefundRequest, refundRequest]
  have hb : RefundRepository.GetWalletBalance
      (paymentStore PaymentStatusCompleted (10001 / 1000))
      (storedPayment PaymentStatusCompleted (10001 / 1000)).UserID true = Except.ok 100 := rfl
  have hp : getItem Payment.ID (refundRequest (10001 / 1000)).PaymentID
      (paymentStore PaymentStatusCompleted (10001 / 1000)).payments =
      some (storedPayment PaymentStatusCompleted (10001 / 1000)) := by
    simp [getItem, paymentStore, refundRequest, storedPayment]
  obtain ⟨hres, hbal, _⟩ := RefundService.ProcessRefund_completed_ok
    (paymentStore PaymentStatusCompleted (10001 / 1000)) (refundRequest (10001 / 1000))
    refundEnvOk (storedPayment PaymentStatusCompleted (10001 / 1000)) 100 hv hp rfl
    (le_refl _) rfl rfl rfl hb
  have hamt : (refundRequest (10001 / 1000)).Amount = 10001 / 1000 := rfl
  rw [hamt, formatFixed_ten_and_a_thousandth] at hbal
  refine ⟨hv, hres, hb, ?_, by norm_num⟩
  rw [show (110 : ℚ) = 100 + 10 by norm_num]
  exact hbal

/-! ## Refund saga: a failed status write after the credit -/

theorem RefundService.creditAndMark_update_failed (s : Store) (payment : Payment)
    (req : RefundRequest) (env : RefundEnv) (hc : env.creditOk = true)
    (hu : env.updateOk = false) :
    (RefundService.creditAndMark s payment req env).1 =
      Except.ok { PaymentID := payment.ID, Amount := req.Amount, Status := "refunded",
                  Reason := req.Reason, RefundID := env.refundID } ∧
    (RefundService.creditAndMark s payment req env).2.wallets =
      (RefundRepository.CreditWallet s payment.UserID req.Amount true).2.wallets ∧
    (RefundService.creditAndMark s payment req env).2.payments = s.payments ∧
    (RefundService.creditAndMark s payment req env).2.events =
      if env.eventOk then s.events ++ [RefundService.refundEvent payment req env]
      else s.events := by
  unfold RefundService.creditAndMark
  rw [hc, RefundRepository.CreditWallet_ok]
  cases he : env.eventOk <;>
    simp [RefundRepository.UpdatePayment, hu, RefundRepository.LogPaymentEvent, he,
      RefundService.refundEvent]

/-- C11: for a stored Completed payment and a request that passes the checks,
when the payment read and the wallet credit go through and the payment status
write fails, `RefundService.ProcessRefund` returns the success response with
status "refunded" and the requested amount; the wallet table is exactly what
the credit left (the balance read back is the old balance plus the credited
amount, nothing is debited back); the payments table is unchanged; and the
refunded event is appended whenever its own write goes through. -/
theorem RefundService.ProcessRefund_status_write_failed (s : Store) (req : RefundRequest)
    (env : RefundEnv) (payment : Payment) (b : ℚ)
    (hv : RefundService.validateRefundRequest req = none)
    (hp : getItem Payment.ID req.PaymentID s.payments = some payment)
    (hst : payment.Status = PaymentStatusCompleted) (hle : req.Amount ≤ payment.Amount)
    (hg : env.getOk = true) (hc : env.creditOk = true) (hu : env.updateOk = false)
    (hb : RefundRepository.GetWalletBalance s payment.UserID true = Except.ok b) :
    (RefundService.ProcessRefund s req env).1 =
      Except.ok { PaymentID := payment.ID, Amount := req.Amount, Status := "refunded",
                  Reason := req.Reason, RefundID := env.refundID } ∧
    (RefundService.ProcessRefund s req env).2.wallets =
      (RefundRepository.CreditWallet s payment.UserID req.Amount true).2.wallets ∧
    RefundRepository.GetWalletBalance (RefundService.ProcessRefund s req env).2
      payment.UserID true = Except.ok (b + formatFixed 2 req.Amount) ∧
    (RefundService.ProcessRefund s req env).2.payments = s.payments ∧
    (env.eventOk = true → (RefundService.ProcessRefund s req env).2.events =
      s.events ++ [RefundService.refundEvent payment req env]) := by
  have hcr : ¬ PaymentStatusCompleted = PaymentStatusRefunded := by decide
  have hnr : ¬ payment.Status = PaymentStatusRefunded := by rw [hst]; exact hcr
  have hngt : ¬ req.Amount > payment.Amount := not_lt.mpr hle
  rw [RefundService.ProcessRefund_of_payment s req env payment hv hp hg,
    if_neg hnr, if_neg (not_not.mpr hst), if_neg hngt]
  obtain ⟨hres, hw, hpay, hev⟩ :=
    RefundService.creditAndMark_update_failed s payment req env hc hu
  refine ⟨hres, hw, ?_, hpay, ?_⟩
  · rw [RefundRepository.GetWalletBalance_congr _ _ _ _ hw]
    exact RefundRepository.GetWalletBalance_after_credit s payment.UserID req.Amount b hb
  · intro he
    rw [hev, he]
    rfl

/-- Witness of C11: a refund of 40 on the Completed payment `pay1` of 100 when
the status write fails. -/
theorem RefundService.ProcessRefund_status_write_failed_witness :
    (RefundService.ProcessRefund (paymentStore PaymentStatusCompleted 100) (refundRequest 40)
      refundEnvUpdateFails).1 =
      Except.ok { PaymentID := (storedPayment PaymentStatusCompleted 100).ID,
                  Amount := (refundRequest 40).Amount, Status := "refunded",
                  Reason := (refundRequest 40).Reason,
                  RefundID := refundEnvUpdateFails.refundID } ∧
    (RefundService.ProcessRefund (paymentStore PaymentStatusCompleted 100) (refundRequest 40)
      refundEnvUpdateFails).2.wallets =
      (RefundRepository.CreditWallet (paymentStore PaymentStatusCompleted 100)
        (storedPayment PaymentStatusCompleted 100).UserID (refundRequest 40).Amount
        true).2.wallets ∧
    RefundRepository.GetWalletBalance
      (RefundService.ProcessRefund (paymentStore PaymentStatusCompleted 100) (refundRequest 40)
        refundEnvUpdateFails).2
      (storedPayment PaymentStatusCompleted 100).UserID true =
      Except.ok (100 + formatFixed 2 (refundRequest 40).Amount) ∧
    (RefundService.ProcessRefund (paymentStore PaymentStatusCompleted 100) (refundRequest 40)
      refundEnvUpdateFails).2.payments = (paymentStore PaymentStatusCompleted 100).payments ∧
    (refundEnvUpdateFails.eventOk = true →
      (RefundService.ProcessRefund (paymentStore PaymentStatusCompleted 100) (refundRequest 40)
        refundEnvUpdateFails).2.events =
      (paymentStore PaymentStatusCompleted 100).events ++
        [RefundService.refundEvent (storedPayment PaymentStatusCompleted 100)
          (refundRequest 40) refundEnvUpdateFails]) :=
  RefundService.ProcessRefund_status_write_failed (paymentStore PaymentStatusCompleted 100)
    (refundRequest 40) refundEnvUpdateFails (storedPayment PaymentStatusCompleted 100) 100
    (by decide) (by decide) rfl (by decide) rfl rfl rfl rfl

/-! ## Payment status transitions -/

theorem RefundService.ProcessRefund_payments (s : Store) (req : RefundRequest)
    (env : RefundEnv) :
    (RefundService.ProcessRefund s req env).2.payments = s.payments ∨
    ∃ payment q, getItem Payment.ID req.PaymentID s.payments = some payment ∧
      payment.Status = PaymentStatusCompleted ∧
      q.ID = payment.ID ∧ q.Status = PaymentStatusRefunded ∧
      (RefundService.ProcessRefund s req env).2.payments =
        putItem Payment.ID q s.payments := by
  cases hv : RefundService.validateRefundRequest req with
  | some err => left; simp [RefundService.ProcessRefund, hv]
  | none =>
    cases hg : env.getOk
    · left; rw [RefundService.ProcessRefund_read_failed s req env hv hg]
    · cases hp : getItem Payment.ID req.PaymentID s.payments with
      | none =>
        left
        simp [RefundService.ProcessRefund, hv, RefundRepository.GetPayment, hg, hp]
      | some payment =>
        rw [RefundService.ProcessRefund_of_payment s req env payment hv hp hg]
        by_cases hr : payment.Status = PaymentStatusRefunded
        · left; rw [if_pos hr]
        · rw [if_neg hr]
          by_cases hc : payment.Status = PaymentStatusCompleted
          · rw [if_neg (not_not.mpr hc)]
            by_cases hgt : req.Amount > payment.Amount
            · left; rw [if_pos hgt]
            · rw [if_neg hgt]
              cases hcr : env.creditOk
              · left
                rw [RefundService.creditAndMark_credit_failed s payment req env hcr]
              · cases hu : env.updateOk
                · left
                  exact (RefundService.creditAndMark_update_failed s payment req env
                    hcr hu).2.2.1
                · right
                  refine ⟨payment, _, rfl, hc, ?_, ?_,
                    (RefundService.creditAndMark_ok s payment req env hcr hu).2.2⟩ <;> rfl
          · left; rw [if_pos hc]

theorem PaymentRepository.UpdatePaymentStatus_stored (s : Store) (paymentID : String)
    (status : PaymentStatus) (externalID : String) (now : ℕ) :
    (PaymentRepository.UpdatePaymentStatus s paymentID status externalID true now).1 = none ∧
    getItem Payment.ID paymentID
      (PaymentRepository.UpdatePaymentStatus s paymentID status externalID true now).2.payments
      = some (setStatus paymentID status externalID now
          (getItem Payment.ID paymentID s.payments)) := by
  have hkey : (setStatus paymentID status externalID now
      (getItem Payment.ID paymentID s.payments)).ID = paymentID := by
    cases hcur : getItem Payment.ID paymentID s.payments with
    | none => rfl
    | some p => exact getItem_key Payment.ID paymentID s.payments p hcur
  have := getItem_putItem_self Payment.ID
    (setStatus paymentID status externalID now (getItem Payment.ID paymentID s.payments))
    s.payments
  rw [hkey] at this
  simp [PaymentRepository.UpdatePaymentStatus, updateItem, this]

theorem setStatus_status (paymentID : String) (status : PaymentStatus) (externalID : String)
    (now : ℕ) (cur : Option Payment) :
    (setStatus paymentID status externalID now cur).Status = status := by
  cases cur <;> rfl

/-- C12 (amended): `RefundService.ProcessRefund` leaves the status of every
stored payment as it was, except that it can turn the requested payment from
Completed into Refunded; so under it a status becomes Refunded only from
Completed and a Failed or Refunded payment keeps its status.
`PaymentService.UpdatePaymentStatus` has no such guard: when its write goes
through, the stored status of the payment is the requested status, whatever it
was before. -/
theorem payment_status_transitions (s : Store) (req : RefundRequest) (env : RefundEnv)
    (paymentID : String) (status : PaymentStatus) (externalID : String)
    (uenv : UpdateStatusEnv) (k : String) (before : Payment)
    (hk : getItem Payment.ID k s.payments = some before) :
    (∃ after, getItem Payment.ID k (RefundService.ProcessRefund s req env).2.payments
        = some after ∧
      (after.Status = before.Status ∨
        (before.Status = PaymentStatusCompleted ∧ after.Status = PaymentStatusRefunded)) ∧
      (before.Status = PaymentStatusFailed ∨ before.Status = PaymentStatusRefunded →
        after = before)) ∧
    (uenv.updateOk = true →
      ∃ after, getItem Payment.ID paymentID
          (PaymentService.UpdatePaymentStatus s paymentID status externalID uenv).2.payments
          = some after ∧ after.Status = status) := by
  constructor
  · rcases RefundService.ProcessRefund_payments s req env with
      h | ⟨payment, q, hp, hc, hqid, hqst, h⟩
    · rw [h]
      exact ⟨before, hk, Or.inl rfl, fun _ => rfl⟩
    · rw [h]
      have hid : payment.ID = req.PaymentID :=
        getItem_key Payment.ID req.PaymentID s.payments payment hp
      by_cases hkr : k = req.PaymentID
      · subst hkr
        have hbp : before = payment := by
          rw [hk] at hp
          exact Option.some.inj hp
        subst hbp
        have hq := getItem_putItem_self Payment.ID q s.payments
        rw [hqid, hid] at hq
        refine ⟨q, hq, Or.inr ⟨hc, hqst⟩, ?_⟩
        intro hterm
        rw [hc] at hterm
        rcases hterm with h1 | h1
        · exact absurd h1 (by decide)
        · exact absurd h1 (by decide)
      · have hne : q.ID ≠ k := by
          rw [hqid, hid]
          exact fun h => hkr h.symm
        rw [getItem_putItem_other Payment.ID q k s.payments hne]
        exact ⟨before, hk, Or.inl rfl, fun _ => rfl⟩
  · intro hu
    obtain ⟨herr, hst⟩ :=
      PaymentRepository.UpdatePaymentStatus_stored s paymentID status externalID uenv.now
    have hpay : (PaymentService.UpdatePaymentStatus s paymentID status externalID
        uenv).2.payments =
        (PaymentRepository.UpdatePaymentStatus s paymentID status externalID true
          uenv.now).2.payments := by
      unfold PaymentService.UpdatePaymentStatus
      rw [hu]
      rcases hres : PaymentRepository.UpdatePaymentStatus s paymentID status externalID true
        uenv.now with ⟨e, s1⟩
      rw [hres] at herr
      simp only at herr
      subst herr
      simp only
      cases PaymentRepository.GetPayment s1 paymentID uenv.getOk <;> rfl
    rw [hpay, hst]
    exact ⟨_, rfl, setStatus_status _ _ _ _ _⟩

/-- Witness of C12 (amended): a refund request and a status update on the Failed
payment `pay1`. -/
theorem payment_status_transitions_witness :
    (∃ after, getItem Payment.ID "pay1"
        (RefundService.ProcessRefund (paymentStore PaymentStatusFailed 100) (refundRequest 40)
          refundEnvOk).2.payments = some after ∧
      (after.Status = (storedPayment PaymentStatusFailed 100).Status ∨
        ((storedPayment PaymentStatusFailed 100).Status = PaymentStatusCompleted ∧
          after.Status = PaymentStatusRefunded)) ∧
      ((storedPayment PaymentStatusFailed 100).Status = PaymentStatusFailed ∨
        (storedPayment PaymentStatusFailed 100).Status = PaymentStatusRefunded →
        after = storedPayment PaymentStatusFailed 100)) ∧
    (updateStatusEnvOk.updateOk = true →
      ∃ after, getItem Payment.ID "pay1"
          (PaymentService.UpdatePaymentStatus (paymentStore PaymentStatusFailed 100) "pay1"
            PaymentStatusCompleted "ext_2" updateStatusEnvOk).2.payments = some after ∧
        after.Status = PaymentStatusCompleted) :=
  payment_status_transitions (paymentStore PaymentStatusFailed 100) (refundRequest 40)
    refundEnvOk "pay1" PaymentStatusCompleted "ext_2" updateStatusEnvOk "pay1"
    (storedPayment PaymentStatusFailed 100) (by decide)

/-- Counterexample to C12 as stated: `PaymentService.UpdatePaymentStatus` turns
the Failed payment `pay1` into a Completed one, and turns the Pending payment
`pay1` into a Refunded one. -/
theorem PaymentService.UpdatePaymentStatus_unguarded :
    ((getItem Payment.ID "pay1" (paymentStore PaymentStatusFailed 100).payments).map
        Payment.Status = some PaymentStatusFailed ∧
      (getItem Payment.ID "pay1"
        (PaymentService.UpdatePaymentStatus (paymentStore PaymentStatusFailed 100) "pay1"
          PaymentStatusCompleted "" updateStatusEnvOk).2.payments).map Payment.Status
        = some PaymentStatusCompleted) ∧
    ((getItem Payment.ID "pay1" (paymentStore PaymentStatusPending 100).payments).map
        Payment.Status = some PaymentStatusPending ∧
      (getItem Payment.ID "pay1"
        (PaymentService.UpdatePaymentStatus (paymentStore PaymentStatusPending 100) "pay1"
          PaymentStatusRefunded "" updateStatusEnvOk).2.payments).map Payment.Status
        = some PaymentStatusRefunded) := by
  decide

/-- `RefundService.ProcessStepFunctionRefund` checks neither the status nor a
previous refund: on the Refunded payment `pay1` of 100 it succeeds again and
credits the wallet of `u1` a second 100. -/
theorem RefundService.ProcessStepFunctionRefund_skips_status_check :
    (RefundService.ProcessStepFunctionRefund (paymentStore PaymentStatusRefunded 100) "pay1"
      refundEnvOk).1.Success = true ∧
    RefundRepository.GetWalletBalance (paymentStore PaymentStatusRefunded 100) "u1" true
      = Except.ok 100 ∧
    RefundRepository.GetWalletBalance
      (RefundService.ProcessStepFunctionRefund (paymentStore PaymentStatusRefunded 100) "pay1"
        refundEnvOk).2 "u1" true = Except.ok 200 := by
  have h100 : formatFixed 2 100 = 100 :=
    formatFixed_of_hasDecimals 2 100 (hasDecimals_intCast 2 100)
  have hb : RefundRepository.GetWalletBalance (paymentStore PaymentStatusRefunded 100) "u1"
      true = Except.ok 100 := rfl
  have hcredit := RefundRepository.GetWalletBalance_after_credit
    (paymentStore PaymentStatusRefunded 100) "u1" 100 100 hb
  rw [h100] at hcredit
  have hw : (RefundService.ProcessStepFunctionRefund (paymentStore PaymentStatusRefunded 100)
      "pay1" refundEnvOk).2.wallets =
      (RefundRepository.CreditWallet (paymentStore PaymentStatusRefunded 100) "u1" 100
        true).2.wallets := by
    simp [RefundService.ProcessStepFunctionRefund, RefundRepository.GetPayment, refundEnvOk,
      getItem, paymentStore, storedPayment, RefundRepository.CreditWallet_ok,
      RefundRepository.UpdatePayment, RefundRepository.LogPaymentEvent]
  refine ⟨?_, hb, ?_⟩
  · simp [RefundService.ProcessStepFunctionRefund, RefundRepository.GetPayment, refundEnvOk,
      getItem, paymentStore, storedPayment, RefundRepository.CreditWallet_ok]
  · rw [RefundRepository.GetWalletBalance_congr _ _ _ _ hw, hcredit]
    norm_num

/-! ## Circuit breaker -/

theorem resilience.CircuitBreaker.Execute_closed (cb : resilience.CircuitBreaker)
    (env : ExecuteEnv) (hst : cb.state = resilience.State.StateClosed) :
    cb.Execute env = (env.result, 1, cb.recordResult env.result env.recordedAt) := by
  simp [resilience.CircuitBreaker.Execute, resilience.CircuitBreaker.canExecute, hst]

theorem resilience.CircuitBreaker.Execute_halfOpen (cb : resilience.CircuitBreaker)
    (env : ExecuteEnv) (hst : cb.state = resilience.State.StateHalfOpen) :
    cb.Execute env = (env.result, 1, cb.recordResult env.result env.recordedAt) := by
  simp [resilience.CircuitBreaker.Execute, resilience.CircuitBreaker.canExecute, hst]

theorem resilience.CircuitBreaker.recordResult_failure (cb : resilience.CircuitBreaker)
    (err : Option Err) (now : ℤ) (h : err ≠ none) :
    cb.recordResult err now = cb.recordFailure now := by
  cases err with
  | none => exact absurd rfl h
  | some e => rfl

theorem resilience.CircuitBreaker.executeAll_failures (envs : List ExecuteEnv) :
    ∀ cb : resilience.CircuitBreaker, cb.state = resilience.State.StateClosed →
      (∀ e ∈ envs, e.result ≠ none) →
      (cb.failureCount + envs.length < cb.maxFailures →
        (cb.executeAll envs).state = resilience.State.StateClosed ∧
        (cb.executeAll envs).failureCount = cb.failureCount + envs.length) ∧
      (envs ≠ [] → cb.failureCount + envs.length = cb.maxFailures →
        (cb.executeAll envs).state = resilience.State.StateOpen) := by
  induction envs with
  | nil =>
    intro cb hst _
    exact ⟨fun _ => ⟨hst, by simp [resilience.CircuitBreaker.executeAll]⟩,
      fun h => absurd rfl h⟩
  | cons e rest ih =>
    intro cb hst hfail
    have he : e.result ≠ none := hfail e (List.mem_cons_self e rest)
    have hrest : ∀ d ∈ rest, d.result ≠ none :=
      fun d hd => hfail d (List.mem_cons_of_mem e hd)
    have hstep : (cb.Execute e).2.2 = cb.recordFailure e.recordedAt := by
      rw [resilience.CircuitBreaker.Execute_closed cb e hst,
        resilience.CircuitBreaker.recordResult_failure cb e.result e.recordedAt he]
    have hlen : ((e :: rest).length : ℤ) = rest.length + 1 := by simp
    have hne : ¬ cb.state = resilience.State.StateHalfOpen := by rw [hst]; decide
    simp only [resilience.CircuitBreaker.executeAll, hstep]
    constructor
    · intro hlt
      rw [hlen] at hlt
      have hlt1 : ¬ cb.failureCount + 1 ≥ cb.maxFailures := by omega
      have hcl : (cb.recordFailure e.recordedAt).state = resilience.State.StateClosed := by
        simp [resilience.CircuitBreaker.recordFailure, hne, hlt1, hst]
      have hfc : (cb.recordFailure e.recordedAt).failureCount = cb.failureCount + 1 := rfl
      have hmx : (cb.recordFailure e.recordedAt).maxFailures = cb.maxFailures := rfl
      obtain ⟨h1, h2⟩ := (ih (cb.recordFailure e.recordedAt) hcl hrest).1
        (by rw [hfc, hmx]; omega)
      refine ⟨h1, ?_⟩
      rw [h2, hfc, hlen]; ring
    · intro _ heq
      rw [hlen] at heq
      cases rest with
      | nil =>
        simp only [List.length_nil, Nat.cast_zero, zero_add] at heq
        have hge : cb.failureCount + 1 ≥ cb.maxFailures := by omega
        simp [resilience.CircuitBreaker.executeAll, resilience.CircuitBreaker.recordFailure,
          hne, hge]
      | cons d ds =>
        have hpos : (1 : ℤ) ≤ ((d :: ds).length : ℤ) := by simp
        have hlt1 : ¬ cb.failureCount + 1 ≥ cb.maxFailures := by omega
        have hcl : (cb.recordFailure e.recordedAt).state = resilience.State.StateClosed := by
          simp [resilience.CircuitBreaker.recordFailure, hne, hlt1, hst]
        have hfc : (cb.recordFailure e.recordedAt).failureCount = cb.failureCount + 1 := rfl
        have hmx : (cb.recordFailure e.recordedAt).maxFailures = cb.maxFailures := rfl
        exact (ih (cb.recordFailure e.recordedAt) hcl hrest).2 (by simp)
          (by rw [hfc, hmx]; omega)

/-- C13: for a Closed breaker with failure count 0 and `maxFailures = n ≥ 1`, and
every sequence of `Execute` calls whose wrapped function fails: after fewer
than `n` of them the breaker is still Closed and the failure count is their
number; after exactly `n` of them it is Open.  A call whose wrapped function
succeeds on a Closed breaker, whatever its failure count, leaves it Closed
with failure count 0. -/
theorem resilience.CircuitBreaker.trips_after_max_failures (cb : resilience.CircuitBreaker)
    (n : ℤ) (envs : List ExecuteEnv) (hn : 1 ≤ n) (hmax : cb.maxFailures = n)
    (hst : cb.state = resilience.State.StateClosed) (hfc : cb.failureCount = 0)
    (hfail : ∀ e ∈ envs, e.result ≠ none) :
    ((envs.length : ℤ) < n →
      (cb.executeAll envs).state = resilience.State.StateClosed ∧
      (cb.executeAll envs).failureCount = envs.length) ∧
    ((envs.length : ℤ) = n → (cb.executeAll envs).state = resilience.State.StateOpen) ∧
    (∀ (cb2 : resilience.CircuitBreaker) (env : ExecuteEnv),
      cb2.state = resilience.State.StateClosed → env.result = none →
      (cb2.Execute env).1 = none ∧ (cb2.Execute env).2.1 = 1 ∧
      (cb2.Execute env).2.2.state = resilience.State.StateClosed ∧
      (cb2.Execute env).2.2.failureCount = 0) := by
  obtain ⟨h1, h2⟩ := resilience.CircuitBreaker.executeAll_failures envs cb hst hfail
  refine ⟨?_, ?_, ?_⟩
  · intro hlt
    obtain ⟨ha, hb⟩ := h1 (by rw [hfc, hmax]; omega)
    exact ⟨ha, by rw [hb, hfc]; ring⟩
  · intro heq
    have hne : envs ≠ [] := by
      intro hnil
      rw [hnil] at heq
      simp at heq
      omega
    exact h2 hne (by rw [hfc, hmax]; omega)
  · intro cb2 env hcl hres
    rw [resilience.CircuitBreaker.Execute_closed cb2 env hcl, hres]
    simp [resilience.CircuitBreaker.recordResult, resilience.CircuitBreaker.recordSuccess, hcl]

theorem failingCalls_fail :
    ∀ e ∈ [failingCall 1, failingCall 2, failingCall 3], e.result ≠ none := by
  intro e he
  simp only [List.mem_cons, List.mem_singleton, List.not_mem_nil, or_false] at he
  rcases he with h | h | h <;> subst h <;> simp [failingCall]

/-- Witness of C13: three failing calls on a new breaker with `maxFailures = 3`. -/
theorem resilience.CircuitBreaker.trips_after_max_failures_witness :
    ((([failingCall 1, failingCall 2, failingCall 3].length : ℕ) : ℤ) < 3 →
      (breaker3.executeAll [failingCall 1, failingCall 2, failingCall 3]).state
        = resilience.State.StateClosed ∧
      (breaker3.executeAll [failingCall 1, failingCall 2, failingCall 3]).failureCount
        = ([failingCall 1, failingCall 2, failingCall 3].length : ℕ)) ∧
    ((([failingCall 1, failingCall 2, failingCall 3].length : ℕ) : ℤ) = 3 →
      (breaker3.executeAll [failingCall 1, failingCall 2, failingCall 3]).state
        = resilience.State.StateOpen) ∧
    (∀ (cb2 : resilience.CircuitBreaker) (env : ExecuteEnv),
      cb2.state = resilience.State.StateClosed → env.result = none →
      (cb2.Execute env).1 = none ∧ (cb2.Execute env).2.1 = 1 ∧
      (cb2.Execute env).2.2.state = resilience.State.StateClosed ∧
      (cb2.Execute env).2.2.failureCount = 0) :=
  resilience.CircuitBreaker.trips_after_max_failures breaker3 3
    [failingCall 1, failingCall 2, failingCall 3] (by decide) rfl rfl rfl failingCalls_fail

/-- C14: for an Open breaker, an `Execute` whose clock reading is not more than
`resetTimeout` after the last failure returns `ErrCircuitOpen`, does not invoke
the wrapped function and leaves the breaker as it was; an `Execute` whose clock
reading is more than `resetTimeout` after the last failure first moves the
breaker to Half-Open with success count 0 (`canExecute`), then invokes the
wrapped function exactly once and records its result on that Half-Open
breaker. -/
theorem resilience.CircuitBreaker.Execute_open (cb : resilience.CircuitBreaker)
    (env : ExecuteEnv) (hst : cb.state = resilience.State.StateOpen) :
    (env.checkedAt - cb.lastFailureTime ≤ cb.resetTimeout →
      cb.Execute env = (some resilience.ErrCircuitOpen, 0, cb)) ∧
    (env.checkedAt - cb.lastFailureTime > cb.resetTimeout →
      (cb.canExecute env.checkedAt).1 = none ∧
      (cb.canExecute env.checkedAt).2.state = resilience.State.StateHalfOpen ∧
      (cb.canExecute env.checkedAt).2.successCount = 0 ∧
      (cb.canExecute env.checkedAt).2.failureCount = cb.failureCount ∧
      (cb.Execute env).1 = env.result ∧ (cb.Execute env).2.1 = 1 ∧
      (cb.Execute env).2.2 =
        (cb.canExecute env.checkedAt).2.recordResult env.result env.recordedAt) := by
  constructor
  · intro hle
    have : ¬ env.checkedAt - cb.lastFailureTime > cb.resetTimeout := not_lt.mpr hle
    simp [resilience.CircuitBreaker.Execute, resilience.CircuitBreaker.canExecute, hst, this]
  · intro hgt
    simp [resilience.CircuitBreaker.Execute, resilience.CircuitBreaker.canExecute, hst, hgt]

/-- C15: for a Half-Open breaker with success count 0, one `Execute` whose
wrapped function succeeds leaves it Half-Open with success count 1, and a
second one leaves it Closed with failure count 0; each call invokes the
wrapped function once. -/
theorem resilience.CircuitBreaker.closes_after_two_successes
    (cb : resilience.CircuitBreaker) (e1 e2 : ExecuteEnv)
    (hst : cb.state = resilience.State.StateHalfOpen) (hsc : cb.successCount = 0)
    (h1 : e1.result = none) (h2 : e2.result = none) :
    ((cb.Execute e1).1 = none ∧ (cb.Execute e1).2.1 = 1 ∧
      (cb.Execute e1).2.2.state = resilience.State.StateHalfOpen ∧
      (cb.Execute e1).2.2.successCount = 1) ∧
    (((cb.Execute e1).2.2.Execute e2).1 = none ∧ ((cb.Execute e1).2.2.Execute e2).2.1 = 1 ∧
      (cb.executeAll [e1, e2]).state = resilience.State.StateClosed ∧
      (cb.executeAll [e1, e2]).failureCount = 0) := by
  have hs1 : (cb.Execute e1).2.2 = { cb with successCount := 1 } := by
    rw [resilience.CircuitBreaker.Execute_halfOpen cb e1 hst, h1]
    simp [resilience.CircuitBreaker.recordResult, resilience.CircuitBreaker.recordSuccess,
      hst, hsc]
  have hst1 : (cb.Execute e1).2.2.state = resilience.State.StateHalfOpen := by
    rw [hs1]; exact hst
  have hsc1 : (cb.Execute e1).2.2.successCount = 1 := by rw [hs1]
  have hex1 : (cb.Execute e1).1 = none ∧ (cb.Execute e1).2.1 = 1 := by
    rw [resilience.CircuitBreaker.Execute_halfOpen cb e1 hst, h1]
    exact ⟨rfl, rfl⟩
  refine ⟨⟨hex1.1, hex1.2, hst1, hsc1⟩, ?_⟩
  simp only [resilience.CircuitBreaker.executeAll]
  rw [resilience.CircuitBreaker.Execute_halfOpen _ e2 hst1, h2]
  simp [resilience.CircuitBreaker.recordResult, resilience.CircuitBreaker.recordSuccess,
    hst1, hsc1]

/-- C16: for a Half-Open breaker, whatever its counters and `maxFailures`, one
`Execute` whose wrapped function fails invokes it once, leaves the breaker Open
and records the clock reading as the time of the last failure; an `Execute`
that follows within `resetTimeout` of that reading returns `ErrCircuitOpen`
without invoking the wrapped function and leaves the breaker as it was. -/
theorem resilience.CircuitBreaker.reopens_on_failure (cb : resilience.CircuitBreaker)
    (e1 e2 : ExecuteEnv) (hst : cb.state = resilience.State.StateHalfOpen)
    (hf : e1.result ≠ none) (hsoon : e2.checkedAt - e1.recordedAt ≤ cb.resetTimeout) :
    (cb.Execute e1).1 = e1.result ∧ (cb.Execute e1).2.1 = 1 ∧
    (cb.Execute e1).2.2.state = resilience.State.StateOpen ∧
    (cb.Execute e1).2.2.lastFailureTime = e1.recordedAt ∧
    (cb.Execute e1).2.2.Execute e2 =
      (some resilience.ErrCircuitOpen, 0, (cb.Execute e1).2.2) := by
  have hs1 : (cb.Execute e1).2.2 = cb.recordFailure e1.recordedAt := by
    rw [resilience.CircuitBreaker.Execute_halfOpen cb e1 hst,
      resilience.CircuitBreaker.recordResult_failure cb e1.result e1.recordedAt hf]
  have hopen : (cb.recordFailure e1.recordedAt).state = resilience.State.StateOpen := by
    simp [resilience.CircuitBreaker.recordFailure, hst]
  have hex1 : (cb.Execute e1).1 = e1.result ∧ (cb.Execute e1).2.1 = 1 := by
    rw [resilience.CircuitBreaker.Execute_halfOpen cb e1 hst]
    exact ⟨rfl, rfl⟩
  refine ⟨hex1.1, hex1.2, by rw [hs1]; exact hopen, by rw [hs1]; rfl, ?_⟩
  rw [hs1]
  have hnot : ¬ e2.checkedAt - (cb.recordFailure e1.recordedAt).lastFailureTime
      > (cb.recordFailure e1.recordedAt).resetTimeout := not_lt.mpr hsoon
  simp [resilience.CircuitBreaker.Execute, resilience.CircuitBreaker.canExecute, hopen, hnot]

/-- Witness of C14: a call on the Open breaker 50 ns after its last failure. -/
theorem resilience.CircuitBreaker.Execute_open_witness :
    ((succeedingCall 150).checkedAt - openBreaker.lastFailureTime ≤ openBreaker.resetTimeout →
      openBreaker.Execute (succeedingCall 150)
        = (some resilience.ErrCircuitOpen, 0, openBreaker)) ∧
    ((succeedingCall 150).checkedAt - openBreaker.lastFailureTime > openBreaker.resetTimeout →
      (openBreaker.canExecute (succeedingCall 150).checkedAt).1 = none ∧
      (openBreaker.canExecute (succeedingCall 150).checkedAt).2.state
        = resilience.State.StateHalfOpen ∧
      (openBreaker.canExecute (succeedingCall 150).checkedAt).2.successCount = 0 ∧
      (openBreaker.canExecute (succeedingCall 150).checkedAt).2.failureCount
        = openBreaker.failureCount ∧
      (openBreaker.Execute (succeedingCall 150)).1 = (succeedingCall 150).result ∧
      (openBreaker.Execute (succeedingCall 150)).2.1 = 1 ∧
      (openBreaker.Execute (succeedingCall 150)).2.2 =
        (openBreaker.canExecute (succeedingCall 150).checkedAt).2.recordResult
          (succeedingCall 150).result (succeedingCall 150).recordedAt) :=
  resilience.CircuitBreaker.Execute_open openBreaker (succeedingCall 150) rfl

/-- Witness of C15: two successful calls on the Half-Open breaker. -/
theorem resilience.CircuitBreaker.closes_after_two_successes_witness :
    ((halfOpenBreaker.Execute (succeedingCall 200)).1 = none ∧
      (halfOpenBreaker.Execute (succeedingCall 200)).2.1 = 1 ∧
      (halfOpenBreaker.Execute (succeedingCall 200)).2.2.state
        = resilience.State.StateHalfOpen ∧
      (halfOpenBreaker.Execute (succeedingCall 200)).2.2.successCount = 1) ∧
    (((halfOpenBreaker.Execute (succeedingCall 200)).2.2.Execute (succeedingCall 300)).1
        = none ∧
      ((halfOpenBreaker.Execute (succeedingCall 200)).2.2.Execute (succeedingCall 300)).2.1
        = 1 ∧
      (halfOpenBreaker.executeAll [succeedingCall 200, succeedingCall 300]).state
        = resilience.State.StateClosed ∧
      (halfOpenBreaker.executeAll [succeedingCall 200, succeedingCall 300]).failureCount
        = 0) :=
  resilience.CircuitBreaker.closes_after_two_successes halfOpenBreaker (succeedingCall 200)
    (succeedingCall 300) rfl rfl rfl rfl

/-- Witness of C16: a failing call on the Half-Open breaker at time 200, followed
by a call at time 300. -/
theorem resilience.CircuitBreaker.reopens_on_failure_witness :
    (halfOpenBreaker.Execute (failingCall 200)).1 = (failingCall 200).result ∧
    (halfOpenBreaker.Execute (failingCall 200)).2.1 = 1 ∧
    (halfOpenBreaker.Execute (failingCall 200)).2.2.state = resilience.State.StateOpen ∧
    (halfOpenBreaker.Execute (failingCall 200)).2.2.lastFailureTime
      = (failingCall 200).recordedAt ∧
    (halfOpenBreaker.Execute (failingCall 200)).2.2.Execute (succeedingCall 300) =
      (some resilience.ErrCircuitOpen, 0, (halfOpenBreaker.Execute (failingCall 200)).2.2) :=
  resilience.CircuitBreaker.reopens_on_failure halfOpenBreaker (failingCall 200)
    (succeedingCall 300) rfl (by simp [failingCall]) (by decide)

/-! ## The trip predicate and the state report of the gobreaker client -/

theorem float64Rounding_id : Float64Rounding (fun x => x) := by
  refine ⟨fun x y h => h, rfl, ?_⟩
  intro x hx _
  have hpos : (0 : ℚ) ≤ x := le_trans (by positivity) hx
  simp only [sub_self, abs_zero]
  positivity

theorem ratio_ge_iff (f r : ℕ) (hr : 3 ≤ r) :
    ((f : ℚ) / (r : ℚ) ≥ 6 / 10) ↔ 5 * f ≥ 3 * r := by
  have hrpos : (0 : ℚ) < r := by
    have : (0 : ℕ) < r := by omega
    exact_mod_cast this
  rw [ge_iff_le, div_le_div_iff₀ (by norm_num) hrpos]
  constructor
  · intro h
    have h2 : (3 * r : ℚ) ≤ 5 * f := by linarith
    have h3 : ((3 * r : ℕ) : ℚ) ≤ ((5 * f : ℕ) : ℚ) := by push_cast; exact h2
    exact_mod_cast h3
  · intro h
    have h3 : ((3 * r : ℕ) : ℚ) ≤ ((5 * f : ℕ) : ℚ) := by exact_mod_cast h
    push_cast at h3
    linarith

theorem rounded_ratio_lt (fl : ℚ → ℚ) (hfl : Float64Rounding fl) (f r : ℕ) (hr : 3 ≤ r)
    (hr32 : r < 2 ^ 32) (hlt : 5 * f < 3 * r) :
    fl ((f : ℚ) / (r : ℚ)) < fl (6 / 10) := by
  obtain ⟨_, hzero, herr⟩ := hfl
  have hrpos : (0 : ℚ) < r := by
    have : (0 : ℕ) < r := by omega
    exact_mod_cast this
  have hrle : (r : ℚ) ≤ 2 ^ 32 := by
    have h : r ≤ 2 ^ 32 := hr32.le
    exact_mod_cast h
  have hc := herr (6 / 10) (by norm_num) (by norm_num)
  have hclow : (6 / 10 : ℚ) - (6 / 10) / 2 ^ 53 ≤ fl (6 / 10) := by
    have := (abs_le.mp hc).1
    linarith
  rcases Nat.eq_zero_or_pos f with hf0 | hfpos
  · subst hf0
    simp only [Nat.cast_zero, zero_div, hzero]
    have : (0 : ℚ) < 6 / 10 - (6 / 10) / 2 ^ 53 := by norm_num
    linarith
  · have hf1 : (1 : ℚ) ≤ f := by exact_mod_cast hfpos
    have hlt' : (5 * f + 1 : ℚ) ≤ 3 * r := by
      have : ((5 * f + 1 : ℕ) : ℚ) ≤ ((3 * r : ℕ) : ℚ) := by exact_mod_cast hlt
      push_cast at this
      exact this
    have hxr : (f : ℚ) / r * r = f := by field_simp
    have hxlow : (1 : ℚ) / 2 ^ 32 ≤ (f : ℚ) / r := by
      rw [div_le_div_iff₀ (by positivity) hrpos]
      nlinarith
    have hxhigh : (f : ℚ) / r ≤ 2 ^ 32 := by
      rw [div_le_iff₀ hrpos]
      nlinarith
    have hx := herr ((f : ℚ) / r) hxlow hxhigh
    have hxup : fl ((f : ℚ) / r) ≤ (f : ℚ) / r + (f : ℚ) / r / 2 ^ 53 := by
      have := (abs_le.mp hx).2
      linarith
    have hxbound : (f : ℚ) / r ≤ 6 / 10 - 1 / (5 * r) := by
      rw [div_le_iff₀ hrpos]
      have : (6 / 10 - 1 / (5 * (r : ℚ))) * r = 6 / 10 * r - 1 / 5 := by
        field_simp
        ring
      rw [this]
      linarith
    have hinv : (1 : ℚ) / (5 * 2 ^ 32) ≤ 1 / (5 * r) := by
      apply one_div_le_one_div_of_le (by positivity)
      linarith
    have hxnn : (0 : ℚ) ≤ (f : ℚ) / r := by positivity
    have hstep : (f : ℚ) / r + (f : ℚ) / r / 2 ^ 53 <
        6 / 10 - (6 / 10) / 2 ^ 53 := by
      have h1 : (f : ℚ) / r ≤ 6 / 10 - 1 / (5 * 2 ^ 32) := by linarith
      have h2 : (f : ℚ) / r / 2 ^ 53 ≤ (6 / 10) / 2 ^ 53 := by
        apply div_le_div_of_nonneg_right _ (by positivity)
        linarith [show (0 : ℚ) ≤ 1 / (5 * 2 ^ 32) by positivity]
      have h3 : (6 / 10 : ℚ) - 1 / (5 * 2 ^ 32) + (6 / 10) / 2 ^ 53 <
          6 / 10 - (6 / 10) / 2 ^ 53 := by norm_num
      linarith
    linarith

/-- C17: for every rounding to `float64` and every counts value whose `Requests`
fits `uint32`, the configured `ReadyToTrip` returns true exactly when
`Requests ≥ 3` and `5 * TotalFailures ≥ 3 * Requests`; for `Requests ≥ 3` that
integer test is the test `TotalFailures / Requests ≥ 0.6` on the exact ratio;
and `ReadyToTrip` returns false when `Requests = 0`. -/
theorem circuitbreaker.ReadyToTrip_iff (fl : ℚ → ℚ) (counts : Counts)
    (hfl : Float64Rounding fl) (h32 : counts.Requests < 2 ^ 32) :
    (circuitbreaker.ReadyToTrip fl counts = true ↔
      counts.Requests ≥ 3 ∧ 5 * counts.TotalFailures ≥ 3 * counts.Requests) ∧
    (counts.Requests ≥ 3 →
      (((counts.TotalFailures : ℚ) / (counts.Requests : ℚ) ≥ 6 / 10) ↔
        5 * counts.TotalFailures ≥ 3 * counts.Requests)) ∧
    (counts.Requests = 0 → circuitbreaker.ReadyToTrip fl counts = false) := by
  refine ⟨?_, fun h3 => ratio_ge_iff counts.TotalFailures counts.Requests h3, ?_⟩
  · simp only [circuitbreaker.ReadyToTrip, Bool.and_eq_true, decide_eq_true_eq]
    constructor
    · rintro ⟨h3, hge⟩
      refine ⟨h3, ?_⟩
      by_contra hnot
      have hlt : 5 * counts.TotalFailures < 3 * counts.Requests := by omega
      have := rounded_ratio_lt fl hfl counts.TotalFailures counts.Requests h3 h32 hlt
      exact absurd hge (not_le.mpr this)
    · rintro ⟨h3, hge⟩
      refine ⟨h3, ?_⟩
      exact hfl.1 _ _ ((ratio_ge_iff counts.TotalFailures counts.Requests h3).mpr hge)
  · intro h0
    simp [circuitbreaker.ReadyToTrip, h0]

/-- Witness of C17: three failures in five requests, with the exact quotient. -/
theorem circuitbreaker.ReadyToTrip_iff_witness :
    (circuitbreaker.ReadyToTrip (fun x => x)
        { Requests := 5, TotalSuccesses := 2, TotalFailures := 3, ConsecutiveSuccesses := 0,
          ConsecutiveFailures := 1 } = true ↔
      (5 : ℕ) ≥ 3 ∧ 5 * 3 ≥ 3 * 5) ∧
    ((5 : ℕ) ≥ 3 → ((((3 : ℕ) : ℚ) / ((5 : ℕ) : ℚ) ≥ 6 / 10) ↔ 5 * 3 ≥ 3 * 5)) ∧
    ((5 : ℕ) = 0 →
      circuitbreaker.ReadyToTrip (fun x => x)
        { Requests := 5, TotalSuccesses := 2, TotalFailures := 3, ConsecutiveSuccesses := 0,
          ConsecutiveFailures := 1 } = false) :=
  circuitbreaker.ReadyToTrip_iff (fun x => x)
    { Requests := 5, TotalSuccesses := 2, TotalFailures := 3, ConsecutiveSuccesses := 0,
      ConsecutiveFailures := 1 } float64Rounding_id (by decide)

/-- C18, the code at the failing inputs.  On the counts of a breaker that has
just changed state (gobreaker clears them: all zero), as they are in the open
state, `GetState` reports "closed"; on the counts of a closed breaker after one
failed request it reports "half-open"; and it reports "open" only for counts
with more consecutive failures than requests, which gobreaker never holds. -/
theorem CircuitBreakerClient.GetState_misreports :
    CircuitBreakerClient.GetState
        { Requests := 0, TotalSuccesses := 0, TotalFailures := 0, ConsecutiveSuccesses := 0,
          ConsecutiveFailures := 0 }
      = "state: closed, requests: 0, failures: 0, successes: 0" ∧
    gobreaker.State.name gobreaker.State.StateOpen = "open" ∧
    CircuitBreakerClient.GetState
        { Requests := 1, TotalSuccesses := 0, TotalFailures := 1, ConsecutiveSuccesses := 0,
          ConsecutiveFailures := 1 }
      = "state: half-open, requests: 1, failures: 1, successes: 0" ∧
    (∀ counts : Counts, circuitbreaker.stateName counts = "open" →
      counts.Requests < counts.ConsecutiveFailures) := by
  refine ⟨by decide, rfl, by decide, ?_⟩
  intro counts h
  unfold circuitbreaker.stateName at h
  split_ifs at h with h1 h2
  · omega
  · exact absurd h (by decide)
  · exact absurd h (by decide)

/-! ## Request validation -/

theorem wrapf_not_wallet_validation (f : String) (c : Err) :
    Err.wrapf f c ∉ walletValidationErrors := by
  simp [walletValidationErrors]

theorem errorf_not_wallet_validation (f : String) (args : List FmtArg)
    (hf : f ∉ ["userID is required", "amount must be greater than 0", "paymentID is required"]) :
    Err.errorf f args ∉ walletValidationErrors := by
  simp only [List.mem_cons, List.mem_singleton, List.not_mem_nil, or_false, not_or] at hf
  simp [walletValidationErrors, hf]

theorem WalletRepository.CreateWallet_error (s : Store) (wallet : Wallet) (ok : Bool) (e : Err)
    (h : (WalletRepository.CreateWallet s wallet ok).1 = some e) :
    e ∉ walletValidationErrors := by
  unfold WalletRepository.CreateWallet at h
  cases ok
  · simp only [Bool.false_eq_true, if_false, Option.some.injEq] at h
    subst h
    exact wrapf_not_wallet_validation _ _
  · cases hp : putItemIf WalletItem.UserID Option.isNone wallet.toItem s.wallets with
    | none =>
      simp only [hp, if_true, Option.some.injEq] at h
      subst h
      exact errorf_not_wallet_validation _ _ (by decide)
    | some tbl => simp [hp] at h

theorem WalletRepository.GetWallet_error (s : Store) (u : String) (env : WalletEnv) (e : Err)
    (h : (WalletRepository.GetWallet s u env).1 = Except.error e) :
    e ∉ walletValidationErrors := by
  unfold WalletRepository.GetWallet at h
  cases hg : env.getOk
  · simp only [hg, Bool.false_eq_true, if_false, Except.error.injEq] at h
    subst h
    exact wrapf_not_wallet_validation _ _
  · cases hit : getItem WalletItem.UserID u s.wallets with
    | some it => simp [hg, hit] at h
    | none =>
      simp only [hg, if_true, hit] at h
      rcases hc : WalletRepository.CreateWallet (env.between s)
        { UserID := u, Balance := 1000, Currency := "USD", Version := 0,
          CreatedAt := env.now, UpdatedAt := env.now } env.createOk with ⟨eo, s1⟩
      rw [hc] at h
      cases eo with
      | none => simp at h
      | some e1 =>
        simp only [Except.error.injEq] at h
        subst h
        exact WalletRepository.CreateWallet_error (env.between s) _ env.createOk e1
          (by rw [hc])

theorem WalletRepository.debitWrite_error (s : Store) (wallet : Wallet) (u : String) (a : ℚ)
    (p : String) (env : WalletEnv) (e : Err)
    (h : (WalletRepository.debitWrite s wallet u a p env).1 = Except.error e) :
    e ∉ walletValidationErrors := by
  unfold WalletRepository.debitWrite at h
  cases hu : env.updateOk
  · simp only [hu, Bool.false_eq_true, if_false, Except.error.injEq] at h
    subst h
    exact wrapf_not_wallet_validation _ _
  · simp only [hu, if_true] at h
    split at h
    · simp at h
    · simp only [Except.error.injEq] at h
      subst h
      exact errorf_not_wallet_validation _ _ (by decide)

theorem WalletRepository.creditWrite_error (s : Store) (wallet : Wallet) (u : String)
    (a : ℚ) (p : String) (env : WalletEnv) (e : Err)
    (h : (WalletRepository.creditWrite s wallet u a p env).1 = Except.error e) :
    e ∉ walletValidationErrors := by
  unfold WalletRepository.creditWrite at h
  cases hu : env.updateOk
  · simp only [hu, Bool.false_eq_true, if_false, Except.error.injEq] at h
    subst h
    exact wrapf_not_wallet_validation _ _
  · simp only [hu, if_true] at h
    split at h
    · simp at h
    · simp only [Except.error.injEq] at h
      subst h
      exact errorf_not_wallet_validation _ _ (by decide)

theorem WalletRepository.DebitWallet_error (s : Store) (u : String) (a : ℚ) (p : String)
    (env : WalletEnv) (e : Err)
    (h : (WalletRepository.DebitWallet s u a p env).1 = Except.error e) :
    e ∉ walletValidationErrors := by
  unfold WalletRepository.DebitWallet at h
  rcases hgw : WalletRepository.GetWallet s u env with ⟨r, s1⟩
  rw [hgw] at h
  cases r with
  | error e1 =>
    simp only [Except.error.injEq] at h
    subst h
    exact WalletRepository.GetWallet_error s u env e1 (by rw [hgw])
  | ok wallet =>
    simp only at h
    split_ifs at h
    · simp only [Except.error.injEq] at h
      subst h
      exact errorf_not_wallet_validation _ _ (by decide)
    · exact WalletRepository.debitWrite_error s1 wallet u a p env e h

theorem WalletRepository.CreditWallet_error (s : Store) (u : String) (a : ℚ) (p : String)
    (env : WalletEnv) (e : Err)
    (h : (WalletRepository.CreditWallet s u a p env).1 = Except.error e) :
    e ∉ walletValidationErrors := by
  unfold WalletRepository.CreditWallet at h
  rcases hgw : WalletRepository.GetWallet s u env with ⟨r, s1⟩
  rw [hgw] at h
  cases r with
  | error e1 =>
    simp only [Except.error.injEq] at h
    subst h
    exact WalletRepository.GetWallet_error s u env e1 (by rw [hgw])
  | ok wallet => exact WalletRepository.creditWrite_error s1 wallet u a p env e h

theorem WalletService.getOrCreate_error (s : Store) (u : String) (read : WalletEnv)
    (fallbackOk : Bool) (e : Err)
    (h : (WalletService.getOrCreate s u read fallbackOk).1 = Except.error e) :
    e ∉ walletValidationErrors := by
  unfold WalletService.getOrCreate at h
  rcases hgw : WalletRepository.GetWallet s u read with ⟨r, s1⟩
  rw [hgw] at h
  cases r with
  | ok wallet => simp at h
  | error e1 =>
    simp only at h
    split at h
    · simp only [Except.error.injEq] at h
      subst h
      exact wrapf_not_wallet_validation _ _
    · simp at h

theorem WalletService.DebitWallet_valid_error (s : Store) (req : DebitRequest)
    (env : DebitServiceEnv) (e : Err)
    (hv : WalletService.validateDebitRequest req = none)
    (h : (WalletService.DebitWallet s req env).1 = Except.error e) :
    e ∉ walletValidationErrors := by
  unfold WalletService.DebitWallet at h
  rw [hv] at h
  simp only at h
  rcases hgc : WalletService.getOrCreate s req.UserID env.read env.fallbackOk with ⟨r, s1⟩
  rw [hgc] at h
  cases r with
  | error e1 =>
    simp only [Except.error.injEq] at h
    subst h
    exact WalletService.getOrCreate_error s req.UserID env.read env.fallbackOk e1
      (by rw [hgc])
  | ok wallet =>
    simp only at h
    split_ifs at h
    · simp only [Except.error.injEq] at h
      subst h
      exact errorf_not_wallet_validation _ _ (by decide)
    · rcases hd : WalletRepository.DebitWallet s1 req.UserID req.Amount req.PaymentID
        env.debit with ⟨r2, s2⟩
      rw [hd] at h
      cases r2 with
      | error e2 =>
        simp only [Except.error.injEq] at h
        subst h
        exact WalletRepository.DebitWallet_error s1 req.UserID req.Amount req.PaymentID
          env.debit e2 (by rw [hd])
      | ok tx =>
        simp only at h
        split at h
        · simp only [Except.error.injEq] at h
          subst h
          exact wrapf_not_wallet_validation _ _
        · simp at h

theorem WalletService.CreditWallet_valid_error (s : Store) (req : CreditRequest)
    (env : CreditServiceEnv) (e : Err)
    (hv : WalletService.validateCreditRequest req = none)
    (h : (WalletService.CreditWallet s req env).1 = Except.error e) :
    e ∉ walletValidationErrors := by
  unfold WalletService.CreditWallet at h
  rw [hv] at h
  simp only at h
  rcases hgc : WalletService.getOrCreate s req.UserID env.read env.fallbackOk with ⟨r, s1⟩
  rw [hgc] at h
  cases r with
  | error e1 =>
    simp only [Except.error.injEq] at h
    subst h
    exact WalletService.getOrCreate_error s req.UserID env.read env.fallbackOk e1
      (by rw [hgc])
  | ok wallet =>
    simp only at h
    rcases hd : WalletRepository.CreditWallet s1 req.UserID req.Amount req.PaymentID
      env.credit with ⟨r2, s2⟩
    rw [hd] at h
    cases r2 with
    | error e2 =>
      simp only [Except.error.injEq] at h
      subst h
      exact WalletRepository.CreditWallet_error s1 req.UserID req.Amount req.PaymentID
        env.credit e2 (by rw [hd])
    | ok tx =>
      simp only at h
      split at h
      · simp only [Except.error.injEq] at h
        subst h
        exact wrapf_not_wallet_validation _ _
      · simp at h

/-- C20: `WalletService.DebitWallet` and `WalletService.CreditWallet` return, for
every store and every outcome of the SDK calls, the error "userID is required"
when the user ID is empty, else "amount must be greater than 0" when the amount
is not positive, else "paymentID is required" when the payment ID is empty, in
each case with every table as it was; and for a request with none of the three
defects no error they return is one of these three. -/
theorem WalletService.validation (s : Store) (dreq : DebitRequest) (denv : DebitServiceEnv)
    (creq : CreditRequest) (cenv : CreditServiceEnv) :
    ((dreq.UserID = "" → WalletService.DebitWallet s dreq denv =
        (Except.error (Err.errorf "userID is required" []), s)) ∧
      (dreq.UserID ≠ "" → dreq.Amount ≤ 0 → WalletService.DebitWallet s dreq denv =
        (Except.error (Err.errorf "amount must be greater than 0" []), s)) ∧
      (dreq.UserID ≠ "" → 0 < dreq.Amount → dreq.PaymentID = "" →
        WalletService.DebitWallet s dreq denv =
          (Except.error (Err.errorf "paymentID is required" []), s)) ∧
      (dreq.UserID ≠ "" → 0 < dreq.Amount → dreq.PaymentID ≠ "" →
        ∀ e, (WalletService.DebitWallet s dreq denv).1 = Except.error e →
          e ∉ walletValidationErrors)) ∧
    ((creq.UserID = "" → WalletService.CreditWallet s creq cenv =
        (Except.error (Err.errorf "userID is required" []), s)) ∧
      (creq.UserID ≠ "" → creq.Amount ≤ 0 → WalletService.CreditWallet s creq cenv =
        (Except.error (Err.errorf "amount must be greater than 0" []), s)) ∧
      (creq.UserID ≠ "" → 0 < creq.Amount → creq.PaymentID = "" →
        WalletService.CreditWallet s creq cenv =
          (Except.error (Err.errorf "paymentID is required" []), s)) ∧
      (creq.UserID ≠ "" → 0 < creq.Amount → creq.PaymentID ≠ "" →
        ∀ e, (WalletService.CreditWallet s creq cenv).1 = Except.error e →
          e ∉ walletValidationErrors)) := by
  refine ⟨⟨?_, ?_, ?_, ?_⟩, ?_, ?_, ?_, ?_⟩
  · intro h
    simp [WalletService.DebitWallet, WalletService.validateDebitRequest, h]
  · intro h1 h2
    simp [WalletService.DebitWallet, WalletService.validateDebitRequest, h1, h2]
  · intro h1 h2 h3
    simp [WalletService.DebitWallet, WalletService.validateDebitRequest, h1, not_le.mpr h2, h3]
  · intro h1 h2 h3 e he
    exact WalletService.DebitWallet_valid_error s dreq denv e
      (by simp [WalletService.validateDebitRequest, h1, not_le.mpr h2, h3]) he
  · intro h
    simp [WalletService.CreditWallet, WalletService.validateCreditRequest, h]
  · intro h1 h2
    simp [WalletService.CreditWallet, WalletService.validateCreditRequest, h1, h2]
  · intro h1 h2 h3
    simp [WalletService.CreditWallet, WalletService.validateCreditRequest, h1, not_le.mpr h2,
      h3]
  · intro h1 h2 h3 e he
    exact WalletService.CreditWallet_valid_error s creq cenv e
      (by simp [WalletService.validateCreditRequest, h1, not_le.mpr h2, h3]) he

theorem wrapf_not_payment_validation (f : String) (c : Err) :
    Err.wrapf f c ∉ paymentValidationErrors := by
  simp [paymentValidationErrors]

theorem PaymentService.createNew_error (s : Store) (req : CreatePaymentRequest)
    (env : CreateEnv) (e : Err)
    (h : (PaymentService.createNew s req env).1 = Except.error e) :
    e ∉ paymentValidationErrors := by
  unfold PaymentService.createNew at h
  split at h
  · simp only [Except.error.injEq] at h
    subst h
    exact wrapf_not_payment_validation _ _
  · simp at h

theorem PaymentService.CreatePayment_valid_error (s : Store) (req : CreatePaymentRequest)
    (env : CreateEnv) (e : Err)
    (hv : PaymentService.validateCreatePaymentRequest req = none)
    (h : (PaymentService.CreatePayment s req env).1 = Except.error e) :
    e ∉ paymentValidationErrors := by
  unfold PaymentService.CreatePayment at h
  rw [hv] at h
  simp only at h
  split_ifs at h
  · split at h
    · exact PaymentService.createNew_error s req env e h
    · simp at h
    · exact PaymentService.createNew_error s req env e h
  · exact PaymentService.createNew_error s req env e h

/-- C19 (amended): `PaymentService.CreatePayment` returns, for every store and
every outcome of the SDK calls, the error "user ID is required" when the user ID
is empty, else "amount must be greater than 0" when the amount is not positive,
else "invalid currency format" when the currency is not 3 bytes long, in each
case with every table as it was; and for a request with none of the three
defects no error it returns is one of these three. -/
theorem PaymentService.CreatePayment_validation (s : Store) (req : CreatePaymentRequest)
    (env : CreateEnv) :
    (req.UserID = "" → PaymentService.CreatePayment s req env =
      (Except.error (Err.errorf "user ID is required" []), s)) ∧
    (req.UserID ≠ "" → req.Amount ≤ 0 → PaymentService.CreatePayment s req env =
      (Except.error (Err.errorf "amount must be greater than 0" []), s)) ∧
    (req.UserID ≠ "" → 0 < req.Amount → req.Currency.utf8ByteSize ≠ 3 →
      PaymentService.CreatePayment s req env =
        (Except.error (Err.errorf "invalid currency format" []), s)) ∧
    (req.UserID ≠ "" → 0 < req.Amount → req.Currency.utf8ByteSize = 3 →
      ∀ e, (PaymentService.CreatePayment s req env).1 = Except.error e →
        e ∉ paymentValidationErrors) := by
  refine ⟨?_, ?_, ?_, ?_⟩
  · intro h
    simp [PaymentService.CreatePayment, PaymentService.validateCreatePaymentRequest, h]
  · intro h1 h2
    simp [PaymentService.CreatePayment, PaymentService.validateCreatePaymentRequest, h1, h2]
  · intro h1 h2 h3
    simp [PaymentService.CreatePayment, PaymentService.validateCreatePaymentRequest, h1,
      not_le.mpr h2, h3]
  · intro h1 h2 h3 e he
    have hne : req.Currency ≠ "" := by
      intro hc
      rw [hc] at h3
      exact absurd h3 (by decide)
    exact PaymentService.CreatePayment_valid_error s req env e
      (by simp [PaymentService.validateCreatePaymentRequest, h1, not_le.mpr h2, h3, hne]) he

/-- Counterexample to C19 as stated: the currency "€" is one character long, not
three, and a request with it is created without error (it is 3 bytes long);
the currency "ab€" is exactly three characters long and a request with it
fails with "invalid currency format" (it is 5 bytes long). -/
theorem PaymentService.CreatePayment_currency_bytes :
    ("€".length = 1 ∧
      (PaymentService.CreatePayment emptyStore (requestIn "€") (createEnvOk "p1")).1.toBool
        = true) ∧
    ("ab€".length = 3 ∧
      PaymentService.CreatePayment emptyStore (requestIn "ab€") (createEnvOk "p1") =
        (Except.error (Err.errorf "invalid currency format" []), emptyStore)) := by
  have hb : ¬ "ab€".utf8ByteSize = 3 := by decide
  have h100 : ¬ (100 : ℚ) ≤ 0 := by norm_num
  refine ⟨⟨by decide, by decide⟩, by decide, ?_⟩
  simp [PaymentService.CreatePayment, PaymentService.validateCreatePaymentRequest, requestIn,
    hb, h100]

/-! ## Refund saga: request validation -/

theorem wrapf_not_refund_validation (f : String) (c : Err) :
    Err.wrapf f c ∉ refundValidationErrors := by
  simp [refundValidationErrors]

theorem RefundService.creditAndMark_error (s : Store) (payment : Payment) (req : RefundRequest)
    (env : RefundEnv) (e : Err)
    (h : (RefundService.creditAndMark s payment req env).1 = Except.error e) :
    e ∉ refundValidationErrors := by
  unfold RefundService.creditAndMark at h
  split at h
  · simp only [Except.error.injEq] at h
    subst h
    exact wrapf_not_refund_validation _ _
  · simp at h

theorem RefundService.ProcessRefund_valid_error (s : Store) (req : RefundRequest)
    (env : RefundEnv) (e : Err)
    (hv : RefundService.validateRefundRequest req = none)
    (h : (RefundService.ProcessRefund s req env).1 = Except.error e) :
    e ∉ refundValidationErrors := by
  unfold RefundService.ProcessRefund at h
  rw [hv] at h
  simp only at h
  split at h
  · simp only [Except.error.injEq] at h
    subst h
    exact wrapf_not_refund_validation _ _
  · split_ifs at h
    · simp only [Except.error.injEq] at h
      subst h
      simp [refundValidationErrors]
    · simp only [Except.error.injEq] at h
      subst h
      simp [refundValidationErrors]
    · simp only [Except.error.injEq] at h
      subst h
      simp [refundValidationErrors]
    · exact RefundService.creditAndMark_error s _ req env e h

/-- C21: `RefundService.ProcessRefund` returns, for every store and every outcome
of the SDK calls, the error "payment_id is required" when the payment ID is
empty, else "amount must be greater than 0" when the amount is not positive,
else "reason is required" when the reason is empty, in each case with every
table as it was; and for a request with none of the three defects no error it
returns is one of these three. -/
theorem RefundService.ProcessRefund_validation (s : Store) (req : RefundRequest)
    (env : RefundEnv) :
    (req.PaymentID = "" → RefundService.ProcessRefund s req env =
      (Except.error (Err.errorf "payment_id is required" []), s)) ∧
    (req.PaymentID ≠ "" → req.Amount ≤ 0 → RefundService.ProcessRefund s req env =
      (Except.error (Err.errorf "amount must be greater than 0" []), s)) ∧
    (req.PaymentID ≠ "" → 0 < req.Amount → req.Reason = "" →
      RefundService.ProcessRefund s req env =
        (Except.error (Err.errorf "reason is required" []), s)) ∧
    (req.PaymentID ≠ "" → 0 < req.Amount → req.Reason ≠ "" →
      ∀ e, (RefundService.ProcessRefund s req env).1 = Except.error e →
        e ∉ refundValidationErrors) := by
  refine ⟨?_, ?_, ?_, ?_⟩
  · intro h
    simp [RefundService.ProcessRefund, RefundService.validateRefundRequest, h]
  · intro h1 h2
    simp [RefundService.ProcessRefund, RefundService.validateRefundRequest, h1, h2]
  · intro h1 h2 h3
    simp [RefundService.ProcessRefund, RefundService.validateRefundRequest, h1,
      not_le.mpr h2, h3]
  · intro h1 h2 h3 e he
    exact RefundService.ProcessRefund_valid_error s req env e
      (by simp [RefundService.validateRefundRequest, h1, not_le.mpr h2, h3]) he

/-! ## Payment ledger: reading a payment -/

/-- C27: `PaymentService.GetPayment`, the `GetItem` call going through, returns
the stored payment when the table holds a record under the non-empty ID, and
returns the error "payment not found: <id>" and no payment when it holds none;
for the empty ID it returns the error "payment ID is required" and no payment,
whatever the table holds and whatever the `GetItem` call would do. -/
theorem PaymentService.GetPayment_cases (s : Store) (paymentID : String) :
    (∀ payment, paymentID ≠ "" → getItem Payment.ID paymentID s.payments = some payment →
      PaymentService.GetPayment s paymentID true = Except.ok payment) ∧
    (paymentID ≠ "" → getItem Payment.ID paymentID s.payments = none →
      PaymentService.GetPayment s paymentID true =
        Except.error (Err.errorf "payment not found: %s" [FmtArg.str paymentID])) ∧
    (∀ (s2 : Store) (ok : Bool), PaymentService.GetPayment s2 "" ok =
      Except.error (Err.errorf "payment ID is required" [])) := by
  refine ⟨?_, ?_, ?_⟩
  · intro payment hne hp
    simp [PaymentService.GetPayment, PaymentRepository.GetPayment, hne, hp]
  · intro hne hp
    simp [PaymentService.GetPayment, PaymentRepository.GetPayment, hne, hp]
  · intro s2 ok
    simp [PaymentService.GetPayment]

/-! ## Gateway adapter: request validation -/

theorem CircuitBreakerClient.ProcessPayment_breakerCalls (payment : Payment)
    (outcome : BreakerOutcome) :
    (CircuitBreakerClient.ProcessPayment payment outcome).2.breakerCalls = 1 := by
  unfold CircuitBreakerClient.ProcessPayment
  split <;> rfl

theorem PaymentAdapterService.ProcessPayment_valid (req : ProcessPaymentRequest)
    (outcome : BreakerOutcome)
    (hv : PaymentAdapterService.validateProcessPaymentRequest req = none) :
    (PaymentAdapterService.ProcessPayment req outcome).2.breakerCalls = 1 ∧
    ∀ e, (PaymentAdapterService.ProcessPayment req outcome).1 = Except.error e →
      e ∉ adapterValidationErrors := by
  have hb := CircuitBreakerClient.ProcessPayment_breakerCalls
    (PaymentAdapterService.toPayment req) outcome
  unfold PaymentAdapterService.ProcessPayment
  rw [hv]
  simp only
  rcases hc : CircuitBreakerClient.ProcessPayment (PaymentAdapterService.toPayment req)
    outcome with ⟨r, t⟩
  rw [hc] at hb
  cases r with
  | error err =>
    refine ⟨hb, ?_⟩
    intro e he
    simp only [Except.error.injEq] at he
    subst he
    simp [adapterValidationErrors]
  | ok resp =>
    refine ⟨hb, ?_⟩
    intro e he
    simp at he

/-- C22: `PaymentAdapterService.ProcessPayment` returns no response and, without
entering the breaker and without a call to the gateway, the error "paymentID is
required" when the payment ID is empty, else "userID is required" when the user
ID is empty, else "amount must be greater than 0" when the amount is not
positive, else "invalid currency format" when the currency is not 3 bytes
long, whatever the breaker would do; and a request with none of the four
defects enters the breaker once and no error it gets back is one of these
four. -/
theorem PaymentAdapterService.ProcessPayment_validation (req : ProcessPaymentRequest)
    (outcome : BreakerOutcome) :
    (req.PaymentID = "" → PaymentAdapterService.ProcessPayment req outcome =
      (Except.error (Err.errorf "paymentID is required" []),
        { breakerCalls := 0, gatewayCalls := [] })) ∧
    (req.PaymentID ≠ "" → req.UserID = "" →
      PaymentAdapterService.ProcessPayment req outcome =
        (Except.error (Err.errorf "userID is required" []),
          { breakerCalls := 0, gatewayCalls := [] })) ∧
    (req.PaymentID ≠ "" → req.UserID ≠ "" → req.Amount ≤ 0 →
      PaymentAdapterService.ProcessPayment req outcome =
        (Except.error (Err.errorf "amount must be greater than 0" []),
          { breakerCalls := 0, gatewayCalls := [] })) ∧
    (req.PaymentID ≠ "" → req.UserID ≠ "" → 0 < req.Amount →
      req.Currency.utf8ByteSize ≠ 3 →
      PaymentAdapterService.ProcessPayment req outcome =
        (Except.error (Err.errorf "invalid currency format" []),
          { breakerCalls := 0, gatewayCalls := [] })) ∧
    (req.PaymentID ≠ "" → req.UserID ≠ "" → 0 < req.Amount →
      req.Currency.utf8ByteSize = 3 →
      (PaymentAdapterService.ProcessPayment req outcome).2.breakerCalls = 1 ∧
      ∀ e, (PaymentAdapterService.ProcessPayment req outcome).1 = Except.error e →
        e ∉ adapterValidationErrors) := by
  refine ⟨?_, ?_, ?_, ?_, ?_⟩
  · intro h
    simp [PaymentAdapterService.ProcessPayment,
      PaymentAdapterService.validateProcessPaymentRequest, h]
  · intro h1 h2
    simp [PaymentAdapterService.ProcessPayment,
      PaymentAdapterService.validateProcessPaymentRequest, h1, h2]
  · intro h1 h2 h3
    simp [PaymentAdapterService.ProcessPayment,
      PaymentAdapterService.validateProcessPaymentRequest, h1, h2, h3]
  · intro h1 h2 h3 h4
    simp [PaymentAdapterService.ProcessPayment,
      PaymentAdapterService.validateProcessPaymentRequest, h1, h2, not_le.mpr h3, h4]
  · intro h1 h2 h3 h4
    have hne : req.Currency ≠ "" := by
      intro hc
      rw [hc] at h4
      exact absurd h4 (by decide)
    exact PaymentAdapterService.ProcessPayment_valid req outcome
      (by simp [PaymentAdapterService.validateProcessPaymentRequest, h1, h2, not_le.mpr h3,
        h4, hne])

/-! ## Payment ledger: a status update for an unknown payment -/

theorem PaymentService.UpdatePaymentStatus_write_failed (s : Store) (paymentID : String)
    (status : PaymentStatus) (externalID : String) (env : UpdateStatusEnv)
    (hu : env.updateOk = false) :
    PaymentService.UpdatePaymentStatus s paymentID status externalID env =
      (Except.error (Err.wrapf "failed to update payment status: %w"
        (Err.wrapf "failed to update payment status: %w" Err.sdk)), s) := by
  simp [PaymentService.UpdatePaymentStatus, PaymentRepository.UpdatePaymentStatus, hu]

/-- C23, the code at the failing input: no payment is stored under `pay9`, and
`PaymentService.UpdatePaymentStatus` for `pay9`, both SDK calls going through,
returns no error but the payment `ghostPayment`, which it has created in the
payments table.  (When the write does not go through, the call does fail, with
the wrapped SDK error, and leaves the table as it was.) -/
theorem PaymentService.UpdatePaymentStatus_creates_record :
    getItem Payment.ID "pay9" emptyStore.payments = none ∧
    (PaymentService.UpdatePaymentStatus emptyStore "pay9" PaymentStatusCompleted "ext_9"
      updateStatusEnvOk).1.toOption = some ghostPayment ∧
    (PaymentService.UpdatePaymentStatus emptyStore "pay9" PaymentStatusCompleted "ext_9"
      updateStatusEnvOk).2 = { emptyStore with payments := [ghostPayment] } ∧
    PaymentService.UpdatePaymentStatus emptyStore "pay9" PaymentStatusCompleted "ext_9"
      { updateOk := false, getOk := true, now := 7 } =
      (Except.error (Err.wrapf "failed to update payment status: %w"
        (Err.wrapf "failed to update payment status: %w" Err.sdk)), emptyStore) := by
  refine ⟨by decide, by decide, by decide, ?_⟩
  exact PaymentService.UpdatePaymentStatus_write_failed _ _ _ _ _ rfl

/-! ## Audit events are best effort -/

theorem PaymentRepository.CreatePayment_event_outcome (s : Store) (payment : Payment)
    (env : CreateEnv) (b : Bool) :
    (PaymentRepository.CreatePayment s payment { env with eventOk := b }).1 =
      (PaymentRepository.CreatePayment s payment env).1 ∧
    (PaymentRepository.CreatePayment s payment { env with eventOk := b }).2.1 =
      (PaymentRepository.CreatePayment s payment env).2.1 ∧
    (PaymentRepository.CreatePayment s payment { env with eventOk := b }).2.2.payments =
      (PaymentRepository.CreatePayment s payment env).2.2.payments := by
  unfold PaymentRepository.CreatePayment PaymentRepository.recordEvent
  cases hp : env.putOk <;> cases he : env.eventOk <;> cases b <;>
    simp [PaymentRepository.fillDefaults]

theorem WalletRepository.debitWrite_event_outcome (s : Store) (wallet : Wallet)
    (userID : String) (amount : ℚ) (paymentID : String) (env : WalletEnv) (b : Bool) :
    (WalletRepository.debitWrite s wallet userID amount paymentID
        { env with eventOk := b }).1 =
      (WalletRepository.debitWrite s wallet userID amount paymentID env).1 ∧
    (WalletRepository.debitWrite s wallet userID amount paymentID
        { env with eventOk := b }).2.wallets =
      (WalletRepository.debitWrite s wallet userID amount paymentID env).2.wallets := by
  unfold WalletRepository.debitWrite WalletRepository.recordEvent
  cases hu : env.updateOk
  · simp
  · simp only [if_true]
    split
    · cases he : env.eventOk <;> cases b <;> simp
    · simp

theorem WalletRepository.creditWrite_event_outcome (s : Store) (wallet : Wallet)
    (userID : String) (amount : ℚ) (paymentID : String) (env : WalletEnv) (b : Bool) :
    (WalletRepository.creditWrite s wallet userID amount paymentID
        { env with eventOk := b }).1 =
      (WalletRepository.creditWrite s wallet userID amount paymentID env).1 ∧
    (WalletRepository.creditWrite s wallet userID amount paymentID
        { env with eventOk := b }).2.wallets =
      (WalletRepository.creditWrite s wallet userID amount paymentID env).2.wallets := by
  unfold WalletRepository.creditWrite WalletRepository.recordEvent
  cases hu : env.updateOk
  · simp
  · simp only [if_true]
    split
    · cases he : env.eventOk <;> cases b <;> simp
    · simp

theorem WalletRepository.GetWallet_event_outcome (s : Store) (userID : String)
    (env : WalletEnv) (b : Bool) :
    WalletRepository.GetWallet s userID { env with eventOk := b } =
      WalletRepository.GetWallet s userID env := rfl

theorem WalletRepository.DebitWallet_event_outcome (s : Store) (userID : String) (amount : ℚ)
    (paymentID : String) (env : WalletEnv) (b : Bool) :
    (WalletRepository.DebitWallet s userID amount paymentID { env with eventOk := b }).1 =
      (WalletRepository.DebitWallet s userID amount paymentID env).1 ∧
    (WalletRepository.DebitWallet s userID amount paymentID
        { env with eventOk := b }).2.wallets =
      (WalletRepository.DebitWallet s userID amount paymentID env).2.wallets := by
  unfold WalletRepository.DebitWallet
  rw [WalletRepository.GetWallet_event_outcome]
  rcases WalletRepository.GetWallet s userID env with ⟨r, s1⟩
  cases r with
  | error e => exact ⟨rfl, rfl⟩
  | ok wallet =>
    simp only
    split_ifs
    · exact ⟨rfl, rfl⟩
    · exact WalletRepository.debitWrite_event_outcome s1 wallet userID amount paymentID env b

theorem WalletRepository.CreditWallet_event_outcome (s : Store) (userID : String)
    (amount : ℚ) (paymentID : String) (env : WalletEnv) (b : Bool) :
    (WalletRepository.CreditWallet s userID amount paymentID { env with eventOk := b }).1 =
      (WalletRepository.CreditWallet s userID amount paymentID env).1 ∧
    (WalletRepository.CreditWallet s userID amount paymentID
        { env with eventOk := b }).2.wallets =
      (WalletRepository.CreditWallet s userID amount paymentID env).2.wallets := by
  unfold WalletRepository.CreditWallet
  rw [WalletRepository.GetWallet_event_outcome]
  rcases WalletRepository.GetWallet s userID env with ⟨r, s1⟩
  cases r with
  | error e => exact ⟨rfl, rfl⟩
  | ok wallet =>
    exact WalletRepository.creditWrite_event_outcome s1 wallet userID amount paymentID env b

theorem RefundService.creditAndMark_event_outcome (s : Store) (payment : Payment)
    (req : RefundRequest) (env : RefundEnv) (b : Bool) :
    (RefundService.creditAndMark s payment req { env with eventOk := b }).1 =
      (RefundService.creditAndMark s payment req env).1 ∧
    (RefundService.creditAndMark s payment req { env with eventOk := b }).2.payments =
      (RefundService.creditAndMark s payment req env).2.payments ∧
    (RefundService.creditAndMark s payment req { env with eventOk := b }).2.wallets =
      (RefundService.creditAndMark s payment req env).2.wallets := by
  unfold RefundService.creditAndMark
  simp only
  rcases RefundRepository.CreditWallet s payment.UserID req.Amount env.creditOk with ⟨eo, s1⟩
  cases eo with
  | some e => exact ⟨rfl, rfl, rfl⟩
  | none =>
    simp only [RefundRepository.LogPaymentEvent]
    cases he : env.eventOk <;> cases b <;> simp

theorem RefundService.ProcessRefund_event_outcome (s : Store) (req : RefundRequest)
    (env : RefundEnv) (b : Bool) :
    (RefundService.ProcessRefund s req { env with eventOk := b }).1 =
      (RefundService.ProcessRefund s req env).1 ∧
    (RefundService.ProcessRefund s req { env with eventOk := b }).2.payments =
      (RefundService.ProcessRefund s req env).2.payments ∧
    (RefundService.ProcessRefund s req { env with eventOk := b }).2.wallets =
      (RefundService.ProcessRefund s req env).2.wallets := by
  unfold RefundService.ProcessRefund
  split
  · exact ⟨rfl, rfl, rfl⟩
  · simp only
    split
    · exact ⟨rfl, rfl, rfl⟩
    · split_ifs
      · exact ⟨rfl, rfl, rfl⟩
      · exact ⟨rfl, rfl, rfl⟩
      · exact ⟨rfl, rfl, rfl⟩
      · exact RefundService.creditAndMark_event_outcome s _ req env b

/-- C24: for every store, every input and every outcome of the other SDK calls,
`PaymentRepository.CreatePayment`, `WalletRepository.DebitWallet`,
`WalletRepository.CreditWallet` and `RefundService.ProcessRefund` return the
same result and the same error, and leave the same payments and wallets, when
the write of the audit event fails as when it goes through; and a
`CreatePayment` whose payment write goes through returns no error even when
the event write fails. -/
theorem audit_event_best_effort (s : Store) (payment : Payment) (cenv : CreateEnv)
    (userID : String) (amount : ℚ) (paymentID : String) (wenv : WalletEnv)
    (req : RefundRequest) (renv : RefundEnv) :
    ((PaymentRepository.CreatePayment s payment { cenv with eventOk := false }).1 =
        (PaymentRepository.CreatePayment s payment { cenv with eventOk := true }).1 ∧
      (PaymentRepository.CreatePayment s payment { cenv with eventOk := false }).2.1 =
        (PaymentRepository.CreatePayment s payment { cenv with eventOk := true }).2.1 ∧
      (PaymentRepository.CreatePayment s payment { cenv with eventOk := false }).2.2.payments =
        (PaymentRepository.CreatePayment s payment { cenv with eventOk := true }).2.2.payments ∧
      (cenv.putOk = true →
        (PaymentRepository.CreatePayment s payment { cenv with eventOk := false }).2.1
          = none)) ∧
    ((WalletRepository.DebitWallet s userID amount paymentID
          { wenv with eventOk := false }).1 =
        (WalletRepository.DebitWallet s userID amount paymentID
          { wenv with eventOk := true }).1 ∧
      (WalletRepository.DebitWallet s userID amount paymentID
          { wenv with eventOk := false }).2.wallets =
        (WalletRepository.DebitWallet s userID amount paymentID
          { wenv with eventOk := true }).2.wallets) ∧
    ((WalletRepository.CreditWallet s userID amount paymentID
          { wenv with eventOk := false }).1 =
        (WalletRepository.CreditWallet s userID amount paymentID
          { wenv with eventOk := true }).1 ∧
      (WalletRepository.CreditWallet s userID amount paymentID
          { wenv with eventOk := false }).2.wallets =
        (WalletRepository.CreditWallet s userID amount paymentID
          { wenv with eventOk := true }).2.wallets) ∧
    ((RefundService.ProcessRefund s req { renv with eventOk := false }).1 =
        (RefundService.ProcessRefund s req { renv with eventOk := true }).1 ∧
      (RefundService.ProcessRefund s req { renv with eventOk := false }).2.payments =
        (RefundService.ProcessRefund s req { renv with eventOk := true }).2.payments ∧
      (RefundService.ProcessRefund s req { renv with eventOk := false }).2.wallets =
        (RefundService.ProcessRefund s req { renv with eventOk := true }).2.wallets) := by
  have hc := fun b => PaymentRepository.CreatePayment_event_outcome s payment cenv b
  have hd := fun b => WalletRepository.DebitWallet_event_outcome s userID amount paymentID wenv b
  have hk := fun b =>
    WalletRepository.CreditWallet_event_outcome s userID amount paymentID wenv b
  have hr := fun b => RefundService.ProcessRefund_event_outcome s req renv b
  refine ⟨⟨?_, ?_, ?_, ?_⟩, ⟨?_, ?_⟩, ⟨?_, ?_⟩, ?_, ?_, ?_⟩
  · rw [(hc false).1, (hc true).1]
  · rw [(hc false).2.1, (hc true).2.1]
  · rw [(hc false).2.2, (hc true).2.2]
  · intro hp
    simp [PaymentRepository.CreatePayment, hp]
  · rw [(hd false).1, (hd true).1]
  · rw [(hd false).2, (hd true).2]
  · rw [(hk false).1, (hk true).1]
  · rw [(hk false).2, (hk true).2]
  · rw [(hr false).1, (hr true).1]
  · rw [(hr false).2.1, (hr true).2.1]
  · rw [(hr false).2.2, (hr true).2.2]
/-! ## Circuit breaker: the counters stay in range -/

theorem resilience.CircuitBreaker.canExecute_inRange (cb : resilience.CircuitBreaker)
    (now : ℤ) (h : cb.CountsInRange) :
    (cb.canExecute now).2.CountsInRange ∧
    (cb.canExecute now).2.maxFailures = cb.maxFailures := by
  rcases cb with ⟨name, mf, rt, st, fc, lft, sc⟩
  unfold resilience.CircuitBreaker.CountsInRange at h ⊢
  unfold resilience.CircuitBreaker.canExecute
  cases st
  · exact ⟨h, rfl⟩
  · by_cases hgt : now - lft > rt
    · simp [hgt]
    · simp [hgt]
  · exact ⟨h, rfl⟩

theorem resilience.CircuitBreaker.recordResult_inRange (cb : resilience.CircuitBreaker)
    (err : Option Err) (now : ℤ) (hm : 1 ≤ cb.maxFailures) (h : cb.CountsInRange) :
    (cb.recordResult err now).CountsInRange ∧
    (cb.recordResult err now).maxFailures = cb.maxFailures := by
  rcases cb with ⟨name, mf, rt, st, fc, lft, sc⟩
  unfold resilience.CircuitBreaker.CountsInRange at h ⊢
  simp only at hm h
  cases err with
  | some e =>
    simp only [resilience.CircuitBreaker.recordResult, resilience.CircuitBreaker.recordFailure]
    cases st
    · by_cases hge : fc + 1 ≥ mf
      · simp [hge]
      · simp [hge]
        omega
    · simp
    · simp
  | none =>
    simp only [resilience.CircuitBreaker.recordResult, resilience.CircuitBreaker.recordSuccess]
    cases st
    · simp
      omega
    · simp
    · by_cases hge : sc + 1 ≥ 2
      · simp [hge]
        omega
      · simp [hge]
        omega

theorem resilience.CircuitBreaker.call_inRange (cb : resilience.CircuitBreaker)
    (c : BreakerCall) (hm : 1 ≤ cb.maxFailures) (h : cb.CountsInRange) :
    (cb.call c).CountsInRange ∧ (cb.call c).maxFailures = cb.maxFailures := by
  cases c with
  | execute env =>
    have hcan := resilience.CircuitBreaker.canExecute_inRange cb env.checkedAt h
    simp only [resilience.CircuitBreaker.call, resilience.CircuitBreaker.Execute]
    rcases hce : cb.canExecute env.checkedAt with ⟨eo, cb1⟩
    rw [hce] at hcan
    cases eo with
    | some e => exact hcan
    | none =>
      have hrec := resilience.CircuitBreaker.recordResult_inRange cb1 env.result
        env.recordedAt (by rw [hcan.2]; exact hm) hcan.1
      exact ⟨hrec.1, hrec.2.trans hcan.2⟩
  | getState => exact ⟨h, rfl⟩
  | reset =>
    refine ⟨?_, rfl⟩
    unfold resilience.CircuitBreaker.CountsInRange
    simp only [resilience.CircuitBreaker.call, resilience.CircuitBreaker.Reset]
    exact ⟨fun _ => by omega, fun hs => by simp at hs⟩

theorem resilience.CircuitBreaker.callAll_inRange (calls : List BreakerCall) :
    ∀ cb : resilience.CircuitBreaker, 1 ≤ cb.maxFailures → cb.CountsInRange →
      (cb.callAll calls).CountsInRange := by
  induction calls with
  | nil => intro cb _ h; exact h
  | cons c cs ih =>
    intro cb hm h
    have hstep := resilience.CircuitBreaker.call_inRange cb c hm h
    exact ih (cb.call c) (by rw [hstep.2]; exact hm) hstep.1

/-- C28: for a breaker made by `resilience.NewCircuitBreaker` with `maxFailures`
at least 1, after every sequence of `Execute`, `GetState` and `Reset` calls,
whatever the wrapped functions return and whatever the clock reads: when the
state is Closed the failure count is below `maxFailures`, and when the state is
Half-Open the success count is below 2. -/
theorem resilience.CircuitBreaker.counts_in_range (name : String) (maxFailures : ℤ)
    (resetTimeout : ℤ) (calls : List BreakerCall) (hm : 1 ≤ maxFailures) :
    (((resilience.NewCircuitBreaker name maxFailures resetTimeout).callAll calls).state
        = resilience.State.StateClosed →
      ((resilience.NewCircuitBreaker name maxFailures resetTimeout).callAll calls).failureCount
        < maxFailures) ∧
    (((resilience.NewCircuitBreaker name maxFailures resetTimeout).callAll calls).state
        = resilience.State.StateHalfOpen →
      ((resilience.NewCircuitBreaker name maxFailures resetTimeout).callAll calls).successCount
        < 2) := by
  have h0 : (resilience.NewCircuitBreaker name maxFailures resetTimeout).CountsInRange := by
    unfold resilience.CircuitBreaker.CountsInRange resilience.NewCircuitBreaker
    exact ⟨fun _ => by simpa using hm, fun hs => by simp at hs⟩
  have hmf : ∀ (cs : List BreakerCall) (cb : resilience.CircuitBreaker),
      1 ≤ cb.maxFailures → cb.CountsInRange → (cb.callAll cs).maxFailures = cb.maxFailures := by
    intro cs
    induction cs with
    | nil => intro cb _ _; rfl
    | cons c cs ih =>
      intro cb hm1 h1
      have hstep := resilience.CircuitBreaker.call_inRange cb c hm1 h1
      exact (ih (cb.call c) (by rw [hstep.2]; exact hm1) hstep.1).trans hstep.2
  have hinv := resilience.CircuitBreaker.callAll_inRange calls
    (resilience.NewCircuitBreaker name maxFailures resetTimeout) hm h0
  have hsame := hmf calls (resilience.NewCircuitBreaker name maxFailures resetTimeout) hm h0
  unfold resilience.CircuitBreaker.CountsInRange at hinv
  rw [hsame] at hinv
  exact hinv

/-- The instance of C28 for `breaker3` and `sampleBreakerCalls`. -/
theorem resilience.CircuitBreaker.counts_in_range_witness :
    (1 : ℤ) ≤ 3 ∧
    ((breaker3.callAll sampleBreakerCalls).state = resilience.State.StateClosed →
      (breaker3.callAll sampleBreakerCalls).failureCount < 3) ∧
    ((breaker3.callAll sampleBreakerCalls).state = resilience.State.StateHalfOpen →
      (breaker3.callAll sampleBreakerCalls).successCount < 2) :=
  ⟨by decide,
    resilience.CircuitBreaker.counts_in_range "payment-gateway" 3 30000000000
      sampleBreakerCalls (by decide)⟩

/-! ## Refund saga: sequences of refund calls -/

theorem RefundService.processAll_cons_error (s s1 : Store) (c : RefundRequest × RefundEnv)
    (cs : List (RefundRequest × RefundEnv)) (e : Err)
    (h : RefundService.ProcessRefund s c.1 c.2 = (Except.error e, s1)) :
    RefundService.processAll s (c :: cs) = RefundService.processAll s1 cs := by
  simp [RefundService.processAll, h]

theorem RefundService.processAll_cons_ok (s : Store) (c : RefundRequest × RefundEnv)
    (cs : List (RefundRequest × RefundEnv)) (resp : RefundResponse)
    (h : (RefundService.ProcessRefund s c.1 c.2).1 = Except.ok resp) :
    RefundService.processAll s (c :: cs) =
      ((RefundService.processAll (RefundService.ProcessRefund s c.1 c.2).2 cs).1,
        resp :: (RefundService.processAll (RefundService.ProcessRefund s c.1 c.2).2 cs).2) := by
  simp [RefundService.processAll, h]

theorem RefundService.ProcessRefund_refunded (s : Store) (req : RefundRequest)
    (env : RefundEnv) (q : Payment)
    (hp : getItem Payment.ID req.PaymentID s.payments = some q)
    (hq : q.Status = PaymentStatusRefunded) :
    ∃ e, RefundService.ProcessRefund s req env = (Except.error e, s) := by
  cases hv : RefundService.validateRefundRequest req with
  | some err => exact ⟨err, by simp [RefundService.ProcessRefund, hv]⟩
  | none =>
    cases hg : env.getOk
    · exact ⟨_, RefundService.ProcessRefund_read_failed s req env hv hg⟩
    · rw [RefundService.ProcessRefund_of_payment s req env q hv hp hg, if_pos hq]
      exact ⟨_, rfl⟩

theorem RefundService.processAll_refunded (id : String) (q : Payment)
    (hq : q.Status = PaymentStatusRefunded) (calls : List (RefundRequest × RefundEnv)) :
    ∀ s : Store, getItem Payment.ID id s.payments = some q →
      (∀ c ∈ calls, c.1.PaymentID = id) → RefundService.processAll s calls = (s, []) := by
  induction calls with
  | nil => intro s _ _; rfl
  | cons c cs ih =>
    intro s hp hid
    have hc : c.1.PaymentID = id := hid c (List.mem_cons_self c cs)
    obtain ⟨e, he⟩ := RefundService.ProcessRefund_refunded s c.1 c.2 q (by rw [hc]; exact hp) hq
    rw [RefundService.processAll_cons_error s s c cs e he]
    exact ih s hp (fun c1 h1 => hid c1 (List.mem_cons_of_mem c h1))

theorem RefundService.ProcessRefund_step (s : Store) (req : RefundRequest) (env : RefundEnv)
    (payment : Payment) (b : ℚ)
    (hp : getItem Payment.ID req.PaymentID s.payments = some payment)
    (hst : payment.Status = PaymentStatusCompleted) (hu : env.updateOk = true)
    (hb : RefundRepository.GetWalletBalance s payment.UserID true = Except.ok b) :
    (∃ e, RefundService.ProcessRefund s req env = (Except.error e, s)) ∨
    (∃ resp q, (RefundService.ProcessRefund s req env).1 = Except.ok resp ∧
      resp.Amount = req.Amount ∧ req.Amount ≤ payment.Amount ∧
      getItem Payment.ID req.PaymentID (RefundService.ProcessRefund s req env).2.payments
        = some q ∧
      q.Status = PaymentStatusRefunded ∧
      RefundRepository.GetWalletBalance (RefundService.ProcessRefund s req env).2
        payment.UserID true = Except.ok (b + formatFixed 2 req.Amount)) := by
  have hcr : ¬ PaymentStatusCompleted = PaymentStatusRefunded := by decide
  have hnr : ¬ payment.Status = PaymentStatusRefunded := by rw [hst]; exact hcr
  cases hv : RefundService.validateRefundRequest req with
  | some err => left; exact ⟨err, by simp [RefundService.ProcessRefund, hv]⟩
  | none =>
    cases hg : env.getOk
    · left; exact ⟨_, RefundService.ProcessRefund_read_failed s req env hv hg⟩
    · by_cases hgt : req.Amount > payment.Amount
      · left
        rw [RefundService.ProcessRefund_of_payment s req env payment hv hp hg, if_neg hnr,
          if_neg (not_not.mpr hst), if_pos hgt]
        exact ⟨_, rfl⟩
      · cases hc : env.creditOk
        · left
          rw [RefundService.ProcessRefund_of_payment s req env payment hv hp hg, if_neg hnr,
            if_neg (not_not.mpr hst), if_neg hgt,
            RefundService.creditAndMark_credit_failed s payment req env hc]
          exact ⟨_, rfl⟩
        · right
          obtain ⟨hres, hbal, hpay⟩ := RefundService.ProcessRefund_completed_ok s req env
            payment b hv hp hst (not_lt.mp hgt) hg hc hu hb
          exact ⟨_, _, hres, rfl, not_lt.mp hgt, hpay, rfl, hbal⟩

theorem RefundService.processAll_completed (id : String) (payment : Payment)
    (hst : payment.Status = PaymentStatusCompleted)
    (calls : List (RefundRequest × RefundEnv)) :
    ∀ (s : Store) (b : ℚ), getItem Payment.ID id s.payments = some payment →
      (∀ c ∈ calls, c.1.PaymentID = id ∧ c.2.updateOk = true) →
      RefundRepository.GetWalletBalance s payment.UserID true = Except.ok b →
      ((RefundService.processAll s calls).2 = [] ∨
        ∃ resp, (RefundService.processAll s calls).2 = [resp] ∧
          0 < resp.Amount ∧ resp.Amount ≤ payment.Amount) ∧
      RefundRepository.GetWalletBalance (RefundService.processAll s calls).1
        payment.UserID true =
        Except.ok (b + creditedTotal (RefundService.processAll s calls).2) := by
  induction calls with
  | nil =>
    intro s b _ _ hb
    exact ⟨Or.inl rfl, by simpa [RefundService.processAll, creditedTotal] using hb⟩
  | cons c cs ih =>
    intro s b hp hcalls hb
    obtain ⟨hid, hu⟩ := hcalls c (List.mem_cons_self c cs)
    have hrest : ∀ c1 ∈ cs, c1.1.PaymentID = id ∧ c1.2.updateOk = true :=
      fun c1 h1 => hcalls c1 (List.mem_cons_of_mem c h1)
    have hp1 : getItem Payment.ID c.1.PaymentID s.payments = some payment := by
      rw [hid]; exact hp
    rcases RefundService.ProcessRefund_step s c.1 c.2 payment b hp1 hst hu hb with
      ⟨e, he⟩ | ⟨resp, q, hres, hamt, hle, hq, hqs, hbal⟩
    · rw [RefundService.processAll_cons_error s s c cs e he]
      exact ih s b hp hrest hb
    · have hpos : 0 < c.1.Amount := by
        by_contra hn
        have hv : RefundService.validateRefundRequest c.1 ≠ none := by
          by_cases h0 : c.1.PaymentID = ""
          · simp [RefundService.validateRefundRequest, h0]
          · simp [RefundService.validateRefundRequest, h0, not_lt.mp hn]
        cases hv1 : RefundService.validateRefundRequest c.1 with
        | none => exact hv hv1
        | some err =>
          have : (RefundService.ProcessRefund s c.1 c.2).1 = Except.error err := by
            simp [RefundService.ProcessRefund, hv1]
          rw [this] at hres
          cases hres
      rw [hid] at hq
      have hblocked := RefundService.processAll_refunded id q hqs cs
        (RefundService.ProcessRefund s c.1 c.2).2 hq (fun c1 h1 => (hrest c1 h1).1)
      rw [RefundService.processAll_cons_ok s c cs resp hres, hblocked]
      refine ⟨Or.inr ⟨resp, rfl, by rw [hamt]; exact hpos, by rw [hamt]; exact hle⟩, ?_⟩
      simp only [creditedTotal, List.map_cons, List.map_nil, List.sum_cons, List.sum_nil,
        add_zero, hamt]
      exact hbal

theorem RefundService.processAll_append (pre post : List (RefundRequest × RefundEnv)) :
    ∀ s : Store, RefundService.processAll s (pre ++ post) =
      ((RefundService.processAll (RefundService.processAll s pre).1 post).1,
        (RefundService.processAll s pre).2 ++
          (RefundService.processAll (RefundService.processAll s pre).1 post).2) := by
  induction pre with
  | nil => intro s; rfl
  | cons c cs ih =>
    intro s
    cases hr : (RefundService.ProcessRefund s c.1 c.2).1 with
    | error e =>
      simp only [List.cons_append, RefundService.processAll, hr]
      exact ih _
    | ok resp =>
      rw [List.cons_append, RefundService.processAll_cons_ok s c (cs ++ post) resp hr,
        RefundService.processAll_cons_ok s c cs resp hr, ih]
      rfl

/-- C29 (amended): for a stored Completed payment of amount `A` and every
sequence of `RefundService.ProcessRefund` calls on it, one after another, with
arbitrary amounts, reasons and outcomes of the payment read, the wallet credit
and the event write, in which every payment write goes through: at most one
call returns without error, and its amount is at most `A`; once a call has
returned without error every later call fails; the stored balance of the
owner's wallet grows by the amount of that call rendered with two decimals (by
0 when no call succeeds), which is at most `A` when `A` is not negative and has
at most two decimals. -/
theorem RefundService.at_most_one_refund (s : Store) (payment : Payment) (b : ℚ)
    (calls : List (RefundRequest × RefundEnv))
    (hp : getItem Payment.ID payment.ID s.payments = some payment)
    (hst : payment.Status = PaymentStatusCompleted)
    (hcalls : ∀ c ∈ calls, c.1.PaymentID = payment.ID ∧ c.2.updateOk = true)
    (hb : RefundRepository.GetWalletBalance s payment.UserID true = Except.ok b) :
    (RefundService.processAll s calls).2.length ≤ 1 ∧
    (∀ resp ∈ (RefundService.processAll s calls).2, resp.Amount ≤ payment.Amount) ∧
    (∀ pre post, calls = pre ++ post → (RefundService.processAll s pre).2 ≠ [] →
      (RefundService.processAll (RefundService.processAll s pre).1 post).2 = []) ∧
    RefundRepository.GetWalletBalance (RefundService.processAll s calls).1
      payment.UserID true =
      Except.ok (b + creditedTotal (RefundService.processAll s calls).2) ∧
    (0 ≤ payment.Amount → HasDecimals 2 payment.Amount →
      creditedTotal (RefundService.processAll s calls).2 ≤ payment.Amount) := by
  obtain ⟨hone, hbal⟩ := RefundService.processAll_completed payment.ID payment hst calls s b
    hp hcalls hb
  have hlen : (RefundService.processAll s calls).2.length ≤ 1 := by
    rcases hone with h | ⟨resp, h, _⟩ <;> simp [h]
  refine ⟨hlen, ?_, ?_, hbal, ?_⟩
  · intro resp hmem
    rcases hone with h | ⟨r, h, _, hle⟩
    · rw [h] at hmem
      cases hmem
    · rw [h, List.mem_singleton] at hmem
      rw [hmem]
      exact hle
  · intro pre post hsplit hne
    rw [hsplit, RefundService.processAll_append] at hlen
    simp only [List.length_append] at hlen
    have hpos : 0 < (RefundService.processAll s pre).2.length := List.length_pos.mpr hne
    exact List.length_eq_zero.mp (by omega)
  · intro hnn hdec
    rcases hone with h | ⟨r, h, _, hle⟩
    · rw [h]
      simpa [creditedTotal] using hnn
    · rw [h]
      simp only [creditedTotal, List.map_cons, List.map_nil, List.sum_cons, List.sum_nil,
        add_zero]
      exact formatFixed_le_of_le 2 r.Amount payment.Amount hdec hle

theorem sampleRefunds_valid :
    ∀ c ∈ sampleRefunds, c.1.PaymentID = (storedPayment PaymentStatusCompleted 100).ID ∧
      c.2.updateOk = true := by
  intro c hc
  simp only [sampleRefunds, List.mem_cons, List.mem_singleton, List.not_mem_nil, or_false] at hc
  rcases hc with h | h | h <;> subst h <;> exact ⟨rfl, rfl⟩

/-- Witness of C29 (amended): the three calls `sampleRefunds` on the Completed
payment `pay1` of 100, the wallet of `u1` holding 100. -/
theorem RefundService.at_most_one_refund_witness :
    getItem Payment.ID "pay1" (paymentStore PaymentStatusCompleted 100).payments =
      some (storedPayment PaymentStatusCompleted 100) ∧
    (RefundService.processAll (paymentStore PaymentStatusCompleted 100)
      sampleRefunds).2.length ≤ 1 ∧
    (∀ resp ∈ (RefundService.processAll (paymentStore PaymentStatusCompleted 100)
      sampleRefunds).2, resp.Amount ≤ 100) ∧
    RefundRepository.GetWalletBalance
      (RefundService.processAll (paymentStore PaymentStatusCompleted 100) sampleRefunds).1
      "u1" true =
      Except.ok (100 + creditedTotal
        (RefundService.processAll (paymentStore PaymentStatusCompleted 100) sampleRefunds).2) ∧
    creditedTotal
      (RefundService.processAll (paymentStore PaymentStatusCompleted 100) sampleRefunds).2
      ≤ 100 :=
  have h := RefundService.at_most_one_refund (paymentStore PaymentStatusCompleted 100)
    (storedPayment PaymentStatusCompleted 100) 100 sampleRefunds (by decide) rfl
    sampleRefunds_valid rfl
  ⟨by decide, h.1, h.2.1, h.2.2.2.1,
    h.2.2.2.2 (by norm_num [storedPayment]) (hasDecimals_intCast 2 100)⟩

theorem formatFixed_just_below_ten : formatFixed 2 (9999 / 1000) = 10 := by
  have hfl : ⌊(9999 / 10 : ℚ)⌋ = 999 := by
    rw [Int.floor_eq_iff]; norm_num
  norm_num [formatFixed, roundHalfEven, hfl]

/-- Counterexample to C29 as stated: the Completed payment `pay1` of 9.999 is
refunded once, for 9.999, with every SDK call going through; the stored balance
of the wallet goes from 100 to 110, so the wallet is credited 10, more than the
amount of the payment. -/
theorem RefundService.credit_exceeds_payment :
    (RefundService.processAll (paymentStore PaymentStatusCompleted (9999 / 1000))
      [(refundRequest (9999 / 1000), refundEnvOk)]).2.length = 1 ∧
    RefundRepository.GetWalletBalance (paymentStore PaymentStatusCompleted (9999 / 1000))
      "u1" true = Except.ok 100 ∧
    RefundRepository.GetWalletBalance
      (RefundService.processAll (paymentStore PaymentStatusCompleted (9999 / 1000))
        [(refundRequest (9999 / 1000), refundEnvOk)]).1 "u1" true = Except.ok 110 ∧
    (110 : ℚ) - 100 > 9999 / 1000 := by
  have hv : RefundService.validateRefundRequest (refundRequest (9999 / 1000)) = none := by
    simp [RefundService.validateRefundRequest, refundRequest]
  have hb : RefundRepository.GetWalletBalance
      (paymentStore PaymentStatusCompleted (9999 / 1000))
      (storedPayment PaymentStatusCompleted (9999 / 1000)).UserID true = Except.ok 100 := rfl
  have hp : getItem Payment.ID (refundRequest (9999 / 1000)).PaymentID
      (paymentStore PaymentStatusCompleted (9999 / 1000)).payments =
      some (storedPayment PaymentStatusCompleted (9999 / 1000)) := by
    simp [getItem, paymentStore, refundRequest, storedPayment]
  obtain ⟨hres, hbal, _⟩ := RefundService.ProcessRefund_completed_ok
    (paymentStore PaymentStatusCompleted (9999 / 1000)) (refundRequest (9999 / 1000))
    refundEnvOk (storedPayment PaymentStatusCompleted (9999 / 1000)) 100 hv hp rfl
    (le_refl _) rfl rfl rfl hb
  have hamt : (refundRequest (9999 / 1000)).Amount = 9999 / 1000 := rfl
  rw [hamt, formatFixed_just_below_ten] at hbal
  have hrun := RefundService.processAll_cons_ok
    (paymentStore PaymentStatusCompleted (9999 / 1000))
    (refundRequest (9999 / 1000), refundEnvOk) [] _ hres
  rw [hrun]
  refine ⟨rfl, hb, ?_, by norm_num⟩
  rw [show (110 : ℚ) = 100 + 10 by norm_num]
  exact hbal

/-! ## Wallet ledger: creation of a missing wallet -/

theorem WalletService.getOrCreate_lost_race (s : Store) (userID : String) (read : WalletEnv)
    (fallbackOk : Bool) (it : WalletItem)
    (habs : getItem WalletItem.UserID userID s.wallets = none)
    (hnow : getItem WalletItem.UserID userID (read.between s).wallets = some it)
    (hg : read.getOk = true) (hc : read.createOk = true) (hf : fallbackOk = true) :
    WalletService.getOrCreate s userID read fallbackOk =
      (Except.error (Err.wrapf "failed to create wallet: %w"
        (Err.errorf "wallet already exists for user %s" [FmtArg.str userID])),
        read.between s) := by
  simp [WalletService.getOrCreate, WalletRepository.GetWallet, hg, habs, hc, hf,
    WalletRepository.CreateWallet, putItemIf, Wallet.toItem, hnow]

/-- C25, the code at the failing input: the wallets table holds no wallet for
`u1` when `WalletRepository.GetWallet` reads it, and another caller creates
that wallet before the conditional put; every SDK call goes through.  Then
`WalletService.GetBalance`, `WalletService.DebitWallet` (of 30) and
`WalletService.CreditWallet` (of 30) each return the error "failed to create
wallet" wrapping "wallet already exists for user u1", although the wallet of
`u1` is in the table, with balance 1000, when they return. -/
theorem WalletService.creation_race_surfaces :
    getItem WalletItem.UserID "u1" emptyStore.wallets = none ∧
    WalletService.GetBalance emptyStore "u1" walletEnvRaced true =
      (Except.error walletRaceError, freshWalletStore) ∧
    WalletService.DebitWallet emptyStore (debitRequest 30)
        { debitServiceEnvOk with read := walletEnvRaced } =
      (Except.error walletRaceError, freshWalletStore) ∧
    WalletService.CreditWallet emptyStore (creditRequest 30)
        { read := walletEnvRaced, fallbackOk := true, credit := walletEnvOk,
          reread := walletEnvOk } =
      (Except.error walletRaceError, freshWalletStore) ∧
    getItem WalletItem.UserID "u1" freshWalletStore.wallets = some freshWallet := by
  have hrace : WalletService.getOrCreate emptyStore "u1" walletEnvRaced true =
      (Except.error walletRaceError, freshWalletStore) :=
    WalletService.getOrCreate_lost_race emptyStore "u1" walletEnvRaced true freshWallet
      (by decide) (by decide) rfl rfl rfl
  have h30 : ¬ (30 : ℚ) ≤ 0 := by norm_num
  refine ⟨by decide, ?_, ?_, ?_, by decide⟩
  · simp [WalletService.GetBalance, hrace]
  · simp [WalletService.DebitWallet, WalletService.validateDebitRequest, debitRequest, h30,
      debitServiceEnvOk, hrace]
  · simp [WalletService.CreditWallet, WalletService.validateCreditRequest, creditRequest, h30,
      hrace]

/-- C26, the code at the failing input: for the user `u1` without wallet,
`WalletRepository.GetWallet` creates the wallet with balance 1000 and version 0;
`WalletService.GetBalance`, when the `GetItem` of that read fails and the
fallback `PutItem` goes through, creates it with balance 0 and version 0; and
`RefundRepository.CreditWallet` of 50 creates it with balance 50 and without a
version.  The three items differ. -/
theorem wallet_creation_paths_differ :
    getItem WalletItem.UserID "u1" emptyStore.wallets = none ∧
    (WalletRepository.GetWallet emptyStore "u1" walletEnvOk).2.wallets = [freshWallet] ∧
    (WalletService.GetBalance emptyStore "u1" walletEnvReadFails true).2.wallets
      = [fallbackWallet] ∧
    (RefundRepository.CreditWallet emptyStore "u1" 50 true).2.wallets = [upsertedWallet] ∧
    freshWallet.Balance = 1000 ∧ fallbackWallet.Balance = 0 ∧ upsertedWallet.Balance = 50 ∧
    freshWallet.Version = some 0 ∧ fallbackWallet.Version = some 0 ∧
    upsertedWallet.Version = none := by
  have h50 : formatFixed 2 50 = 50 := formatFixed_of_hasDecimals 2 50 (hasDecimals_intCast 2 50)
  refine ⟨by decide, by decide, by decide, ?_, rfl, rfl, rfl, rfl, rfl, rfl⟩
  simp [RefundRepository.CreditWallet, updateItem, getItem, putItem, emptyStore, addBalance,
    h50, upsertedWallet]

/-! ## Error messages and the debit handler -/

theorem fmt.scan_plain (p : List Char) (hp : '%' ∉ p) (cs : List Char) (args : List String) :
    fmt.scan false (p ++ cs) args = p ++ fmt.scan false cs args := by
  induction p with
  | nil => rfl
  | cons c p ih =>
    have hc : c ≠ '%' := fun h => hp (by simp [h])
    have hp1 : '%' ∉ p := fun h => hp (List.mem_cons_of_mem c h)
    simp [fmt.scan, hc, ih hp1]

theorem utf8Bytes_append (p q : List Char) :
    utf8Bytes (String.mk (p ++ q)) = utf8Bytes (String.mk p) ++ utf8Bytes (String.mk q) := by
  simp [utf8Bytes]

theorem debitErrorFormats_plainHead : ∀ f ∈ debitErrorFormats, plainHead f = true := by
  decide

theorem utf8Bytes_length (s : String) : (utf8Bytes s).length = s.utf8ByteSize := by
  rcases s with ⟨cs⟩
  induction cs with
  | nil => rfl
  | cons c cs ih =>
    have hcons : utf8Bytes (String.mk (c :: cs)) =
        (String.utf8EncodeChar c).map UInt8.toNat ++ utf8Bytes (String.mk cs) := by
      simp [utf8Bytes]
    rw [hcons, List.length_append, List.length_map, String.length_utf8EncodeChar, ih]
    simp only [String.utf8ByteSize, String.utf8ByteSize.go]
    omega

theorem fmt.Sprintf_head (f : String) (args : List String) (h : plainHead f = true) :
    sliceTo (fmt.Sprintf f args) 12 = some (utf8Bytes (String.mk (f.data.take 12))) := by
  simp only [plainHead, Bool.and_eq_true, decide_eq_true_eq] at h
  obtain ⟨hp, hlen⟩ := h
  have hsplit : fmt.Sprintf f args =
      String.mk (f.data.take 12 ++ fmt.scan false (f.data.drop 12) args) := by
    unfold fmt.Sprintf
    rw [← fmt.scan_plain (f.data.take 12) hp, List.take_append_drop]
  rw [hsplit]
  unfold sliceTo
  rw [utf8Bytes_append, List.length_append, hlen, if_pos (Nat.le_add_right 12 _)]
  rw [List.take_left' hlen]

theorem Err.Error_head (r : Rendering) (e : Err) (h : e.format ∈ debitErrorFormats) :
    sliceTo (e.Error r) 12 = some (utf8Bytes (String.mk (e.format.data.take 12))) := by
  cases e with
  | sdk => exact absurd h (by decide)
  | errorf f args => exact fmt.Sprintf_head f _ (debitErrorFormats_plainHead f h)
  | wrapf f c => exact fmt.Sprintf_head f _ (debitErrorFormats_plainHead f h)

theorem sliceTo_some (s : String) (n : ℕ) (head : List ℕ) (h : sliceTo s n = some head) :
    n ≤ s.utf8ByteSize ∧ (utf8Bytes s).take n = head := by
  unfold sliceTo at h
  split_ifs at h with hn
  rw [utf8Bytes_length] at hn
  exact ⟨hn, by simpa using h⟩

theorem WalletRepository.CreateWallet_format (s : Store) (wallet : Wallet) (ok : Bool) (e : Err)
    (h : (WalletRepository.CreateWallet s wallet ok).1 = some e) :
    e.format = "failed to create wallet: %w" ∨
      e.format = "wallet already exists for user %s" := by
  unfold WalletRepository.CreateWallet at h
  cases ok
  · simp only [Bool.false_eq_true, if_false, Option.some.injEq] at h
    subst h
    exact Or.inl rfl
  · cases hp : putItemIf WalletItem.UserID Option.isNone wallet.toItem s.wallets with
    | none =>
      simp only [hp, if_true, Option.some.injEq] at h
      subst h
      exact Or.inr rfl
    | some tbl => simp [hp] at h

theorem WalletRepository.GetWallet_format (s : Store) (u : String) (env : WalletEnv) (e : Err)
    (h : (WalletRepository.GetWallet s u env).1 = Except.error e) :
    e.format ∈ ["failed to get wallet: %w", "failed to create wallet: %w",
      "wallet already exists for user %s"] := by
  unfold WalletRepository.GetWallet at h
  cases hg : env.getOk
  · simp only [hg, Bool.false_eq_true, if_false, Except.error.injEq] at h
    subst h
    simp [Err.format]
  · cases hit : getItem WalletItem.UserID u s.wallets with
    | some it => simp [hg, hit] at h
    | none =>
      simp only [hg, if_true, hit] at h
      rcases hc : WalletRepository.CreateWallet (env.between s)
        { UserID := u, Balance := 1000, Currency := "USD", Version := 0,
          CreatedAt := env.now, UpdatedAt := env.now } env.createOk with ⟨eo, s1⟩
      rw [hc] at h
      cases eo with
      | none => simp at h
      | some e1 =>
        simp only [Except.error.injEq] at h
        subst h
        rcases WalletRepository.CreateWallet_format (env.between s) _ env.createOk e1
          (by rw [hc]) with hf | hf <;> simp [hf]

theorem WalletRepository.debitWrite_format (s : Store) (wallet : Wallet) (u : String) (a : ℚ)
    (p : String) (env : WalletEnv) (e : Err)
    (h : (WalletRepository.debitWrite s wallet u a p env).1 = Except.error e) :
    e.format ∈ ["failed to debit wallet: %w",
      "concurrent update detected or insufficient balance"] := by
  unfold WalletRepository.debitWrite at h
  cases hu : env.updateOk
  · simp only [hu, Bool.false_eq_true, if_false, Except.error.injEq] at h
    subst h
    simp [Err.format]
  · simp only [hu, if_true] at h
    split at h
    · simp at h
    · simp only [Except.error.injEq] at h
      subst h
      simp [Err.format]

theorem WalletRepository.DebitWallet_format (s : Store) (u : String) (a : ℚ) (p : String)
    (env : WalletEnv) (e : Err)
    (h : (WalletRepository.DebitWallet s u a p env).1 = Except.error e) :
    e.format ∈ debitErrorFormats := by
  unfold WalletRepository.DebitWallet at h
  rcases hgw : WalletRepository.GetWallet s u env with ⟨r, s1⟩
  rw [hgw] at h
  cases r with
  | error e1 =>
    simp only [Except.error.injEq] at h
    subst h
    have := WalletRepository.GetWallet_format s u env e1 (by rw [hgw])
    simp only [List.mem_cons, List.mem_singleton, List.not_mem_nil, or_false] at this
    rcases this with hf | hf | hf <;> rw [hf] <;> decide
  | ok wallet =>
    simp only at h
    split_ifs at h
    · simp only [Except.error.injEq] at h
      subst h
      show "insufficient balance: available=%f, required=%f" ∈ debitErrorFormats
      decide
    · have := WalletRepository.debitWrite_format s1 wallet u a p env e h
      simp only [List.mem_cons, List.mem_singleton, List.not_mem_nil, or_false] at this
      rcases this with hf | hf <;> rw [hf] <;> decide

theorem WalletService.getOrCreate_format (s : Store) (u : String) (read : WalletEnv)
    (fallbackOk : Bool) (e : Err)
    (h : (WalletService.getOrCreate s u read fallbackOk).1 = Except.error e) :
    e.format = "failed to create wallet: %w" := by
  unfold WalletService.getOrCreate at h
  rcases hgw : WalletRepository.GetWallet s u read with ⟨r, s1⟩
  rw [hgw] at h
  cases r with
  | ok wallet => simp at h
  | error e1 =>
    simp only at h
    split at h
    · simp only [Except.error.injEq] at h
      subst h
      rfl
    · simp at h

theorem WalletService.DebitWallet_error_format (s : Store) (req : DebitRequest)
    (env : DebitServiceEnv) (e : Err)
    (h : (WalletService.DebitWallet s req env).1 = Except.error e) :
    e.format ∈ debitErrorFormats := by
  unfold WalletService.DebitWallet at h
  cases hv : WalletService.validateDebitRequest req with
  | some err =>
    rw [hv] at h
    simp only [Except.error.injEq] at h
    subst h
    unfold WalletService.validateDebitRequest at hv
    split_ifs at hv <;> simp only [Option.some.injEq] at hv <;> subst hv <;> decide
  | none =>
    rw [hv] at h
    simp only at h
    rcases hgc : WalletService.getOrCreate s req.UserID env.read env.fallbackOk with ⟨r, s1⟩
    rw [hgc] at h
    cases r with
    | error e1 =>
      simp only [Except.error.injEq] at h
      subst h
      rw [WalletService.getOrCreate_format s req.UserID env.read env.fallbackOk e1
        (by rw [hgc])]
      decide
    | ok wallet =>
      simp only at h
      split_ifs at h
      · simp only [Except.error.injEq] at h
        subst h
        show "insufficient balance: available %f, required %f" ∈ debitErrorFormats
        decide
      · rcases hd : WalletRepository.DebitWallet s1 req.UserID req.Amount req.PaymentID
          env.debit with ⟨r2, s2⟩
        rw [hd] at h
        cases r2 with
        | error e2 =>
          simp only [Except.error.injEq] at h
          subst h
          exact WalletRepository.DebitWallet_format s1 req.UserID req.Amount req.PaymentID
            env.debit e2 (by rw [hd])
        | ok tx =>
          simp only at h
          split at h
          · simp only [Except.error.injEq] at h
            subst h
            show "failed to get updated wallet: %w" ∈ debitErrorFormats
            decide
          · simp at h

/-- C30: every error that `WalletService.DebitWallet` returns, for every store,
request and outcome of the SDK calls and however SDK errors and numbers are
rendered, has a message of at least 12 bytes; so `WalletHandler.handleDebit`
does not panic on the slice `err.Error()[:12]` but returns a response, whose
status is 400 exactly when the first 12 bytes of the message are
"insufficient" and 500 exactly when they are not. -/
theorem WalletHandler.handleDebit_status (r : Rendering) (s : Store) (req : DebitRequest)
    (env : DebitServiceEnv) (e : Err)
    (he : (WalletService.DebitWallet s req env).1 = Except.error e) :
    12 ≤ (e.Error r).utf8ByteSize ∧
    ∃ resp, (WalletHandler.handleDebit r s (some req) env).1 = some resp ∧
      (resp.StatusCode = 400 ↔
        (utf8Bytes (e.Error r)).take 12 = utf8Bytes "insufficient") ∧
      (resp.StatusCode = 500 ↔
        (utf8Bytes (e.Error r)).take 12 ≠ utf8Bytes "insufficient") := by
  have hhead := Err.Error_head r e (WalletService.DebitWallet_error_format s req env e he)
  obtain ⟨hlen, htake⟩ := sliceTo_some _ _ _ hhead
  refine ⟨hlen, ?_⟩
  rcases hd : WalletService.DebitWallet s req env with ⟨res, s1⟩
  rw [hd] at he
  simp only at he
  subst he
  unfold WalletHandler.handleDebit
  simp only [hd, hhead]
  rw [htake]
  by_cases hins : utf8Bytes (String.mk (e.format.data.take 12)) = utf8Bytes "insufficient"
  · rw [if_pos hins]
    exact ⟨_, rfl, by simp [hins], by simp [hins]⟩
  · rw [if_neg hins]
    exact ⟨_, rfl, by simp [hins], by simp [hins]⟩

/-- Witness of C30: a debit of 30 on the wallet of `u1` that holds 10. -/
theorem WalletHandler.handleDebit_status_witness :
    (WalletService.DebitWallet (walletStore 10 0) (debitRequest 30) debitServiceEnvOk).1
      = Except.error insufficientError ∧
    12 ≤ (insufficientError.Error sampleRendering).utf8ByteSize ∧
    ∃ resp, (WalletHandler.handleDebit sampleRendering (walletStore 10 0)
        (some (debitRequest 30)) debitServiceEnvOk).1 = some resp ∧
      (resp.StatusCode = 400 ↔
        (utf8Bytes (insufficientError.Error sampleRendering)).take 12
          = utf8Bytes "insufficient") ∧
      (resp.StatusCode = 500 ↔
        (utf8Bytes (insufficientError.Error sampleRendering)).take 12
          ≠ utf8Bytes "insufficient") :=
  have h : (WalletService.DebitWallet (walletStore 10 0) (debitRequest 30)
      debitServiceEnvOk).1 = Except.error insufficientError := by
    have h30 : ¬ (30 : ℚ) ≤ 0 := by norm_num
    have hlt : (10 : ℚ) < 30 := by norm_num
    simp [WalletService.DebitWallet, WalletService.validateDebitRequest, debitRequest, h30,
      WalletService.getOrCreate, WalletRepository.GetWallet, debitServiceEnvOk, walletEnvOk,
      walletStore, getItem, WalletItem.toWallet, hlt, insufficientError]
  ⟨h, WalletHandler.handleDebit_status sampleRendering (walletStore 10 0) (debitRequest 30)
    debitServiceEnvOk insufficientError h⟩
